import Mathlib

/-!
# BBApp sweep-configuration model

A shallow embedding of `src/model/sweep_settings.cpp` (class `SweepSettings`).

* Frequencies, times and plain `double`s are rationals: the arithmetic is exact, and every
  value is a number.
* The section on IEEE doubles embeds `AutoBandwidthAdjust`, `setCenter`, `setSpan`, `setVBW` and
  `setAutoVbw` a second time, on doubles with NaN and rounding to nearest; the behaviour of the
  code that exact arithmetic does not show is evaluated there.
* Every member function is a pure function from the configuration before the call to the
  configuration after it; `emit updated(this)` increments the `emitted` counter.
* The constants, functions and value types that `sweep_settings.cpp` takes from the headers
  `bb_api.h`, `bb_lib.h`, `amplitude.h` and `frequency.h` are fields of `Hardware`, or small
  definitions marked as modelled from the specification.
-/

namespace BBApp

/-! ## Support types -/

/-- Modelled from the spec: the `Frequency` value type of the absent header `frequency.h`; its
`Val()` is the number of hertz, arithmetic and comparison are those of that number. -/
abbrev Frequency := ℚ

/-- Modelled from the spec: the `Time` value type of the absent header; `Val()` is in seconds. -/
abbrev Time := ℚ

/-- Modelled from the spec: the enum `OperationalMode` of the absent header
`sweep_settings.h`. `Load` casts a stored `int` to it, so a mode is its integer value. -/
abbrev OperationalMode := Int

/-- Modelled from the spec: enumerator for plain swept acquisition (`Sweeping`). -/
abbrev MODE_SWEEPING : OperationalMode := 0

/-- Modelled from the spec: enumerator for real-time acquisition (`RealTime`). -/
abbrev MODE_REAL_TIME : OperationalMode := 1

/-- Modelled from the spec: enumerator for time-gated acquisition (`TimeGate`). -/
abbrev MODE_TIME_GATE : OperationalMode := 3

/-- Modelled from the spec: the API constant `BB_REAL_TIME` of the absent header `bb_api.h`;
the source compares the mode field with it and with `MODE_REAL_TIME` interchangeably. -/
abbrev BB_REAL_TIME : OperationalMode := MODE_REAL_TIME

/-- Modelled from the spec: the unit tag of an amplitude (absent header `amplitude.h`);
`DBM` is a logarithmic representation and `MV` a linear one. -/
inductive AmpUnits
  | DBM
  | MV
deriving DecidableEq, Repr

/-- Modelled from the spec: the `Amplitude` value type of the absent header `amplitude.h`,
a number (`Val()`) tagged with its unit. -/
structure Amplitude where
  val : ℚ
  units : AmpUnits
deriving DecidableEq

/-- Modelled from the spec: `Amplitude::IsLogScale`, true for the logarithmic representation. -/
def Amplitude.IsLogScale (a : Amplitude) : Bool :=
  decide (a.units ≠ AmpUnits.MV)

/-- Modelled from the spec: `Amplitude::operator+=(double)`, which steps the number and keeps
the unit. -/
def Amplitude.add (a : Amplitude) (d : ℚ) : Amplitude :=
  { a with val := a.val + d }

/-- Modelled from the spec: `Amplitude::operator-=(double)`. -/
def Amplitude.sub (a : Amplitude) (d : ℚ) : Amplitude :=
  { a with val := a.val - d }

/-- Modelled from the spec: `bb_lib::max2` of the absent header `bb_lib.h`. -/
def max2 (a b : ℚ) : ℚ := max a b

/-- Modelled from the spec: `bb_lib::min2` of the absent header `bb_lib.h`. -/
def min2 (a b : ℚ) : ℚ := min a b

/-- Modelled from the spec: `bb_lib::min3` of the absent header `bb_lib.h`. -/
def min3 (a b c : ℚ) : ℚ := min a (min b c)

/-- Modelled from the spec: `bb_lib::clamp(val, min, max)` of the absent header `bb_lib.h`: the
value is raised to `min` when below it, then lowered to `max` when above it. -/
def clamp (val lo hi : ℚ) : ℚ :=
  let v := if val < lo then lo else val
  if v > hi then hi else v

/-! ## Hardware capabilities -/

/-- The constants of `bb_api.h`, the functions and the table of `bb_lib`, and the conversions of
the amplitude type that `sweep_settings.cpp` uses and that are declared elsewhere. They are inputs
of the model. `maxRealTimeSpan` is the static member initialised from `BB60A_MAX_RT_SPAN`. -/
structure Hardware where
  BB60_MIN_FREQ : ℚ
  BB60_MAX_FREQ : ℚ
  BB_MIN_SPAN : ℚ
  BB_MIN_RT_SPAN : ℚ
  BB_MIN_RT_RBW : ℚ
  BB_MAX_RT_RBW : ℚ
  maxRealTimeSpan : ℚ
  BB_POWER : Int
  BB_AVERAGE : Int
  /-- `bb_lib::get_best_rbw(span, native_rbw)` -/
  get_best_rbw : ℚ → Bool → ℚ
  /-- `bb_lib::adjust_rbw_on_span(rbw, span, native_rbw)`: the value left in `rbw` -/
  adjust_rbw_on_span : ℚ → ℚ → Bool → ℚ
  /-- `bb_lib::sequence_bw(bw, native_rbw, inc)` -/
  sequence_bw : ℚ → Bool → Bool → ℚ
  /-- `bb_lib::sequence_span(span, inc)` -/
  sequence_span : ℚ → Bool → ℚ
  /-- `bb_lib::get_native_bw_index(f)` -/
  get_native_bw_index : ℚ → Int
  /-- `native_bw_lut[ix].bw` -/
  native_bw_lut : Int → ℚ
  /-- the amplitude in dBm of a value in millivolts (used to compare amplitudes) -/
  mV_to_dBm : ℚ → ℚ
  /-- the assignment `amplitude = double`: the amplitude held before, the number assigned -/
  assignDouble : Amplitude → ℚ → Amplitude

/-- Modelled from the spec: `Amplitude::ConvertToUnits(DBM)`, the level in dBm on which
amplitudes are compared. -/
def Amplitude.toDBM (hw : Hardware) (a : Amplitude) : ℚ :=
  match a.units with
  | AmpUnits.DBM => a.val
  | AmpUnits.MV => hw.mV_to_dBm a.val

/-- Modelled from the spec: `Amplitude::Clamp(min, max)`: the amplitude is replaced by `min`
when below it and by `max` when above it. -/
def Amplitude.Clamp (hw : Hardware) (a lo hi : Amplitude) : Amplitude :=
  let a1 := if a.toDBM hw < lo.toDBM hw then lo else a
  if a1.toDBM hw > hi.toDBM hw then hi else a1

/-! ## The configuration -/

/-- The data members of `SweepSettings`, and the number of `updated` signals emitted so far. -/
structure SweepSettings where
  mode : OperationalMode
  start : Frequency
  stop : Frequency
  center : Frequency
  span : Frequency
  step : Frequency
  rbw : Frequency
  vbw : Frequency
  auto_rbw : Bool
  auto_vbw : Bool
  native_rbw : Bool
  refLevel : Amplitude
  div : ℚ
  attenuation : Int
  gain : Int
  sweepTime : Time
  processingUnits : Int
  detector : Int
  rejection : Bool
  emitted : Nat
deriving DecidableEq

namespace SweepSettings

/-- The statement `emit updated(this)`. -/
def emitUpdated (s : SweepSettings) : SweepSettings :=
  { s with emitted := s.emitted + 1 }

/-- `SweepSettings::operator=`: every data member is copied, then the signal is emitted. -/
def assign (s other : SweepSettings) : SweepSettings :=
  emitUpdated
    { s with
      mode := other.mode
      start := other.start
      stop := other.stop
      center := other.center
      span := other.span
      step := other.step
      rbw := other.rbw
      vbw := other.vbw
      auto_rbw := other.auto_rbw
      auto_vbw := other.auto_vbw
      native_rbw := other.native_rbw
      refLevel := other.refLevel
      div := other.div
      attenuation := other.attenuation
      gain := other.gain
      sweepTime := other.sweepTime
      processingUnits := other.processingUnits
      detector := other.detector
      rejection := other.rejection }

/-- `SweepSettings::operator==`, comparison by comparison in the order of the source. -/
def eq (s other : SweepSettings) : Bool :=
  if s.mode ≠ other.mode then false
  else if s.start ≠ other.start then false
  else if s.stop ≠ other.stop then false
  else if s.center ≠ other.center then false
  else if s.span ≠ other.span then false
  else if s.step ≠ other.step then false
  else if s.rbw ≠ other.rbw then false
  else if s.vbw ≠ other.vbw then false
  else if s.auto_rbw ≠ other.auto_rbw then false
  else if s.auto_vbw ≠ other.auto_vbw then false
  else if s.refLevel ≠ other.refLevel then false
  else if s.div ≠ other.div then false
  else if s.attenuation ≠ other.attenuation then false
  else if s.gain ≠ other.gain then false
  else if s.sweepTime ≠ other.sweepTime then false
  else if s.processingUnits ≠ other.processingUnits then false
  else if s.detector ≠ other.detector then false
  else if s.rejection ≠ other.rejection then false
  else true

/-- `SweepSettings::operator!=`. -/
def ne (s other : SweepSettings) : Bool :=
  !(s.eq other)

/-- `SweepSettings::LoadDefaults`: every data member takes its factory value; nothing is
emitted. -/
def LoadDefaults (hw : Hardware) (s : SweepSettings) : SweepSettings :=
  { s with
    mode := MODE_SWEEPING
    start := 11000000
    stop := 6000000000
    span := 6000000000 - 11000000
    center := (11000000 + 6000000000) / 2
    step := 20000000
    rbw := 300000
    vbw := 300000
    auto_rbw := true
    auto_vbw := true
    native_rbw := false
    refLevel := ⟨-30, AmpUnits.DBM⟩
    div := 10
    attenuation := 0
    gain := 0
    sweepTime := 1 / 1000
    processingUnits := hw.BB_POWER
    detector := hw.BB_AVERAGE
    rejection := false }

/-- The members before the constructor body runs: value types default-constructed. Every one of
them is overwritten by `LoadDefaults`. -/
def uninitialised : SweepSettings :=
  { mode := 0, start := 0, stop := 0, center := 0, span := 0, step := 0, rbw := 0, vbw := 0,
    auto_rbw := false, auto_vbw := false, native_rbw := false, refLevel := ⟨0, AmpUnits.DBM⟩,
    div := 0, attenuation := 0, gain := 0, sweepTime := 0, processingUnits := 0, detector := 0,
    rejection := false, emitted := 0 }

/-- The default constructor `SweepSettings::SweepSettings()`: it calls `LoadDefaults`. -/
def defaults (hw : Hardware) : SweepSettings :=
  LoadDefaults hw uninitialised

/-- `SweepSettings::IsAveragePower`. -/
def IsAveragePower (hw : Hardware) (s : SweepSettings) : Bool :=
  decide (s.detector = hw.BB_AVERAGE) && decide (s.processingUnits = hw.BB_POWER)

/-- `SweepSettings::AutoBandwidthAdjust(force)`. -/
def AutoBandwidthAdjust (hw : Hardware) (force : Bool) (s : SweepSettings) : SweepSettings :=
  let s1 := if s.mode = BB_REAL_TIME then { s with native_rbw := true } else s
  let s2 :=
    if s1.auto_rbw || force then { s1 with rbw := hw.get_best_rbw s1.span s1.native_rbw }
    else { s1 with rbw := hw.adjust_rbw_on_span s1.rbw s1.span s1.native_rbw }
  let s3 :=
    if s2.auto_vbw || decide (s2.vbw > s2.rbw) || decide (s2.mode = BB_REAL_TIME) then
      { s2 with vbw := s2.rbw }
    else s2
  if s3.mode = BB_REAL_TIME then
    let clamped := clamp s3.rbw hw.BB_MIN_RT_RBW hw.BB_MAX_RT_RBW
    { s3 with rbw := clamped, vbw := clamped }
  else s3

/-- `SweepSettings::setMode(new_mode)`; no signal is emitted. -/
def setMode (hw : Hardware) (new_mode : OperationalMode) (s : SweepSettings) : SweepSettings :=
  let s0 := { s with mode := new_mode }
  if s0.mode = BB_REAL_TIME then
    let s1 := { s0 with native_rbw := true, auto_rbw := true, auto_vbw := true }
    let s2 :=
      if s1.span > hw.maxRealTimeSpan then
        { s1 with
          span := hw.maxRealTimeSpan
          start := s1.center - hw.maxRealTimeSpan / 2
          stop := s1.center + hw.maxRealTimeSpan / 2 }
      else s1
    AutoBandwidthAdjust hw true s2
  else s0

/-- `SweepSettings::setStart(f)`. -/
def setStart (hw : Hardware) (f : Frequency) (s : SweepSettings) : SweepSettings :=
  let min_start := max2 f hw.BB60_MIN_FREQ
  let valid : Bool :=
    if min_start < s.stop - hw.BB_MIN_SPAN then
      if s.mode = MODE_REAL_TIME then
        if s.stop - min_start ≤ hw.maxRealTimeSpan ∧ s.stop - min_start ≥ hw.BB_MIN_RT_SPAN then
          true
        else false
      else true
    else false
  let s1 :=
    if valid then
      { s with
        start := min_start
        span := s.stop - min_start
        center := min_start + (s.stop - min_start) / 2 }
    else s
  emitUpdated (AutoBandwidthAdjust hw false s1)

/-- `SweepSettings::setStop(f)`. -/
def setStop (hw : Hardware) (f : Frequency) (s : SweepSettings) : SweepSettings :=
  let max_stop := min2 f hw.BB60_MAX_FREQ
  let valid : Bool :=
    if max_stop > s.start + hw.BB_MIN_SPAN then
      if s.mode = MODE_REAL_TIME then
        if max_stop - s.start ≤ hw.maxRealTimeSpan ∧ max_stop - s.start ≥ hw.BB_MIN_RT_SPAN then
          true
        else false
      else true
    else false
  let s1 :=
    if valid then
      { s with
        stop := max_stop
        span := max_stop - s.start
        center := s.start + (max_stop - s.start) / 2 }
    else s
  emitUpdated (AutoBandwidthAdjust hw false s1)

/-- `SweepSettings::setCenter(f)`. -/
def setCenter (hw : Hardware) (f : Frequency) (s : SweepSettings) : SweepSettings :=
  let s1 :=
    if f < hw.BB60_MIN_FREQ + hw.BB_MIN_SPAN * 2 ∨ f > hw.BB60_MAX_FREQ - hw.BB_MIN_SPAN * 2 then
      s
    else
      let span := min3 s.span ((f - hw.BB60_MIN_FREQ) * 2) ((hw.BB60_MAX_FREQ - f) * 2)
      { s with
        center := f
        span := span
        start := f - span / 2
        stop := f + span / 2 }
  emitUpdated (AutoBandwidthAdjust hw false s1)

/-- `SweepSettings::increaseCenter(inc)`. -/
def increaseCenter (hw : Hardware) (inc : Bool) (s : SweepSettings) : SweepSettings :=
  if inc then setCenter hw (s.center + s.step) s else setCenter hw (s.center - s.step) s

/-- `SweepSettings::setSpan(f)`. -/
def setSpan (hw : Hardware) (f : Frequency) (s : SweepSettings) : SweepSettings :=
  let f1 := if f < hw.BB_MIN_SPAN then hw.BB_MIN_SPAN else f
  let f2 :=
    if s.mode = MODE_REAL_TIME ∨ s.mode = MODE_TIME_GATE then
      clamp f1 hw.BB_MIN_RT_SPAN hw.maxRealTimeSpan
    else f1
  let s1 :=
    if s.center - f2 / 2 < hw.BB60_MIN_FREQ then
      { s with
        start := hw.BB60_MIN_FREQ
        stop := min2 (hw.BB60_MIN_FREQ + f2) hw.BB60_MAX_FREQ }
    else if s.center + f2 / 2 > hw.BB60_MAX_FREQ then
      { s with
        stop := hw.BB60_MAX_FREQ
        start := max2 (hw.BB60_MAX_FREQ - f2) hw.BB60_MIN_FREQ }
    else
      { s with
        start := s.center - f2 / 2
        stop := s.center + f2 / 2 }
  let s2 := { s1 with center := (s1.start + s1.stop) / 2, span := s1.stop - s1.start }
  emitUpdated (AutoBandwidthAdjust hw false s2)

/-- `SweepSettings::increaseSpan(inc)`. -/
def increaseSpan (hw : Hardware) (inc : Bool) (s : SweepSettings) : SweepSettings :=
  setSpan hw (hw.sequence_span s.span inc) s

/-- `SweepSettings::setStep(f)`. -/
def setStep (f : Frequency) (s : SweepSettings) : SweepSettings :=
  emitUpdated { s with step := f }

/-- `SweepSettings::setFullSpan()`. -/
def setFullSpan (hw : Hardware) (s : SweepSettings) : SweepSettings :=
  let s1 :=
    { s with
      start := 10000000
      stop := 6000000000
      center := (6000000000 + 10000000) / 2
      span := 6000000000 - 10000000
      auto_rbw := true
      auto_vbw := true }
  emitUpdated (AutoBandwidthAdjust hw false s1)

/-- `SweepSettings::setRBW(f)`. -/
def setRBW (hw : Hardware) (f : Frequency) (s : SweepSettings) : SweepSettings :=
  let s1 :=
    if s.native_rbw then { s with rbw := hw.native_bw_lut (hw.get_native_bw_index f) }
    else { s with rbw := f }
  emitUpdated (AutoBandwidthAdjust hw false { s1 with auto_rbw := false })

/-- `SweepSettings::setVBW(f)`. -/
def setVBW (hw : Hardware) (f : Frequency) (s : SweepSettings) : SweepSettings :=
  let s1 := { s with vbw := f }
  let s2 := if s1.vbw > s1.rbw then { s1 with vbw := s1.rbw } else s1
  emitUpdated (AutoBandwidthAdjust hw false { s2 with auto_vbw := false })

/-- `SweepSettings::rbwIncrease(inc)`. -/
def rbwIncrease (hw : Hardware) (inc : Bool) (s : SweepSettings) : SweepSettings :=
  let new_rbw := hw.sequence_bw s.rbw s.native_rbw inc
  emitUpdated (AutoBandwidthAdjust hw false { s with rbw := new_rbw, auto_rbw := false })

/-- `SweepSettings::vbwIncrease(inc)`. -/
def vbwIncrease (hw : Hardware) (inc : Bool) (s : SweepSettings) : SweepSettings :=
  let new_vbw := hw.sequence_bw s.vbw s.native_rbw inc
  let new_vbw1 := if new_vbw > s.rbw then s.rbw else new_vbw
  emitUpdated (AutoBandwidthAdjust hw false { s with auto_vbw := false, vbw := new_vbw1 })

/-- `SweepSettings::setAutoRbw(new_auto)`. -/
def setAutoRbw (hw : Hardware) (new_auto : Bool) (s : SweepSettings) : SweepSettings :=
  emitUpdated (AutoBandwidthAdjust hw false { s with auto_rbw := new_auto })

/-- `SweepSettings::setAutoVbw(new_auto)`: no bandwidth adjustment. -/
def setAutoVbw (new_auto : Bool) (s : SweepSettings) : SweepSettings :=
  let s1 := { s with auto_vbw := new_auto }
  let s2 := if s1.auto_vbw then { s1 with vbw := s1.rbw } else s1
  emitUpdated s2

/-- `SweepSettings::setNativeRBW(native)`. -/
def setNativeRBW (hw : Hardware) (native : Bool) (s : SweepSettings) : SweepSettings :=
  emitUpdated (AutoBandwidthAdjust hw true { s with native_rbw := native, auto_rbw := true })

/-- `SweepSettings::setRefLevel(new_ref)`. -/
def setRefLevel (hw : Hardware) (new_ref : Amplitude) (s : SweepSettings) : SweepSettings :=
  emitUpdated
    { s with refLevel := new_ref.Clamp hw ⟨-100, AmpUnits.DBM⟩ ⟨20, AmpUnits.DBM⟩ }

/-- `SweepSettings::shiftRefLevel(inc)`. -/
def shiftRefLevel (inc : Bool) (s : SweepSettings) : SweepSettings :=
  let r :=
    if s.refLevel.IsLogScale then
      if inc then s.refLevel.add s.div else s.refLevel.sub s.div
    else
      if inc then (⟨s.refLevel.val * (12 / 10), AmpUnits.MV⟩ : Amplitude)
      else ⟨s.refLevel.val * (8 / 10), AmpUnits.MV⟩
  emitUpdated { s with refLevel := r }

/-- `SweepSettings::setDiv(new_div)`. -/
def setDiv (new_div : ℚ) (s : SweepSettings) : SweepSettings :=
  emitUpdated { s with div := clamp new_div (1 / 10) 30 }

/-- `SweepSettings::setAttenuation(atten_ix)`. -/
def setAttenuation (atten_ix : Int) (s : SweepSettings) : SweepSettings :=
  emitUpdated { s with attenuation := atten_ix }

/-- `SweepSettings::setGain(gain_ix)`. -/
def setGain (gain_ix : Int) (s : SweepSettings) : SweepSettings :=
  emitUpdated { s with gain := gain_ix }

/-- `SweepSettings::setDetector(new_detector)`. -/
def setDetector (new_detector : Int) (s : SweepSettings) : SweepSettings :=
  if s.detector ≠ new_detector then emitUpdated { s with detector := new_detector } else s

/-- `SweepSettings::setProcUnits(new_units)`. -/
def setProcUnits (new_units : Int) (s : SweepSettings) : SweepSettings :=
  if s.processingUnits ≠ new_units then emitUpdated { s with processingUnits := new_units }
  else s

/-- `SweepSettings::setSweepTime(new_sweep_time)`. -/
def setSweepTime (new_sweep_time : Time) (s : SweepSettings) : SweepSettings :=
  emitUpdated { s with sweepTime := new_sweep_time }

/-- `SweepSettings::setRejection(image_reject)`. -/
def setRejection (image_reject : Bool) (s : SweepSettings) : SweepSettings :=
  if s.rejection ≠ image_reject then emitUpdated { s with rejection := image_reject } else s

end SweepSettings

/-! ## Persistence -/

/-- Modelled from the spec: a value held by the settings store (Qt's `QVariant`, an external
collaborator): an integer, a floating-point number or a boolean. -/
inductive QVariant
  | int (i : Int)
  | double (d : ℚ)
  | bool (b : Bool)
deriving DecidableEq

/-- Modelled from the spec: the flat key-value settings store (Qt's `QSettings`, an external
collaborator): each key path holds a value or is absent. -/
abbrev QSettings := String → Option QVariant

namespace QSettings

/-- The store with no key. -/
def empty : QSettings := fun _ => none

/-- Modelled from the spec: `QSettings::setValue(key, value)`. -/
def setValue (st : QSettings) (key : String) (v : QVariant) : QSettings :=
  fun k => if k = key then some v else st k

/-- Modelled from the spec: `value(key, default).toInt()`, the typed get-with-default: a missing
key or a value of another type gives the default. -/
def valueInt (st : QSettings) (key : String) (dflt : Int) : Int :=
  match st key with
  | some (QVariant.int i) => i
  | _ => dflt

/-- Modelled from the spec: `value(key, default).toDouble()`, the typed get-with-default. -/
def valueDouble (st : QSettings) (key : String) (dflt : ℚ) : ℚ :=
  match st key with
  | some (QVariant.double d) => d
  | _ => dflt

/-- Modelled from the spec: `value(key, default).toBool()`, the typed get-with-default. -/
def valueBool (st : QSettings) (key : String) (dflt : Bool) : Bool :=
  match st key with
  | some (QVariant.bool b) => b
  | _ => dflt

end QSettings

namespace SweepSettings

/-- `SweepSettings::Load(s)`: the configuration after the call and the returned flag. -/
def Load (hw : Hardware) (st : QSettings) (s : SweepSettings) : SweepSettings × Bool :=
  (emitUpdated
    { s with
      mode := st.valueInt "Mode" s.mode
      start := st.valueDouble "Sweep/Start" s.start
      stop := st.valueDouble "Sweep/Stop" s.stop
      center := st.valueDouble "Sweep/Center" s.center
      span := st.valueDouble "Sweep/Span" s.span
      step := st.valueDouble "Sweep/Step" s.step
      rbw := st.valueDouble "Sweep/RBW" s.rbw
      vbw := st.valueDouble "Sweep/VBW" s.vbw
      auto_rbw := st.valueBool "Sweep/AutoRBW" s.auto_rbw
      auto_vbw := st.valueBool "Sweep/AutoVBW" s.auto_vbw
      native_rbw := st.valueBool "Sweep/NativeRBW" s.native_rbw
      refLevel := hw.assignDouble s.refLevel (st.valueDouble "Sweep/RefLevel" s.refLevel.val)
      div := st.valueDouble "Sweep/Division" s.div
      attenuation := st.valueInt "Sweep/Attenuation" s.attenuation
      gain := st.valueInt "Sweep/Gain" s.gain
      sweepTime := st.valueDouble "Sweep/SweepTime" s.sweepTime
      processingUnits := st.valueInt "Sweep/ProcessingUnits" s.processingUnits
      detector := st.valueInt "Sweep/Detector" s.detector
      rejection := st.valueBool "Sweep/Rejection" s.rejection },
   true)

/-- `SweepSettings::Save(s)`: the store after the call and the returned flag. -/
def Save (s : SweepSettings) (st : QSettings) : QSettings × Bool :=
  let st := st.setValue "Mode" (QVariant.int s.mode)
  let st := st.setValue "Sweep/Start" (QVariant.double s.start)
  let st := st.setValue "Sweep/Stop" (QVariant.double s.stop)
  let st := st.setValue "Sweep/Center" (QVariant.double s.center)
  let st := st.setValue "Sweep/Span" (QVariant.double s.span)
  let st := st.setValue "Sweep/Step" (QVariant.double s.step)
  let st := st.setValue "Sweep/RBW" (QVariant.double s.rbw)
  let st := st.setValue "Sweep/VBW" (QVariant.double s.vbw)
  let st := st.setValue "Sweep/AutoRBW" (QVariant.bool s.auto_rbw)
  let st := st.setValue "Sweep/AutoVBW" (QVariant.bool s.auto_vbw)
  let st := st.setValue "Sweep/NativeRBW" (QVariant.bool s.native_rbw)
  let st := st.setValue "Sweep/RefLevel" (QVariant.double s.refLevel.val)
  let st := st.setValue "Sweep/Division" (QVariant.double s.div)
  let st := st.setValue "Sweep/Attenuation" (QVariant.int s.attenuation)
  let st := st.setValue "Sweep/Gain" (QVariant.int s.gain)
  let st := st.setValue "Sweep/SweepTime" (QVariant.double s.sweepTime)
  let st := st.setValue "Sweep/ProcessingUnits" (QVariant.int s.processingUnits)
  let st := st.setValue "Sweep/Detector" (QVariant.int s.detector)
  let st := st.setValue "Sweep/Rejection" (QVariant.bool s.rejection)
  (st, true)

end SweepSettings

/-- The key paths named in `Load` and in `Save`, in the order of the source. -/
def sweepKeys : List String :=
  ["Mode", "Sweep/Start", "Sweep/Stop", "Sweep/Center", "Sweep/Span", "Sweep/Step", "Sweep/RBW",
   "Sweep/VBW", "Sweep/AutoRBW", "Sweep/AutoVBW", "Sweep/NativeRBW", "Sweep/RefLevel",
   "Sweep/Division", "Sweep/Attenuation", "Sweep/Gain", "Sweep/SweepTime",
   "Sweep/ProcessingUnits", "Sweep/Detector", "Sweep/Rejection"]

/-! ## Sequences of public mutator calls -/

/-- One call of a public mutator, with its argument. -/
inductive Op
  | setMode (new_mode : OperationalMode)
  | setStart (f : Frequency)
  | setStop (f : Frequency)
  | setCenter (f : Frequency)
  | increaseCenter (inc : Bool)
  | setSpan (f : Frequency)
  | increaseSpan (inc : Bool)
  | setStep (f : Frequency)
  | setFullSpan
  | setRBW (f : Frequency)
  | setVBW (f : Frequency)
  | rbwIncrease (inc : Bool)
  | vbwIncrease (inc : Bool)
  | setAutoRbw (new_auto : Bool)
  | setAutoVbw (new_auto : Bool)
  | setNativeRBW (native : Bool)
  | setRefLevel (new_ref : Amplitude)
  | shiftRefLevel (inc : Bool)
  | setDiv (new_div : ℚ)
  | setAttenuation (atten_ix : Int)
  | setGain (gain_ix : Int)
  | setDetector (new_detector : Int)
  | setProcUnits (new_units : Int)
  | setSweepTime (new_sweep_time : Time)
  | setRejection (image_reject : Bool)

/-- The configuration after one mutator call. -/
def Op.apply (hw : Hardware) (s : SweepSettings) : Op → SweepSettings
  | Op.setMode m => s.setMode hw m
  | Op.setStart f => s.setStart hw f
  | Op.setStop f => s.setStop hw f
  | Op.setCenter f => s.setCenter hw f
  | Op.increaseCenter inc => s.increaseCenter hw inc
  | Op.setSpan f => s.setSpan hw f
  | Op.increaseSpan inc => s.increaseSpan hw inc
  | Op.setStep f => s.setStep f
  | Op.setFullSpan => s.setFullSpan hw
  | Op.setRBW f => s.setRBW hw f
  | Op.setVBW f => s.setVBW hw f
  | Op.rbwIncrease inc => s.rbwIncrease hw inc
  | Op.vbwIncrease inc => s.vbwIncrease hw inc
  | Op.setAutoRbw b => s.setAutoRbw hw b
  | Op.setAutoVbw b => s.setAutoVbw b
  | Op.setNativeRBW b => s.setNativeRBW hw b
  | Op.setRefLevel a => s.setRefLevel hw a
  | Op.shiftRefLevel inc => s.shiftRefLevel inc
  | Op.setDiv d => s.setDiv d
  | Op.setAttenuation i => s.setAttenuation i
  | Op.setGain i => s.setGain i
  | Op.setDetector i => s.setDetector i
  | Op.setProcUnits i => s.setProcUnits i
  | Op.setSweepTime t => s.setSweepTime t
  | Op.setRejection b => s.setRejection b

/-- The configuration after a sequence of mutator calls, first call first. -/
def runFrom (hw : Hardware) (s : SweepSettings) (ops : List Op) : SweepSettings :=
  ops.foldl (Op.apply hw) s

/-- The configuration reached from the factory defaults by a sequence of mutator calls. -/
def run (hw : Hardware) (ops : List Op) : SweepSettings :=
  runFrom hw (SweepSettings.defaults hw) ops

/-- A concrete capability layer on which the model is evaluated: a 9 kHz to 6.4 GHz device with
a 20 Hz span floor, real-time spans of 200 kHz to 20 MHz and real-time bandwidths of 1 kHz to
250 kHz; the best bandwidth is a fortieth of the span, a held bandwidth is lowered to the span
when above it, sequences step by octaves, the native ladder has a step every 20 kHz, the
identity stands in for the millivolt conversion and a bare number is taken as dBm. -/
def sampleHardware : Hardware where
  BB60_MIN_FREQ := 9000
  BB60_MAX_FREQ := 6400000000
  BB_MIN_SPAN := 20
  BB_MIN_RT_SPAN := 200000
  BB_MIN_RT_RBW := 1000
  BB_MAX_RT_RBW := 250000
  maxRealTimeSpan := 20000000
  BB_POWER := 2
  BB_AVERAGE := 1
  get_best_rbw := fun span _ => span / 40
  adjust_rbw_on_span := fun rbw span _ => min rbw span
  sequence_bw := fun bw _ inc => if inc then bw * 2 else bw / 2
  sequence_span := fun span inc => if inc then span * 2 else span / 2
  get_native_bw_index := fun f => ⌊f / 20000 + 1 / 2⌋
  native_bw_lut := fun ix => 20000 * ix
  mV_to_dBm := fun v => v
  assignDouble := fun _ d => ⟨d, AmpUnits.DBM⟩

/-- A sequence of calls on which the model is evaluated: enter real-time mode, move the centre,
ask for a span below the floor, move the start edge, disable native bandwidths, hold a video
bandwidth. -/
def sampleCalls : List Op :=
  [Op.setMode MODE_REAL_TIME, Op.setCenter 1000000000, Op.setSpan 5, Op.setStart 999900000,
   Op.setNativeRBW false, Op.setVBW 100]

/-! ## Predicates used by the invariants -/

/-- The frequency quadruple is consistent: ordered edges, derived span and centre. -/
def SweepSettings.FreqInv (s : SweepSettings) : Prop :=
  s.start < s.stop ∧ s.span = s.stop - s.start ∧ s.center = (s.start + s.stop) / 2

/-- The two configurations have the same start, stop, span and centre. -/
def SweepSettings.SameFreq (a b : SweepSettings) : Prop :=
  a.start = b.start ∧ a.stop = b.stop ∧ a.span = b.span ∧ a.center = b.center

/-- The mutator calls that leave start, stop, span and centre alone: every mutator other than
the edge, centre and span mutators, and `setMode` to a mode other than real-time. -/
def Op.keepsFreq : Op → Bool
  | Op.setMode m => decide (m ≠ BB_REAL_TIME)
  | Op.setStart _ => false
  | Op.setStop _ => false
  | Op.setCenter _ => false
  | Op.increaseCenter _ => false
  | Op.setSpan _ => false
  | Op.increaseSpan _ => false
  | Op.setFullSpan => false
  | _ => true

/-- Derived span and centre, and both edges inside the device range. -/
def SweepSettings.RangeInv (hw : Hardware) (s : SweepSettings) : Prop :=
  s.span = s.stop - s.start ∧ s.center = (s.start + s.stop) / 2 ∧
    hw.BB60_MIN_FREQ ≤ s.start ∧ s.stop ≤ hw.BB60_MAX_FREQ

/-- A preset store holding the single key `Sweep/NativeRBW`, set. -/
def nativePresetStore : QSettings :=
  QSettings.empty.setValue "Sweep/NativeRBW" (QVariant.bool true)

/-- The factory defaults of the sample device after loading `nativePresetStore`. -/
def nativePreset : SweepSettings :=
  (SweepSettings.Load sampleHardware nativePresetStore (SweepSettings.defaults sampleHardware)).1

/-- The factory defaults of the device with the reference level replaced. -/
def withRefLevel (hw : Hardware) (a : Amplitude) : SweepSettings :=
  { SweepSettings.defaults hw with refLevel := a }

/-- Save into a store, then Load from it into a freshly default-constructed configuration. -/
def roundTrip (hw : Hardware) (C : SweepSettings) (st : QSettings) : SweepSettings :=
  (SweepSettings.Load hw (C.Save st).1 (SweepSettings.defaults hw)).1

/-- Every field of the data model of the two configurations matches exactly. -/
def SweepSettings.fieldsMatch (a b : SweepSettings) : Prop :=
  a.mode = b.mode ∧ a.start = b.start ∧ a.stop = b.stop ∧ a.center = b.center ∧
    a.span = b.span ∧ a.step = b.step ∧ a.rbw = b.rbw ∧ a.vbw = b.vbw ∧
    a.auto_rbw = b.auto_rbw ∧ a.auto_vbw = b.auto_vbw ∧ a.native_rbw = b.native_rbw ∧
    a.refLevel = b.refLevel ∧ a.div = b.div ∧ a.attenuation = b.attenuation ∧
    a.gain = b.gain ∧ a.sweepTime = b.sweepTime ∧ a.processingUnits = b.processingUnits ∧
    a.detector = b.detector ∧ a.rejection = b.rejection

/-- A configuration with a 10 GHz span around 5 GHz. -/
def wideSpan : SweepSettings :=
  { SweepSettings.defaults sampleHardware with
    start := 0, stop := 10000000000, span := 10000000000, center := 5000000000 }

/-- The edge test that `setStart` applies: the span that would result is above the span floor
and, in real-time mode, lies within the real-time span limits. -/
def startEdgeValid (hw : Hardware) (s : SweepSettings) (f : Frequency) : Prop :=
  hw.BB_MIN_SPAN < s.stop - max f hw.BB60_MIN_FREQ ∧
    (s.mode = MODE_REAL_TIME →
      hw.BB_MIN_RT_SPAN ≤ s.stop - max f hw.BB60_MIN_FREQ ∧
        s.stop - max f hw.BB60_MIN_FREQ ≤ hw.maxRealTimeSpan)

/-- The edge test that `setStop` applies, symmetric to `startEdgeValid`. -/
def stopEdgeValid (hw : Hardware) (s : SweepSettings) (f : Frequency) : Prop :=
  hw.BB_MIN_SPAN < min f hw.BB60_MAX_FREQ - s.start ∧
    (s.mode = MODE_REAL_TIME →
      hw.BB_MIN_RT_SPAN ≤ min f hw.BB60_MAX_FREQ - s.start ∧
        min f hw.BB60_MAX_FREQ - s.start ≤ hw.maxRealTimeSpan)

/-- The span request of the claim, in the words of the specification: the request raised to at
least the span floor and, when the mode is real-time or time-gate, further clamped to the
real-time span limits. -/
def fittedRequest (hw : Hardware) (s : SweepSettings) (f : Frequency) : ℚ :=
  if s.mode = MODE_REAL_TIME ∨ s.mode = MODE_TIME_GATE then
    clamp (max f hw.BB_MIN_SPAN) hw.BB_MIN_RT_SPAN hw.maxRealTimeSpan
  else max f hw.BB_MIN_SPAN

/-- The mode after a mutator call: the argument of `setMode`, the mode before otherwise. -/
def Op.modeAfter (s : SweepSettings) : Op → OperationalMode
  | Op.setMode m => m
  | _ => s.mode

/-- The native flag that `AutoBandwidthAdjust` leaves: set in real-time mode, kept otherwise. -/
def SweepSettings.adjustedNative (s : SweepSettings) : Bool :=
  if s.mode = BB_REAL_TIME then true else s.native_rbw

/-- The resolution bandwidth after the general step of `AutoBandwidthAdjust(force)`: the best
bandwidth for the span when `auto_rbw` or `force` is set, the held bandwidth revalidated against
the span otherwise. -/
def SweepSettings.generalStepRbw (hw : Hardware) (force : Bool) (s : SweepSettings) : ℚ :=
  if s.auto_rbw || force then hw.get_best_rbw s.span s.adjustedNative
  else hw.adjust_rbw_on_span s.rbw s.span s.adjustedNative

/-- The resolution bandwidth that `AutoBandwidthAdjust(force)` leaves: the bandwidth of the
general step, clamped to the real-time limits in real-time mode. -/
def SweepSettings.adjustedRbw (hw : Hardware) (force : Bool) (s : SweepSettings) : ℚ :=
  if s.mode = BB_REAL_TIME then
    clamp (s.generalStepRbw hw force) hw.BB_MIN_RT_RBW hw.BB_MAX_RT_RBW
  else s.generalStepRbw hw force

/-- The video bandwidth that `AutoBandwidthAdjust(force)` leaves: the resolution bandwidth in
real-time mode, when `auto_vbw` is set or when the held value exceeds the resolution bandwidth;
the held value otherwise. -/
def SweepSettings.adjustedVbw (hw : Hardware) (force : Bool) (s : SweepSettings) : ℚ :=
  if s.mode = BB_REAL_TIME then s.adjustedRbw hw force
  else if s.auto_vbw = true ∨ s.vbw > s.generalStepRbw hw force then s.generalStepRbw hw force
  else s.vbw

/-- The factory defaults of the sample device with the resolution bandwidth held (`auto_rbw`
off): rbw = vbw = 300 kHz. -/
def heldBandwidth : SweepSettings :=
  { SweepSettings.defaults sampleHardware with auto_rbw := false }

/-- The reference level lies within `[-100 dBm, +20 dBm]`. -/
def Amplitude.InRefRange (hw : Hardware) (a : Amplitude) : Prop :=
  -100 ≤ a.toDBM hw ∧ a.toDBM hw ≤ 20

/-- Every invariant of the data model: ordered edges, derived span and centre, video bandwidth
at most the resolution bandwidth, both edges inside the device range. -/
def SweepSettings.Valid (hw : Hardware) (s : SweepSettings) : Prop :=
  s.start < s.stop ∧ s.span = s.stop - s.start ∧ s.center = (s.start + s.stop) / 2 ∧
    s.vbw ≤ s.rbw ∧ hw.BB60_MIN_FREQ ≤ s.start ∧ s.stop ≤ hw.BB60_MAX_FREQ

/-- A store holding the single key `Sweep/Start`, with the value 7 GHz. -/
def highStartStore : QSettings :=
  QSettings.empty.setValue "Sweep/Start" (QVariant.double 7000000000)

/-- The value that `Save` writes under a key for a configuration (none for other keys). -/
def SweepSettings.stored (s : SweepSettings) (key : String) : Option QVariant :=
  (s.Save QSettings.empty).1 key

/-- Two stored values are of the same type. -/
def QVariant.sameKind : QVariant → QVariant → Bool
  | QVariant.int _, QVariant.int _ => true
  | QVariant.double _, QVariant.double _ => true
  | QVariant.bool _, QVariant.bool _ => true
  | _, _ => false

/-- The number of `updated` signals a mutator call emits, in the words of the specification:
none for `setMode`; one for `setDetector`, `setProcUnits` and `setRejection` when the new value
differs from the stored one and none otherwise; one for every other mutator. -/
def Op.notifications (s : SweepSettings) : Op → Nat
  | Op.setMode _ => 0
  | Op.setDetector new_detector => if s.detector ≠ new_detector then 1 else 0
  | Op.setProcUnits new_units => if s.processingUnits ≠ new_units then 1 else 0
  | Op.setRejection image_reject => if s.rejection ≠ image_reject then 1 else 0
  | _ => 1

/-- The native lookup-table entry selected for a requested bandwidth,
`native_bw_lut[get_native_bw_index(f)]`. -/
def ladderValue (hw : Hardware) (f : Frequency) : ℚ :=
  hw.native_bw_lut (hw.get_native_bw_index f)

/-- The bandwidth is an entry of the native lookup table. -/
def IsLadderValue (hw : Hardware) (f : Frequency) : Prop :=
  ∃ ix : Int, hw.native_bw_lut ix = f

/-- A real-time configuration of the sample device as `setMode(RealTime)` leaves it around
1 GHz: 20 MHz span, native bandwidths, rbw = vbw = 250 kHz. -/
def realTimeNative : SweepSettings :=
  { SweepSettings.defaults sampleHardware with
    mode := MODE_REAL_TIME, start := 990000000, stop := 1010000000, span := 20000000,
    center := 1000000000, native_rbw := true, rbw := 250000, vbw := 250000 }

/-- The mutator call is `setFullSpan`. -/
def Op.isFullSpan : Op → Bool
  | Op.setFullSpan => true
  | _ => false

/-- In real-time mode the span is at most `maxRealTimeSpan`. -/
def SweepSettings.RealTimeCeiling (hw : Hardware) (s : SweepSettings) : Prop :=
  s.mode = MODE_REAL_TIME → s.span ≤ hw.maxRealTimeSpan

/-- The four frequency fields of a configuration. -/
structure Quad where
  start : ℚ
  stop : ℚ
  center : ℚ
  span : ℚ

/-- The frequency fields of a configuration. -/
def SweepSettings.quadOf (s : SweepSettings) : Quad :=
  ⟨s.start, s.stop, s.center, s.span⟩

/-- The configuration with its frequency fields replaced. -/
def SweepSettings.withQuad (s : SweepSettings) (q : Quad) : SweepSettings :=
  { s with start := q.start, stop := q.stop, center := q.center, span := q.span }

namespace IEEE

/-- The spacing of the numbers with a 53-bit significand at the magnitude of `q`: for
`2 ^ e ≤ |q| < 2 ^ (e + 1)` it is `2 ^ (e - 52)`. -/
def ulp (q : ℚ) : ℚ :=
  (2 : ℚ) ^ (Int.log 2 |q| - 52)

/-- The integer nearest to `x`, the even one of the two when `x` lies halfway between them. -/
def roundHalfEven (x : ℚ) : ℤ :=
  if x - ⌊x⌋ < 1 / 2 then ⌊x⌋
  else if x - ⌊x⌋ > 1 / 2 then ⌊x⌋ + 1
  else if ⌊x⌋ % 2 = 0 then ⌊x⌋
  else ⌊x⌋ + 1

/-- The default rounding of binary64 arithmetic (round to nearest, ties to even): the number with
a 53-bit significand nearest to `q`. The exponent is unbounded: overflow and subnormal numbers,
which no frequency of the device range comes near, are outside the model. -/
def roundToDouble (q : ℚ) : ℚ :=
  if q = 0 then 0 else roundHalfEven (q / ulp q) * ulp q

/-- A value of the C++ type `double`: NaN or a number. -/
inductive Double
  | nan
  | num (q : ℚ)
deriving DecidableEq

namespace Double

/-- The sum `a + b`: rounded, and NaN when an operand is NaN. -/
def add : Double → Double → Double
  | num a, num b => num (roundToDouble (a + b))
  | _, _ => nan

/-- The difference `a - b`: rounded, and NaN when an operand is NaN. -/
def sub : Double → Double → Double
  | num a, num b => num (roundToDouble (a - b))
  | _, _ => nan

/-- The product `a * b`: rounded, and NaN when an operand is NaN. -/
def mul : Double → Double → Double
  | num a, num b => num (roundToDouble (a * b))
  | _, _ => nan

/-- The quotient `a / b`: rounded, and NaN when an operand is NaN. The embedded functions divide
by the literal `2.0` only; a zero divisor, which gives an infinity or NaN, is mapped to NaN. -/
def div : Double → Double → Double
  | num a, num b => if b = 0 then nan else num (roundToDouble (a / b))
  | _, _ => nan

/-- The comparison `a < b`, false when an operand is NaN. -/
def lt : Double → Double → Bool
  | num a, num b => decide (a < b)
  | _, _ => false

/-- The comparison `a <= b`, false when an operand is NaN. -/
def le : Double → Double → Bool
  | num a, num b => decide (a ≤ b)
  | _, _ => false

instance : Add Double := ⟨add⟩

instance : Sub Double := ⟨sub⟩

instance : Mul Double := ⟨mul⟩

instance : Div Double := ⟨div⟩

instance : LT Double := ⟨fun a b => lt a b = true⟩

instance : LE Double := ⟨fun a b => le a b = true⟩

instance (a b : Double) : Decidable (a < b) :=
  inferInstanceAs (Decidable (lt a b = true))

instance (a b : Double) : Decidable (a ≤ b) :=
  inferInstanceAs (Decidable (le a b = true))

instance (n : Nat) : OfNat Double n := ⟨num n⟩

end Double

/-- The double is a number, not NaN. -/
def Double.IsNumber : Double → Prop
  | Double.nan => False
  | Double.num _ => True

/-- Modelled from the spec: `bb_lib::max2` of the absent header `bb_lib.h`, on doubles. -/
def max2 (a b : Double) : Double :=
  if a < b then b else a

/-- Modelled from the spec: `bb_lib::min2` of the absent header `bb_lib.h`, on doubles. -/
def min2 (a b : Double) : Double :=
  if b < a then b else a

/-- Modelled from the spec: `bb_lib::min3` of the absent header `bb_lib.h`, on doubles. What
`max2`, `min2` and `min3` return for a NaN operand is not used by any theorem. -/
def min3 (a b c : Double) : Double :=
  min2 a (min2 b c)

/-- Modelled from the spec: `bb_lib::clamp(val, min, max)` of the absent header `bb_lib.h`, on
doubles: the value is raised to `min` when below it, then lowered to `max` when above it. -/
def clamp (val lo hi : Double) : Double :=
  let v := if val < lo then lo else val
  if v > hi then hi else v

/-- The constants of `bb_api.h` and the functions of `bb_lib` that the embedded functions use,
on doubles. -/
structure Hardware where
  BB60_MIN_FREQ : Double
  BB60_MAX_FREQ : Double
  BB_MIN_SPAN : Double
  BB_MIN_RT_SPAN : Double
  BB_MIN_RT_RBW : Double
  BB_MAX_RT_RBW : Double
  maxRealTimeSpan : Double
  /-- `bb_lib::get_best_rbw(span, native_rbw)` -/
  get_best_rbw : Double → Bool → Double
  /-- `bb_lib::adjust_rbw_on_span(rbw, span, native_rbw)`: the value left in `rbw` -/
  adjust_rbw_on_span : Double → Double → Bool → Double

/-- The bandwidths that the device hands to `AutoBandwidthAdjust` are numbers: the results of
the two bandwidth functions on arguments that are numbers, and the two real-time limits. -/
def Hardware.ReturnsNumbers (hw : Hardware) : Prop :=
  (∀ (span : Double) (native : Bool), span.IsNumber → (hw.get_best_rbw span native).IsNumber) ∧
    (∀ (rbw span : Double) (native : Bool), rbw.IsNumber → span.IsNumber →
      (hw.adjust_rbw_on_span rbw span native).IsNumber) ∧
    hw.BB_MIN_RT_RBW.IsNumber ∧ hw.BB_MAX_RT_RBW.IsNumber

/-- The data members of `SweepSettings` that the embedded functions read or write, and the
number of `updated` signals emitted so far. -/
structure SweepSettings where
  mode : OperationalMode
  start : Double
  stop : Double
  center : Double
  span : Double
  rbw : Double
  vbw : Double
  auto_rbw : Bool
  auto_vbw : Bool
  native_rbw : Bool
  emitted : Nat

namespace SweepSettings

/-- The statement `emit updated(this)`. -/
def emitUpdated (s : SweepSettings) : SweepSettings :=
  { s with emitted := s.emitted + 1 }

/-- The default constructor, through `SweepSettings::LoadDefaults`: the factory values of the
members kept here; `span` and `center` are computed from the edges as in the source. -/
def defaults : SweepSettings :=
  { mode := MODE_SWEEPING
    start := 11000000
    stop := 6000000000
    span := (6000000000 : Double) - 11000000
    center := ((11000000 : Double) + 6000000000) / 2
    rbw := 300000
    vbw := 300000
    auto_rbw := true
    auto_vbw := true
    native_rbw := false
    emitted := 0 }

/-- `SweepSettings::AutoBandwidthAdjust(force)`. -/
def AutoBandwidthAdjust (hw : Hardware) (force : Bool) (s : SweepSettings) : SweepSettings :=
  let s1 := if s.mode = BB_REAL_TIME then { s with native_rbw := true } else s
  let s2 :=
    if s1.auto_rbw || force then { s1 with rbw := hw.get_best_rbw s1.span s1.native_rbw }
    else { s1 with rbw := hw.adjust_rbw_on_span s1.rbw s1.span s1.native_rbw }
  let s3 :=
    if s2.auto_vbw || decide (s2.vbw > s2.rbw) || decide (s2.mode = BB_REAL_TIME) then
      { s2 with vbw := s2.rbw }
    else s2
  if s3.mode = BB_REAL_TIME then
    let clamped := clamp s3.rbw hw.BB_MIN_RT_RBW hw.BB_MAX_RT_RBW
    { s3 with rbw := clamped, vbw := clamped }
  else s3

/-- `SweepSettings::setCenter(f)`. -/
def setCenter (hw : Hardware) (f : Double) (s : SweepSettings) : SweepSettings :=
  let s1 :=
    if f < hw.BB60_MIN_FREQ + hw.BB_MIN_SPAN * 2 ∨ f > hw.BB60_MAX_FREQ - hw.BB_MIN_SPAN * 2 then
      s
    else
      let span := min3 s.span ((f - hw.BB60_MIN_FREQ) * 2) ((hw.BB60_MAX_FREQ - f) * 2)
      { s with
        center := f
        span := span
        start := f - span / 2
        stop := f + span / 2 }
  emitUpdated (AutoBandwidthAdjust hw false s1)

/-- `SweepSettings::setSpan(f)`. -/
def setSpan (hw : Hardware) (f : Double) (s : SweepSettings) : SweepSettings :=
  let f1 := if f < hw.BB_MIN_SPAN then hw.BB_MIN_SPAN else f
  let f2 :=
    if s.mode = MODE_REAL_TIME ∨ s.mode = MODE_TIME_GATE then
      clamp f1 hw.BB_MIN_RT_SPAN hw.maxRealTimeSpan
    else f1
  let s1 :=
    if s.center - f2 / 2 < hw.BB60_MIN_FREQ then
      { s with
        start := hw.BB60_MIN_FREQ
        stop := min2 (hw.BB60_MIN_FREQ + f2) hw.BB60_MAX_FREQ }
    else if s.center + f2 / 2 > hw.BB60_MAX_FREQ then
      { s with
        stop := hw.BB60_MAX_FREQ
        start := max2 (hw.BB60_MAX_FREQ - f2) hw.BB60_MIN_FREQ }
    else
      { s with
        start := s.center - f2 / 2
        stop := s.center + f2 / 2 }
  let s2 := { s1 with center := (s1.start + s1.stop) / 2, span := s1.stop - s1.start }
  emitUpdated (AutoBandwidthAdjust hw false s2)

/-- `SweepSettings::setVBW(f)`. -/
def setVBW (hw : Hardware) (f : Double) (s : SweepSettings) : SweepSettings :=
  let s1 := { s with vbw := f }
  let s2 := if s1.vbw > s1.rbw then { s1 with vbw := s1.rbw } else s1
  emitUpdated (AutoBandwidthAdjust hw false { s2 with auto_vbw := false })

/-- `SweepSettings::setAutoVbw(new_auto)`: no bandwidth adjustment. -/
def setAutoVbw (new_auto : Bool) (s : SweepSettings) : SweepSettings :=
  let s1 := { s with auto_vbw := new_auto }
  let s2 := if s1.auto_vbw then { s1 with vbw := s1.rbw } else s1
  emitUpdated s2

end SweepSettings

/-- The resolution bandwidth after the general step of `AutoBandwidthAdjust(force)`, on
doubles. -/
def SweepSettings.generalStepRbw (hw : Hardware) (force : Bool) (s : SweepSettings) : Double :=
  if s.auto_rbw || force then
    hw.get_best_rbw s.span (if s.mode = BB_REAL_TIME then true else s.native_rbw)
  else hw.adjust_rbw_on_span s.rbw s.span (if s.mode = BB_REAL_TIME then true else s.native_rbw)

/-- The sample device on doubles: the constants of `sampleHardware`; the best bandwidth is
300 kHz for every span and a held bandwidth is kept. -/
def sampleHardware : Hardware where
  BB60_MIN_FREQ := 9000
  BB60_MAX_FREQ := 6400000000
  BB_MIN_SPAN := 20
  BB_MIN_RT_SPAN := 200000
  BB_MIN_RT_RBW := 1000
  BB_MAX_RT_RBW := 250000
  maxRealTimeSpan := 20000000
  get_best_rbw := fun _ _ => 300000
  adjust_rbw_on_span := fun rbw _ _ => rbw

/-- A span request with bits below the spacing of the doubles near 3 GHz: 1000 Hz and
7 · 2^-22 Hz, itself a double. -/
def fineSpan : ℚ := 1000 + 7 / 4194304

/-- A centre frequency just below 2^32 Hz whose significand is odd: 2^32 - 100 - 2^-21 Hz, itself
a double inside the device range of the sample device. -/
def oddCenter : ℚ := 4294967296 - 100 - 1 / 2097152

/-- The configuration that `setCenter(oddCenter)` leaves from the factory defaults on the sample
device. -/
def oddCentered : SweepSettings :=
  SweepSettings.defaults.setCenter sampleHardware (Double.num oddCenter)

/-- The sample device on doubles with a best-bandwidth function that returns NaN. -/
def nanBandwidthHardware : Hardware :=
  { sampleHardware with get_best_rbw := fun _ _ => Double.nan }

/-- The factory defaults on doubles with the resolution bandwidth held (`auto_rbw` off):
rbw = 300 kHz. -/
def heldBandwidth : SweepSettings :=
  { SweepSettings.defaults with auto_rbw := false }

/-- The sample device on doubles with a minimum frequency that is not a whole number of hertz:
9 kHz and 2^-39 Hz, itself a double. -/
def offGridHardware : Hardware :=
  { sampleHardware with BB60_MIN_FREQ := Double.num (9000 + 1 / 549755813888) }

end IEEE

namespace SweepSettings

@[simp] theorem emitUpdated_mode (s : SweepSettings) : (emitUpdated s).mode = s.mode := rfl
@[simp] theorem emitUpdated_start (s : SweepSettings) : (emitUpdated s).start = s.start := rfl
@[simp] theorem emitUpdated_stop (s : SweepSettings) : (emitUpdated s).stop = s.stop := rfl
@[simp] theorem emitUpdated_center (s : SweepSettings) : (emitUpdated s).center = s.center := rfl
@[simp] theorem emitUpdated_span (s : SweepSettings) : (emitUpdated s).span = s.span := rfl
@[simp] theorem emitUpdated_rbw (s : SweepSettings) : (emitUpdated s).rbw = s.rbw := rfl
@[simp] theorem emitUpdated_vbw (s : SweepSettings) : (emitUpdated s).vbw = s.vbw := rfl
@[simp] theorem emitUpdated_native_rbw (s : SweepSettings) :
    (emitUpdated s).native_rbw = s.native_rbw := rfl

@[simp] theorem AutoBandwidthAdjust_mode (hw : Hardware) (force : Bool) (s : SweepSettings) :
    (AutoBandwidthAdjust hw force s).mode = s.mode := by
  unfold AutoBandwidthAdjust
  dsimp only
  split_ifs <;> rfl

@[simp] theorem AutoBandwidthAdjust_start (hw : Hardware) (force : Bool) (s : SweepSettings) :
    (AutoBandwidthAdjust hw force s).start = s.start := by
  unfold AutoBandwidthAdjust
  dsimp only
  split_ifs <;> rfl

@[simp] theorem AutoBandwidthAdjust_stop (hw : Hardware) (force : Bool) (s : SweepSettings) :
    (AutoBandwidthAdjust hw force s).stop = s.stop := by
  unfold AutoBandwidthAdjust
  dsimp only
  split_ifs <;> rfl

@[simp] theorem AutoBandwidthAdjust_center (hw : Hardware) (force : Bool) (s : SweepSettings) :
    (AutoBandwidthAdjust hw force s).center = s.center := by
  unfold AutoBandwidthAdjust
  dsimp only
  split_ifs <;> rfl

@[simp] theorem AutoBandwidthAdjust_span (hw : Hardware) (force : Bool) (s : SweepSettings) :
    (AutoBandwidthAdjust hw force s).span = s.span := by
  unfold AutoBandwidthAdjust
  dsimp only
  split_ifs <;> rfl

end SweepSettings

/-- A property of the factory defaults that every mutator call preserves holds after every
sequence of calls. -/
theorem run_induction (hw : Hardware) (P : SweepSettings → Prop)
    (h0 : P (SweepSettings.defaults hw)) (hstep : ∀ s op, P s → P (Op.apply hw s op))
    (ops : List Op) : P (run hw ops) := by
  unfold run runFrom
  generalize SweepSettings.defaults hw = s0 at h0
  induction ops generalizing s0 with
  | nil => simpa using h0
  | cons op rest ih => exact ih _ (hstep s0 op h0)

namespace SweepSettings

theorem FreqInv_adjust (hw : Hardware) (force : Bool) (s : SweepSettings) :
    FreqInv (emitUpdated (AutoBandwidthAdjust hw force s)) ↔ FreqInv s := by
  simp [FreqInv]

theorem FreqInv_adjust0 (hw : Hardware) (force : Bool) (s : SweepSettings) :
    FreqInv (AutoBandwidthAdjust hw force s) ↔ FreqInv s := by
  simp [FreqInv]

theorem setMode_FreqInv (hw : Hardware) (hrt : 0 < hw.maxRealTimeSpan) (m : OperationalMode)
    (s : SweepSettings) (h : FreqInv s) : FreqInv (setMode hw m s) := by
  unfold setMode
  dsimp only
  split_ifs with h1 h2
  · rw [FreqInv_adjust0]
    obtain ⟨ha, hb, hc⟩ := h
    refine ⟨?_, ?_, ?_⟩ <;> dsimp only <;> linarith
  · rw [FreqInv_adjust0]; exact h
  · exact h

theorem setStart_FreqInv (hw : Hardware) (hspan : 0 < hw.BB_MIN_SPAN) (f : Frequency)
    (s : SweepSettings) (h : FreqInv s) : FreqInv (setStart hw f s) := by
  unfold setStart
  dsimp only
  rw [FreqInv_adjust]
  split_ifs with h1 h2 h3
  all_goals first
    | exact h
    | contradiction
    | (refine ⟨?_, ?_, ?_⟩ <;> dsimp only <;> linarith)

theorem setStop_FreqInv (hw : Hardware) (hspan : 0 < hw.BB_MIN_SPAN) (f : Frequency)
    (s : SweepSettings) (h : FreqInv s) : FreqInv (setStop hw f s) := by
  unfold setStop
  dsimp only
  rw [FreqInv_adjust]
  split_ifs with h1 h2 h3
  all_goals first
    | exact h
    | contradiction
    | (refine ⟨?_, ?_, ?_⟩ <;> dsimp only <;> linarith)

theorem setCenter_FreqInv (hw : Hardware) (hspan : 0 < hw.BB_MIN_SPAN) (f : Frequency)
    (s : SweepSettings) (h : FreqInv s) : FreqInv (setCenter hw f s) := by
  unfold setCenter
  dsimp only
  rw [FreqInv_adjust]
  split_ifs with h1
  · exact h
  · obtain ⟨ha, hb, hc⟩ := h
    push_neg at h1
    have hpos : 0 < min3 s.span ((f - hw.BB60_MIN_FREQ) * 2) ((hw.BB60_MAX_FREQ - f) * 2) := by
      unfold min3
      refine lt_min ?_ (lt_min ?_ ?_) <;> linarith
    refine ⟨?_, ?_, ?_⟩ <;> dsimp only <;> linarith

theorem clamp_pos (v lo hi : ℚ) (hv : 0 < v) (hhi : 0 < hi) : 0 < clamp v lo hi := by
  unfold clamp
  dsimp only
  split_ifs <;> linarith

theorem setSpan_FreqInv (hw : Hardware) (hrt : 0 < hw.maxRealTimeSpan)
    (hspan : 0 < hw.BB_MIN_SPAN) (hrange : hw.BB60_MIN_FREQ < hw.BB60_MAX_FREQ) (f : Frequency)
    (s : SweepSettings) : FreqInv (setSpan hw f s) := by
  unfold setSpan
  dsimp only
  rw [FreqInv_adjust]
  have hf1 : 0 < (if f < hw.BB_MIN_SPAN then hw.BB_MIN_SPAN else f) := by
    split_ifs <;> linarith
  generalize (if f < hw.BB_MIN_SPAN then hw.BB_MIN_SPAN else f) = f1 at hf1 ⊢
  have hf2 : 0 < (if s.mode = MODE_REAL_TIME ∨ s.mode = MODE_TIME_GATE then
      clamp f1 hw.BB_MIN_RT_SPAN hw.maxRealTimeSpan else f1) := by
    split_ifs
    · exact clamp_pos _ _ _ hf1 hrt
    · exact hf1
  generalize (if s.mode = MODE_REAL_TIME ∨ s.mode = MODE_TIME_GATE then
      clamp f1 hw.BB_MIN_RT_SPAN hw.maxRealTimeSpan else f1) = f2 at hf2 ⊢
  split_ifs with h1 h2
  · refine ⟨?_, rfl, rfl⟩
    dsimp only [min2]
    exact lt_min (by linarith) hrange
  · refine ⟨?_, rfl, rfl⟩
    dsimp only [max2]
    exact max_lt (by linarith) hrange
  · refine ⟨?_, rfl, rfl⟩
    dsimp only
    linarith

theorem FreqInv_of_SameFreq {a b : SweepSettings} (h : SameFreq a b) (hb : FreqInv b) :
    FreqInv a := by
  obtain ⟨h1, h2, h3, h4⟩ := h
  simpa [FreqInv, h1, h2, h3, h4] using hb

end SweepSettings


theorem Op.apply_SameFreq (hw : Hardware) (s : SweepSettings) (op : Op)
    (h : op.keepsFreq = true) : SweepSettings.SameFreq (op.apply hw s) s := by
  cases op <;> simp only [Op.keepsFreq, Bool.false_eq_true, decide_eq_true_eq] at h
  case setMode m =>
    simp [Op.apply, SweepSettings.setMode, SweepSettings.SameFreq, h]
  all_goals
    simp only [Op.apply, SweepSettings.setStep, SweepSettings.setRBW, SweepSettings.setVBW,
      SweepSettings.rbwIncrease, SweepSettings.vbwIncrease, SweepSettings.setAutoRbw,
      SweepSettings.setAutoVbw, SweepSettings.setNativeRBW, SweepSettings.setRefLevel,
      SweepSettings.shiftRefLevel, SweepSettings.setDiv, SweepSettings.setAttenuation,
      SweepSettings.setGain, SweepSettings.setDetector, SweepSettings.setProcUnits,
      SweepSettings.setSweepTime, SweepSettings.setRejection, SweepSettings.SameFreq]
    try split_ifs
    all_goals simp

namespace SweepSettings

theorem AutoBandwidthAdjust_vbw_le (hw : Hardware) (force : Bool) (s : SweepSettings) :
    (AutoBandwidthAdjust hw force s).vbw ≤ (AutoBandwidthAdjust hw force s).rbw := by
  unfold AutoBandwidthAdjust
  dsimp only
  split_ifs <;> dsimp only <;>
    first
    | exact le_refl _
    | (simp only [Bool.or_eq_true, decide_eq_true_eq, not_or, not_lt] at *; tauto)

theorem setAutoVbw_vbw_le (b : Bool) (s : SweepSettings) (h : s.vbw ≤ s.rbw) :
    (setAutoVbw b s).vbw ≤ (setAutoVbw b s).rbw := by
  unfold setAutoVbw
  dsimp only
  split_ifs
  · exact le_refl _
  · exact h

end SweepSettings

theorem Op.apply_vbw_le (hw : Hardware) (s : SweepSettings) (op : Op) (h : s.vbw ≤ s.rbw) :
    (op.apply hw s).vbw ≤ (op.apply hw s).rbw := by
  cases op with
  | setMode m =>
    simp only [Op.apply, SweepSettings.setMode]
    split_ifs
    · exact SweepSettings.AutoBandwidthAdjust_vbw_le _ _ _
    · exact SweepSettings.AutoBandwidthAdjust_vbw_le _ _ _
    · exact h
  | setStart f => exact SweepSettings.AutoBandwidthAdjust_vbw_le _ _ _
  | setStop f => exact SweepSettings.AutoBandwidthAdjust_vbw_le _ _ _
  | setCenter f => exact SweepSettings.AutoBandwidthAdjust_vbw_le _ _ _
  | increaseCenter inc =>
    simp only [Op.apply, SweepSettings.increaseCenter]
    split_ifs <;> exact SweepSettings.AutoBandwidthAdjust_vbw_le _ _ _
  | setSpan f => exact SweepSettings.AutoBandwidthAdjust_vbw_le _ _ _
  | increaseSpan inc => exact SweepSettings.AutoBandwidthAdjust_vbw_le _ _ _
  | setStep f => exact h
  | setFullSpan => exact SweepSettings.AutoBandwidthAdjust_vbw_le _ _ _
  | setRBW f => exact SweepSettings.AutoBandwidthAdjust_vbw_le _ _ _
  | setVBW f => exact SweepSettings.AutoBandwidthAdjust_vbw_le _ _ _
  | rbwIncrease inc => exact SweepSettings.AutoBandwidthAdjust_vbw_le _ _ _
  | vbwIncrease inc => exact SweepSettings.AutoBandwidthAdjust_vbw_le _ _ _
  | setAutoRbw b => exact SweepSettings.AutoBandwidthAdjust_vbw_le _ _ _
  | setAutoVbw b => exact SweepSettings.setAutoVbw_vbw_le b s h
  | setNativeRBW b => exact SweepSettings.AutoBandwidthAdjust_vbw_le _ _ _
  | setRefLevel a => exact h
  | shiftRefLevel inc => exact h
  | setDiv d => exact h
  | setAttenuation i => exact h
  | setGain i => exact h
  | setDetector i =>
    simp only [Op.apply, SweepSettings.setDetector]
    split_ifs <;> exact h
  | setProcUnits i =>
    simp only [Op.apply, SweepSettings.setProcUnits]
    split_ifs <;> exact h
  | setSweepTime t => exact h
  | setRejection i =>
    simp only [Op.apply, SweepSettings.setRejection]
    split_ifs <;> exact h

namespace SweepSettings

theorem RangeInv_adjust (hw : Hardware) (force : Bool) (s : SweepSettings) :
    RangeInv hw (emitUpdated (AutoBandwidthAdjust hw force s)) ↔ RangeInv hw s := by
  simp [RangeInv]

theorem RangeInv_adjust0 (hw : Hardware) (force : Bool) (s : SweepSettings) :
    RangeInv hw (AutoBandwidthAdjust hw force s) ↔ RangeInv hw s := by
  simp [RangeInv]

theorem RangeInv_of_SameFreq {hw : Hardware} {a b : SweepSettings} (h : SameFreq a b)
    (hb : RangeInv hw b) : RangeInv hw a := by
  obtain ⟨h1, h2, h3, h4⟩ := h
  simpa [RangeInv, h1, h2, h3, h4] using hb

theorem setMode_RangeInv (hw : Hardware) (m : OperationalMode)
    (s : SweepSettings) (h : RangeInv hw s) : RangeInv hw (setMode hw m s) := by
  unfold setMode
  dsimp only
  split_ifs with h1 h2
  · rw [RangeInv_adjust0]
    obtain ⟨ha, hb, hc, hd⟩ := h
    refine ⟨?_, ?_, ?_, ?_⟩ <;> dsimp only <;> linarith
  · rw [RangeInv_adjust0]; exact h
  · exact h

theorem setStart_RangeInv (hw : Hardware) (f : Frequency)
    (s : SweepSettings) (h : RangeInv hw s) : RangeInv hw (setStart hw f s) := by
  unfold setStart
  dsimp only
  rw [RangeInv_adjust]
  obtain ⟨ha, hb, hc, hd⟩ := h
  have hm : hw.BB60_MIN_FREQ ≤ max2 f hw.BB60_MIN_FREQ := le_max_right _ _
  split_ifs
  all_goals first
    | exact ⟨ha, hb, hc, hd⟩
    | contradiction
    | (refine ⟨?_, ?_, ?_, ?_⟩ <;> dsimp only <;> linarith)

theorem setStop_RangeInv (hw : Hardware) (f : Frequency)
    (s : SweepSettings) (h : RangeInv hw s) : RangeInv hw (setStop hw f s) := by
  unfold setStop
  dsimp only
  rw [RangeInv_adjust]
  obtain ⟨ha, hb, hc, hd⟩ := h
  have hm : min2 f hw.BB60_MAX_FREQ ≤ hw.BB60_MAX_FREQ := min_le_right _ _
  split_ifs
  all_goals first
    | exact ⟨ha, hb, hc, hd⟩
    | contradiction
    | (refine ⟨?_, ?_, ?_, ?_⟩ <;> dsimp only <;> linarith)

theorem setCenter_RangeInv (hw : Hardware) (f : Frequency)
    (s : SweepSettings) (h : RangeInv hw s) : RangeInv hw (setCenter hw f s) := by
  unfold setCenter
  dsimp only
  rw [RangeInv_adjust]
  split_ifs with h1
  · exact h
  · have h2 : min3 s.span ((f - hw.BB60_MIN_FREQ) * 2) ((hw.BB60_MAX_FREQ - f) * 2) ≤
        (f - hw.BB60_MIN_FREQ) * 2 := le_trans (min_le_right _ _) (min_le_left _ _)
    have h3 : min3 s.span ((f - hw.BB60_MIN_FREQ) * 2) ((hw.BB60_MAX_FREQ - f) * 2) ≤
        (hw.BB60_MAX_FREQ - f) * 2 := le_trans (min_le_right _ _) (min_le_right _ _)
    refine ⟨?_, ?_, ?_, ?_⟩ <;> dsimp only <;> linarith

theorem setSpan_RangeInv (hw : Hardware) (f : Frequency) (s : SweepSettings) :
    RangeInv hw (setSpan hw f s) := by
  unfold setSpan
  dsimp only
  rw [RangeInv_adjust]
  split_ifs with h0 h1 h2 h1 h2
  all_goals
    refine ⟨rfl, rfl, ?_, ?_⟩ <;> dsimp only [min2, max2] <;>
      first
      | exact le_refl _
      | exact min_le_right _ _
      | exact le_max_right _ _
      | linarith

end SweepSettings

theorem SweepSettings.setCenter_mode (hw : Hardware) (f : Frequency) (s : SweepSettings) :
    (s.setCenter hw f).mode = s.mode := by
  unfold SweepSettings.setCenter
  dsimp only
  rw [SweepSettings.emitUpdated_mode, SweepSettings.AutoBandwidthAdjust_mode]
  split_ifs <;> rfl

theorem Op.apply_mode (hw : Hardware) (s : SweepSettings) (op : Op) :
    (op.apply hw s).mode = op.modeAfter s := by
  cases op with
  | setMode m =>
    simp only [Op.apply, SweepSettings.setMode, Op.modeAfter]
    split_ifs <;> simp
  | increaseCenter inc =>
    simp only [Op.apply, SweepSettings.increaseCenter, Op.modeAfter]
    split_ifs <;> exact SweepSettings.setCenter_mode hw _ s
  | setStart f =>
    simp only [Op.apply, SweepSettings.setStart, Op.modeAfter]
    split_ifs <;> simp
  | setStop f =>
    simp only [Op.apply, SweepSettings.setStop, Op.modeAfter]
    split_ifs <;> simp
  | setCenter f => exact SweepSettings.setCenter_mode hw f s
  | setSpan f =>
    simp only [Op.apply, SweepSettings.setSpan, Op.modeAfter]
    split_ifs <;> simp
  | increaseSpan f =>
    simp only [Op.apply, SweepSettings.increaseSpan, SweepSettings.setSpan, Op.modeAfter]
    split_ifs <;> simp
  | setDetector i =>
    simp only [Op.apply, SweepSettings.setDetector, Op.modeAfter]
    split_ifs <;> rfl
  | setProcUnits i =>
    simp only [Op.apply, SweepSettings.setProcUnits, Op.modeAfter]
    split_ifs <;> rfl
  | setRejection i =>
    simp only [Op.apply, SweepSettings.setRejection, Op.modeAfter]
    split_ifs <;> rfl
  | setAutoVbw b =>
    simp only [Op.apply, SweepSettings.setAutoVbw, Op.modeAfter]
    split_ifs <;> rfl
  | setVBW f =>
    simp only [Op.apply, SweepSettings.setVBW, Op.modeAfter]
    split_ifs <;> simp
  | setRBW f =>
    simp only [Op.apply, SweepSettings.setRBW, Op.modeAfter]
    split_ifs <;> simp
  | _ => simp [Op.apply, Op.modeAfter, SweepSettings.setStep, SweepSettings.setFullSpan,
      SweepSettings.rbwIncrease, SweepSettings.vbwIncrease,
      SweepSettings.setAutoRbw, SweepSettings.setNativeRBW, SweepSettings.setRefLevel,
      SweepSettings.shiftRefLevel, SweepSettings.setDiv, SweepSettings.setAttenuation,
      SweepSettings.setGain, SweepSettings.setSweepTime]

theorem roundTrip_fields (hw : Hardware) (C : SweepSettings) (st : QSettings) :
    (roundTrip hw C st).mode = C.mode ∧ (roundTrip hw C st).start = C.start ∧
    (roundTrip hw C st).stop = C.stop ∧ (roundTrip hw C st).center = C.center ∧
    (roundTrip hw C st).span = C.span ∧ (roundTrip hw C st).step = C.step ∧
    (roundTrip hw C st).rbw = C.rbw ∧ (roundTrip hw C st).vbw = C.vbw ∧
    (roundTrip hw C st).auto_rbw = C.auto_rbw ∧ (roundTrip hw C st).auto_vbw = C.auto_vbw ∧
    (roundTrip hw C st).native_rbw = C.native_rbw ∧
    (roundTrip hw C st).refLevel =
      hw.assignDouble (SweepSettings.defaults hw).refLevel C.refLevel.val ∧
    (roundTrip hw C st).div = C.div ∧ (roundTrip hw C st).attenuation = C.attenuation ∧
    (roundTrip hw C st).gain = C.gain ∧ (roundTrip hw C st).sweepTime = C.sweepTime ∧
    (roundTrip hw C st).processingUnits = C.processingUnits ∧
    (roundTrip hw C st).detector = C.detector ∧ (roundTrip hw C st).rejection = C.rejection := by
  simp [roundTrip, SweepSettings.Load, SweepSettings.Save, SweepSettings.emitUpdated,
    QSettings.setValue, QSettings.valueInt, QSettings.valueDouble, QSettings.valueBool]


theorem Save_keys (C : SweepSettings) (st : QSettings) :
    (∀ k ∈ sweepKeys, (C.Save st).1 k ≠ none) ∧ (∀ k, k ∉ sweepKeys → (C.Save st).1 k = st k) := by
  constructor
  · intro k hk
    simp only [sweepKeys, List.mem_cons, List.mem_singleton, List.not_mem_nil, or_false] at hk
    rcases hk with h | h | h | h | h | h | h | h | h | h | h | h | h | h | h | h | h | h | h <;>
      subst h <;> simp [SweepSettings.Save, QSettings.setValue]
  · intro k hk
    simp only [sweepKeys, List.mem_cons, List.mem_singleton, List.not_mem_nil, or_false,
      not_or] at hk
    simp [SweepSettings.Save, QSettings.setValue, hk]

theorem Load_keys (hw : Hardware) (st1 st2 : QSettings) (s : SweepSettings)
    (h : ∀ k ∈ sweepKeys, st1 k = st2 k) : s.Load hw st1 = s.Load hw st2 := by
  simp only [sweepKeys, List.mem_cons, List.mem_singleton, List.not_mem_nil, or_false,
    forall_eq_or_imp, forall_eq] at h
  simp [SweepSettings.Load, QSettings.valueInt, QSettings.valueDouble, QSettings.valueBool, h]

namespace SweepSettings

theorem setStart_valid (hw : Hardware) (s : SweepSettings) (f : Frequency)
    (h : startEdgeValid hw s f) :
    (s.setStart hw f).start = max f hw.BB60_MIN_FREQ ∧
      (s.setStart hw f).span = s.stop - max f hw.BB60_MIN_FREQ ∧
      (s.setStart hw f).center =
        max f hw.BB60_MIN_FREQ + (s.stop - max f hw.BB60_MIN_FREQ) / 2 ∧
      (s.setStart hw f).stop = s.stop := by
  obtain ⟨h1, h2⟩ := h
  have h1' : max f hw.BB60_MIN_FREQ < s.stop - hw.BB_MIN_SPAN := by linarith
  by_cases hm : s.mode = MODE_REAL_TIME
  · obtain ⟨h3, h4⟩ := h2 hm
    simp [setStart, max2, h1', hm, h3, h4]
  · simp [setStart, max2, h1', hm]

theorem setStart_invalid (hw : Hardware) (s : SweepSettings) (f : Frequency)
    (h : ¬ startEdgeValid hw s f) :
    (s.setStart hw f).start = s.start ∧ (s.setStart hw f).span = s.span ∧
      (s.setStart hw f).center = s.center ∧ (s.setStart hw f).stop = s.stop := by
  unfold startEdgeValid at h
  by_cases h1 : max f hw.BB60_MIN_FREQ < s.stop - hw.BB_MIN_SPAN
  · have h1' : hw.BB_MIN_SPAN < s.stop - max f hw.BB60_MIN_FREQ := by linarith
    by_cases hm : s.mode = MODE_REAL_TIME
    · have h2 : ¬ (s.stop - max f hw.BB60_MIN_FREQ ≤ hw.maxRealTimeSpan ∧
          s.stop - max f hw.BB60_MIN_FREQ ≥ hw.BB_MIN_RT_SPAN) := by
        intro hc
        exact h ⟨h1', fun _ => ⟨hc.2, hc.1⟩⟩
      simp only [setStart, max2, h1, hm, h2, if_true, if_false]
      simp
    · exact absurd ⟨h1', fun hc => absurd hc hm⟩ h
  · simp [setStart, max2, h1]

theorem setStop_valid (hw : Hardware) (s : SweepSettings) (f : Frequency)
    (h : stopEdgeValid hw s f) :
    (s.setStop hw f).stop = min f hw.BB60_MAX_FREQ ∧
      (s.setStop hw f).span = min f hw.BB60_MAX_FREQ - s.start ∧
      (s.setStop hw f).center = s.start + (min f hw.BB60_MAX_FREQ - s.start) / 2 ∧
      (s.setStop hw f).start = s.start := by
  obtain ⟨h1, h2⟩ := h
  have h1' : min f hw.BB60_MAX_FREQ > s.start + hw.BB_MIN_SPAN := by linarith
  by_cases hm : s.mode = MODE_REAL_TIME
  · obtain ⟨h3, h4⟩ := h2 hm
    simp [setStop, min2, h1', hm, h3, h4]
  · simp [setStop, min2, h1', hm]

theorem setStop_invalid (hw : Hardware) (s : SweepSettings) (f : Frequency)
    (h : ¬ stopEdgeValid hw s f) :
    (s.setStop hw f).stop = s.stop ∧ (s.setStop hw f).span = s.span ∧
      (s.setStop hw f).center = s.center ∧ (s.setStop hw f).start = s.start := by
  unfold stopEdgeValid at h
  by_cases h1 : min f hw.BB60_MAX_FREQ > s.start + hw.BB_MIN_SPAN
  · have h1' : hw.BB_MIN_SPAN < min f hw.BB60_MAX_FREQ - s.start := by linarith
    by_cases hm : s.mode = MODE_REAL_TIME
    · have h2 : ¬ (min f hw.BB60_MAX_FREQ - s.start ≤ hw.maxRealTimeSpan ∧
          min f hw.BB60_MAX_FREQ - s.start ≥ hw.BB_MIN_RT_SPAN) := by
        intro hc
        exact h ⟨h1', fun _ => ⟨hc.2, hc.1⟩⟩
      simp only [setStop, min2, h1, hm, h2, if_true, if_false]
      simp
    · exact absurd ⟨h1', fun hc => absurd hc hm⟩ h
  · simp [setStop, min2, h1]

end SweepSettings

theorem clamp_le_hi (v lo hi : ℚ) : clamp v lo hi ≤ hi := by
  unfold clamp
  dsimp only
  split_ifs <;> linarith

namespace SweepSettings

end SweepSettings

theorem setSpan_edges (hw : Hardware) (s : SweepSettings) (f : Frequency) :
    (s.setSpan hw f).start =
        (if s.center - fittedRequest hw s f / 2 < hw.BB60_MIN_FREQ then hw.BB60_MIN_FREQ
        else if s.center + fittedRequest hw s f / 2 > hw.BB60_MAX_FREQ then
          max (hw.BB60_MAX_FREQ - fittedRequest hw s f) hw.BB60_MIN_FREQ
        else s.center - fittedRequest hw s f / 2) ∧
      (s.setSpan hw f).stop =
        (if s.center - fittedRequest hw s f / 2 < hw.BB60_MIN_FREQ then
          min (hw.BB60_MIN_FREQ + fittedRequest hw s f) hw.BB60_MAX_FREQ
        else if s.center + fittedRequest hw s f / 2 > hw.BB60_MAX_FREQ then hw.BB60_MAX_FREQ
        else s.center + fittedRequest hw s f / 2) ∧
      (s.setSpan hw f).center = ((s.setSpan hw f).start + (s.setSpan hw f).stop) / 2 ∧
      (s.setSpan hw f).span = (s.setSpan hw f).stop - (s.setSpan hw f).start := by
  have hf : (if f < hw.BB_MIN_SPAN then hw.BB_MIN_SPAN else f) = max f hw.BB_MIN_SPAN := by
    rw [max_def]
    split_ifs with h1 h2 h2
    · rfl
    · exact absurd (le_of_lt h1) h2
    · exact le_antisymm h2 (not_lt.mp h1)
    · rfl
  unfold SweepSettings.setSpan fittedRequest
  dsimp only
  rw [hf]
  simp only [SweepSettings.emitUpdated_start, SweepSettings.emitUpdated_stop,
    SweepSettings.emitUpdated_center, SweepSettings.emitUpdated_span,
    SweepSettings.AutoBandwidthAdjust_start, SweepSettings.AutoBandwidthAdjust_stop,
    SweepSettings.AutoBandwidthAdjust_center, SweepSettings.AutoBandwidthAdjust_span]
  split_ifs <;> simp [min2, max2]

namespace SweepSettings

theorem AutoBandwidthAdjust_eq (hw : Hardware) (force : Bool) (s : SweepSettings) :
    AutoBandwidthAdjust hw force s =
      { s with
        native_rbw := s.adjustedNative
        rbw := s.adjustedRbw hw force
        vbw := s.adjustedVbw hw force } := by
  by_cases hm : s.mode = BB_REAL_TIME
  · by_cases hf : (s.auto_rbw || force) = true
    · simp only [AutoBandwidthAdjust, adjustedNative, adjustedRbw, adjustedVbw, generalStepRbw,
        hm, hf, if_true]
      simp
    · simp only [AutoBandwidthAdjust, adjustedNative, adjustedRbw, adjustedVbw, generalStepRbw,
        hm, hf, if_true, if_false]
      simp
  · by_cases hf : (s.auto_rbw || force) = true
    · simp only [AutoBandwidthAdjust, adjustedNative, adjustedRbw, adjustedVbw, generalStepRbw,
        hm, hf, if_true, if_false]
      by_cases hv : s.auto_vbw = true
      · simp [hv, hm]
      · by_cases hg : s.vbw > hw.get_best_rbw s.span s.native_rbw
        · simp [hv, hg, hm]
        · simp [hv, hg, hm]
    · simp only [AutoBandwidthAdjust, adjustedNative, adjustedRbw, adjustedVbw, generalStepRbw,
        hm, hf, if_true, if_false]
      by_cases hv : s.auto_vbw = true
      · simp [hv, hm]
      · by_cases hg : s.vbw > hw.adjust_rbw_on_span s.rbw s.span s.native_rbw
        · simp [hv, hg, hm]
        · simp [hv, hg, hm]

end SweepSettings

theorem ite_gt_eq_min (f r : ℚ) : (if f > r then r else f) = min f r := by
  rw [min_def]
  split_ifs with h1 h2 h2
  · exact absurd h2 (not_le.mpr h1)
  · rfl
  · rfl
  · exact absurd (le_of_not_lt h1) h2

theorem Load_Save_fields (hw : Hardware) (C s : SweepSettings) (st : QSettings) :
    (s.Load hw (C.Save st).1).1.start = C.start ∧ (s.Load hw (C.Save st).1).1.stop = C.stop ∧
      (s.Load hw (C.Save st).1).1.center = C.center ∧
      (s.Load hw (C.Save st).1).1.span = C.span ∧ (s.Load hw (C.Save st).1).1.rbw = C.rbw ∧
      (s.Load hw (C.Save st).1).1.vbw = C.vbw := by
  simp [SweepSettings.Load, SweepSettings.Save, SweepSettings.emitUpdated,
    QSettings.setValue, QSettings.valueInt, QSettings.valueDouble, QSettings.valueBool]

theorem Load_empty_fields (hw : Hardware) (s : SweepSettings) :
    (s.Load hw QSettings.empty).1.start = s.start ∧
      (s.Load hw QSettings.empty).1.stop = s.stop ∧
      (s.Load hw QSettings.empty).1.center = s.center ∧
      (s.Load hw QSettings.empty).1.span = s.span ∧
      (s.Load hw QSettings.empty).1.rbw = s.rbw ∧
      (s.Load hw QSettings.empty).1.vbw = s.vbw := by
  simp [SweepSettings.Load, SweepSettings.emitUpdated, QSettings.empty,
    QSettings.valueInt, QSettings.valueDouble, QSettings.valueBool]

theorem Amplitude.Clamp_refRange (hw : Hardware) (a : Amplitude) :
    (a.Clamp hw ⟨-100, AmpUnits.DBM⟩ ⟨20, AmpUnits.DBM⟩).InRefRange hw := by
  have e1 : Amplitude.toDBM hw ⟨-100, AmpUnits.DBM⟩ = -100 := rfl
  have e2 : Amplitude.toDBM hw ⟨20, AmpUnits.DBM⟩ = 20 := rfl
  unfold Amplitude.Clamp Amplitude.InRefRange
  dsimp only
  by_cases h1 : a.toDBM hw < -100
  · have h3 : ¬ ((-100 : ℚ) > 20) := by norm_num
    simp only [e1, e2, h1, if_true, h3, if_false]
    norm_num
  · by_cases h2 : a.toDBM hw > 20
    · simp only [e1, e2, h1, if_false, h2, if_true]
      norm_num
    · simp only [e1, e2, h1, if_false, h2]
      exact ⟨not_lt.mp h1, not_lt.mp h2⟩

theorem Amplitude.Clamp_of_refRange (hw : Hardware) (a : Amplitude) (h : a.InRefRange hw) :
    a.Clamp hw ⟨-100, AmpUnits.DBM⟩ ⟨20, AmpUnits.DBM⟩ = a := by
  have e1 : Amplitude.toDBM hw ⟨-100, AmpUnits.DBM⟩ = -100 := rfl
  have e2 : Amplitude.toDBM hw ⟨20, AmpUnits.DBM⟩ = 20 := rfl
  obtain ⟨h1, h2⟩ := h
  unfold Amplitude.Clamp
  dsimp only
  simp only [e1, e2, not_lt.mpr h1, if_false, gt_iff_lt, not_lt.mpr h2]

theorem Load_key_absent (hw : Hardware) (hself : ∀ a : Amplitude, hw.assignDouble a a.val = a)
    (C : SweepSettings) (st : QSettings) (key : String) (hk : key ∈ sweepKeys)
    (h : st key = none) :
    (C.Load hw st).1.stored key = C.stored key ∧
      (key = "Sweep/RefLevel" → (C.Load hw st).1.refLevel = C.refLevel) := by
  simp only [sweepKeys, List.mem_cons, List.mem_singleton, List.not_mem_nil, or_false] at hk
  rcases hk with k | k | k | k | k | k | k | k | k | k | k | k | k | k | k | k | k | k | k <;>
    subst k <;>
    simp [SweepSettings.stored, SweepSettings.Load, SweepSettings.Save,
      SweepSettings.emitUpdated, QSettings.setValue, QSettings.empty, QSettings.valueInt,
      QSettings.valueDouble, QSettings.valueBool, h, hself]

theorem Load_key_present (hw : Hardware) (hval : ∀ (a : Amplitude) (d : ℚ),
    (hw.assignDouble a d).val = d)
    (C : SweepSettings) (st : QSettings) (key : String) (hk : key ∈ sweepKeys)
    (v w : QVariant) (h : st key = some v) (hw1 : C.stored key = some w)
    (hw2 : v.sameKind w = true) :
    (C.Load hw st).1.stored key = some v := by
  simp only [sweepKeys, List.mem_cons, List.mem_singleton, List.not_mem_nil, or_false] at hk
  rcases hk with k | k | k | k | k | k | k | k | k | k | k | k | k | k | k | k | k | k | k <;>
    subst k <;>
    simp [SweepSettings.stored, SweepSettings.Save, QSettings.setValue,
      QSettings.empty] at hw1 <;>
    subst hw1 <;>
    cases v <;>
    simp [QVariant.sameKind] at hw2 <;>
    simp [SweepSettings.stored, SweepSettings.Load, SweepSettings.Save,
      SweepSettings.emitUpdated, QSettings.setValue, QSettings.empty, QSettings.valueInt,
      QSettings.valueDouble, QSettings.valueBool, h, hval]

namespace SweepSettings

@[simp] theorem AutoBandwidthAdjust_emitted (hw : Hardware) (force : Bool) (s : SweepSettings) :
    (AutoBandwidthAdjust hw force s).emitted = s.emitted := by
  rw [AutoBandwidthAdjust_eq]

@[simp] theorem emitUpdated_emitted (s : SweepSettings) :
    (emitUpdated s).emitted = s.emitted + 1 := rfl

theorem setCenter_emitted (hw : Hardware) (f : Frequency) (s : SweepSettings) :
    (s.setCenter hw f).emitted = s.emitted + 1 := by
  unfold setCenter
  dsimp only
  rw [emitUpdated_emitted, AutoBandwidthAdjust_emitted]
  split_ifs <;> rfl

theorem setSpan_emitted (hw : Hardware) (f : Frequency) (s : SweepSettings) :
    (s.setSpan hw f).emitted = s.emitted + 1 := by
  unfold setSpan
  dsimp only
  rw [emitUpdated_emitted, AutoBandwidthAdjust_emitted]
  split_ifs <;> rfl

end SweepSettings

theorem Op.apply_emitted (hw : Hardware) (s : SweepSettings) (op : Op) :
    (op.apply hw s).emitted = s.emitted + op.notifications s := by
  cases op with
  | setMode m =>
    simp only [Op.apply, SweepSettings.setMode, Op.notifications]
    split_ifs <;> simp
  | setStart f =>
    simp only [Op.apply, SweepSettings.setStart, Op.notifications,
      SweepSettings.emitUpdated_emitted, SweepSettings.AutoBandwidthAdjust_emitted]
    split_ifs <;> rfl
  | setStop f =>
    simp only [Op.apply, SweepSettings.setStop, Op.notifications,
      SweepSettings.emitUpdated_emitted, SweepSettings.AutoBandwidthAdjust_emitted]
    split_ifs <;> rfl
  | setCenter f => exact SweepSettings.setCenter_emitted hw f s
  | increaseCenter inc =>
    simp only [Op.apply, SweepSettings.increaseCenter, Op.notifications]
    split_ifs <;> exact SweepSettings.setCenter_emitted hw _ s
  | setSpan f => exact SweepSettings.setSpan_emitted hw f s
  | increaseSpan inc => exact SweepSettings.setSpan_emitted hw _ s
  | setRBW f =>
    simp only [Op.apply, SweepSettings.setRBW, Op.notifications,
      SweepSettings.emitUpdated_emitted, SweepSettings.AutoBandwidthAdjust_emitted]
    split_ifs <;> rfl
  | setVBW f =>
    simp only [Op.apply, SweepSettings.setVBW, Op.notifications,
      SweepSettings.emitUpdated_emitted, SweepSettings.AutoBandwidthAdjust_emitted]
    split_ifs <;> rfl
  | setAutoVbw b =>
    simp only [Op.apply, SweepSettings.setAutoVbw, Op.notifications,
      SweepSettings.emitUpdated_emitted]
    split_ifs <;> rfl
  | setDetector i =>
    simp only [Op.apply, SweepSettings.setDetector, Op.notifications]
    split_ifs <;> rfl
  | setProcUnits i =>
    simp only [Op.apply, SweepSettings.setProcUnits, Op.notifications]
    split_ifs <;> rfl
  | setRejection i =>
    simp only [Op.apply, SweepSettings.setRejection, Op.notifications]
    split_ifs <;> rfl
  | _ =>
    simp [Op.apply, Op.notifications, SweepSettings.setStep, SweepSettings.setFullSpan,
      SweepSettings.rbwIncrease, SweepSettings.vbwIncrease, SweepSettings.setAutoRbw,
      SweepSettings.setNativeRBW, SweepSettings.setRefLevel, SweepSettings.shiftRefLevel,
      SweepSettings.setDiv, SweepSettings.setAttenuation, SweepSettings.setGain,
      SweepSettings.setSweepTime]

theorem sample_index_500k : sampleHardware.get_native_bw_index 500000 = 25 := by
  show ⌊(500000 : ℚ) / 20000 + 1 / 2⌋ = 25
  rw [Int.floor_eq_iff]
  norm_num

theorem sample_index_310k : sampleHardware.get_native_bw_index 310000 = 16 := by
  show ⌊(310000 : ℚ) / 20000 + 1 / 2⌋ = 16
  rw [Int.floor_eq_iff]
  norm_num

theorem setRBW_eq (hw : Hardware) (f : Frequency) (s : SweepSettings) :
    s.setRBW hw f =
      SweepSettings.emitUpdated (SweepSettings.AutoBandwidthAdjust hw false
        { s with
          rbw := if s.native_rbw = true then ladderValue hw f else f
          auto_rbw := false }) := by
  unfold SweepSettings.setRBW ladderValue
  dsimp only
  split_ifs <;> rfl

namespace SweepSettings

theorem setMode_realTime_freq (hw : Hardware) (s : SweepSettings) :
    (s.setMode hw MODE_REAL_TIME).span = min s.span hw.maxRealTimeSpan ∧
      (s.setMode hw MODE_REAL_TIME).center = s.center := by
  by_cases h : s.span > hw.maxRealTimeSpan
  · simp [setMode, h, min_eq_right (le_of_lt h)]
  · simp [setMode, h, min_eq_left (not_lt.mp h)]

theorem setCenter_span (hw : Hardware) (f : Frequency) (s : SweepSettings) :
    (s.setCenter hw f).span =
      (if f < hw.BB60_MIN_FREQ + hw.BB_MIN_SPAN * 2 ∨ f > hw.BB60_MAX_FREQ - hw.BB_MIN_SPAN * 2
        then s.span
        else min3 s.span ((f - hw.BB60_MIN_FREQ) * 2) ((hw.BB60_MAX_FREQ - f) * 2)) := by
  unfold setCenter
  dsimp only
  rw [emitUpdated_span, AutoBandwidthAdjust_span]
  split_ifs <;> rfl

theorem setCenter_span_le (hw : Hardware) (f : Frequency) (s : SweepSettings) :
    (s.setCenter hw f).span ≤ s.span := by
  rw [setCenter_span]
  split_ifs
  · exact le_refl _
  · exact min_le_left _ _

theorem setSpan_span_le (hw : Hardware) (f : Frequency) (s : SweepSettings) :
    (s.setSpan hw f).span ≤ fittedRequest hw s f := by
  obtain ⟨h1, h2, _, h4⟩ := setSpan_edges hw s f
  rw [h4, h1, h2]
  split_ifs with ha hb
  · have := min_le_left (hw.BB60_MIN_FREQ + fittedRequest hw s f) hw.BB60_MAX_FREQ
    linarith
  · have := le_max_left (hw.BB60_MAX_FREQ - fittedRequest hw s f) hw.BB60_MIN_FREQ
    linarith
  · linarith

theorem setSpan_RealTimeCeiling (hw : Hardware) (f : Frequency) (s : SweepSettings) :
    RealTimeCeiling hw (s.setSpan hw f) := by
  intro hm
  have hm' : s.mode = MODE_REAL_TIME := by
    have h := Op.apply_mode hw s (Op.setSpan f)
    exact h.symm.trans hm
  refine le_trans (setSpan_span_le hw f s) ?_
  unfold fittedRequest
  rw [if_pos (Or.inl hm')]
  exact clamp_le_hi _ _ _

theorem setCenter_RealTimeCeiling (hw : Hardware) (f : Frequency) (s : SweepSettings)
    (h : RealTimeCeiling hw s) : RealTimeCeiling hw (s.setCenter hw f) := by
  intro hm
  rw [setCenter_mode] at hm
  exact le_trans (setCenter_span_le hw f s) (h hm)

theorem setStart_RealTimeCeiling (hw : Hardware) (f : Frequency) (s : SweepSettings)
    (h : RealTimeCeiling hw s) : RealTimeCeiling hw (s.setStart hw f) := by
  intro hm
  have hm' : s.mode = MODE_REAL_TIME := by
    have h := Op.apply_mode hw s (Op.setStart f)
    exact h.symm.trans hm
  by_cases hv : startEdgeValid hw s f
  · rw [(setStart_valid hw s f hv).2.1]
    exact (hv.2 hm').2
  · rw [(setStart_invalid hw s f hv).2.1]
    exact h hm'

theorem setStop_RealTimeCeiling (hw : Hardware) (f : Frequency) (s : SweepSettings)
    (h : RealTimeCeiling hw s) : RealTimeCeiling hw (s.setStop hw f) := by
  intro hm
  have hm' : s.mode = MODE_REAL_TIME := by
    have h := Op.apply_mode hw s (Op.setStop f)
    exact h.symm.trans hm
  by_cases hv : stopEdgeValid hw s f
  · rw [(setStop_valid hw s f hv).2.1]
    exact (hv.2 hm').2
  · rw [(setStop_invalid hw s f hv).2.1]
    exact h hm'

end SweepSettings

theorem Op.apply_RealTimeCeiling_of_keepsFreq (hw : Hardware) (s : SweepSettings) (op : Op)
    (hk : op.keepsFreq = true) (h : s.RealTimeCeiling hw) :
    (op.apply hw s).RealTimeCeiling hw := by
  intro hm
  rw [(Op.apply_SameFreq hw s op hk).2.2.1]
  have hm2 := (Op.apply_mode hw s op).symm.trans hm
  cases op with
  | setMode m =>
    simp only [Op.keepsFreq, decide_eq_true_eq] at hk
    exact absurd hm2 hk
  | setStart f => exact h hm2
  | setStop f => exact h hm2
  | setCenter f => exact h hm2
  | increaseCenter inc => exact h hm2
  | setSpan f => exact h hm2
  | increaseSpan inc => exact h hm2
  | setFullSpan => exact h hm2
  | _ => exact h hm2

theorem Op.apply_RealTimeCeiling (hw : Hardware) (s : SweepSettings) (op : Op)
    (hop : op.isFullSpan = false) (h : s.RealTimeCeiling hw) :
    (op.apply hw s).RealTimeCeiling hw := by
  cases op with
  | setMode m =>
    intro hm
    have hm' : m = MODE_REAL_TIME := (Op.apply_mode hw s (Op.setMode m)).symm.trans hm
    subst hm'
    show (s.setMode hw MODE_REAL_TIME).span ≤ hw.maxRealTimeSpan
    rw [(SweepSettings.setMode_realTime_freq hw s).1]
    exact min_le_right _ _
  | setStart f => exact SweepSettings.setStart_RealTimeCeiling hw f s h
  | setStop f => exact SweepSettings.setStop_RealTimeCeiling hw f s h
  | setCenter f => exact SweepSettings.setCenter_RealTimeCeiling hw f s h
  | increaseCenter inc =>
    simp only [Op.apply, SweepSettings.increaseCenter]
    split_ifs <;> exact SweepSettings.setCenter_RealTimeCeiling hw _ s h
  | setSpan f => exact SweepSettings.setSpan_RealTimeCeiling hw f s
  | increaseSpan inc => exact SweepSettings.setSpan_RealTimeCeiling hw _ s
  | setFullSpan => exact absurd hop (by simp [Op.isFullSpan])
  | _ => exact Op.apply_RealTimeCeiling_of_keepsFreq hw s _ rfl h

theorem run_RealTimeCeiling (hw : Hardware) (ops : List Op)
    (hops : ∀ op ∈ ops, op.isFullSpan = false) : (run hw ops).RealTimeCeiling hw := by
  unfold run runFrom
  have h0 : (SweepSettings.defaults hw).RealTimeCeiling hw := by
    intro hm
    simp [SweepSettings.defaults, SweepSettings.LoadDefaults] at hm
  generalize SweepSettings.defaults hw = s0 at h0
  induction ops generalizing s0 with
  | nil => simpa using h0
  | cons op rest ih =>
    exact ih (fun o ho => hops o (List.mem_cons_of_mem _ ho)) _
      (Op.apply_RealTimeCeiling hw s0 op (hops op (List.mem_cons_self _ _)) h0)

namespace SweepSettings

end SweepSettings

namespace SweepSettings

theorem withQuad_quadOf (s : SweepSettings) : s.withQuad s.quadOf = s := rfl

end SweepSettings

namespace IEEE

theorem ulp_eq (q : ℚ) (e : ℤ) (hlo : (2 : ℚ) ^ e ≤ |q|) (hhi : |q| < (2 : ℚ) ^ (e + 1)) :
    ulp q = (2 : ℚ) ^ (e - 52) := by
  have hpos : (0 : ℚ) < |q| := lt_of_lt_of_le (by positivity) hlo
  have h1 : e ≤ Int.log 2 |q| :=
    (Int.zpow_le_iff_le_log (by norm_num) hpos).mp (by exact_mod_cast hlo)
  have h2 : Int.log 2 |q| < e + 1 :=
    (Int.lt_zpow_iff_log_lt (by norm_num) hpos).mp (by exact_mod_cast hhi)
  have h3 : Int.log 2 |q| = e := by omega
  unfold ulp
  rw [h3]

theorem roundHalfEven_eq (x : ℚ) (n : ℤ) (h1 : (n : ℚ) ≤ x) (h2 : x < n + 1) :
    roundHalfEven x =
      if x - n < 1 / 2 then n
      else if x - n > 1 / 2 then n + 1
      else if n % 2 = 0 then n
      else n + 1 := by
  have hf : ⌊x⌋ = n := Int.floor_eq_iff.mpr ⟨h1, h2⟩
  unfold roundHalfEven
  rw [hf]

/-- A positive number in the binade of exponent `e` that is a multiple of the spacing there is
left unchanged by the rounding. -/
theorem roundToDouble_exact (q : ℚ) (e n : ℤ) (hlo : (2 : ℚ) ^ e ≤ q)
    (hhi : q < (2 : ℚ) ^ (e + 1)) (hn : q = n * (2 : ℚ) ^ (e - 52)) : roundToDouble q = q := by
  have hpos : (0 : ℚ) < q := lt_of_lt_of_le (by positivity) hlo
  have hu : ulp q = (2 : ℚ) ^ (e - 52) :=
    ulp_eq q e (by rw [abs_of_pos hpos]; exact hlo) (by rw [abs_of_pos hpos]; exact hhi)
  have hupos : (0 : ℚ) < (2 : ℚ) ^ (e - 52) := by positivity
  have hx : q / (2 : ℚ) ^ (e - 52) = n := by
    rw [hn]
    field_simp
  unfold roundToDouble
  rw [if_neg (ne_of_gt hpos), hu, hx, roundHalfEven_eq (n : ℚ) n le_rfl (by linarith)]
  simp only [sub_self]
  rw [if_pos (by norm_num)]
  exact hn.symm

/-- The rounding of a positive number in the binade of exponent `e`, from the integer `n` just
below its quotient by the spacing. -/
theorem roundToDouble_eq (q : ℚ) (e n : ℤ) (hlo : (2 : ℚ) ^ e ≤ q)
    (hhi : q < (2 : ℚ) ^ (e + 1)) (h1 : (n : ℚ) ≤ q / (2 : ℚ) ^ (e - 52))
    (h2 : q / (2 : ℚ) ^ (e - 52) < n + 1) :
    roundToDouble q =
      ((if q / (2 : ℚ) ^ (e - 52) - n < 1 / 2 then n
        else if q / (2 : ℚ) ^ (e - 52) - n > 1 / 2 then n + 1
        else if n % 2 = 0 then n
        else n + 1 : ℤ) : ℚ) * (2 : ℚ) ^ (e - 52) := by
  have hpos : (0 : ℚ) < q := lt_of_lt_of_le (by positivity) hlo
  have hu : ulp q = (2 : ℚ) ^ (e - 52) :=
    ulp_eq q e (by rw [abs_of_pos hpos]; exact hlo) (by rw [abs_of_pos hpos]; exact hhi)
  unfold roundToDouble
  rw [if_neg (ne_of_gt hpos), hu, roundHalfEven_eq _ n h1 h2]

namespace Double

@[simp] theorem num_add_num (a b : ℚ) : num a + num b = num (roundToDouble (a + b)) := rfl

@[simp] theorem num_sub_num (a b : ℚ) : num a - num b = num (roundToDouble (a - b)) := rfl

@[simp] theorem num_mul_num (a b : ℚ) : num a * num b = num (roundToDouble (a * b)) := rfl

theorem num_div_num (a b : ℚ) (h : b ≠ 0) : num a / num b = num (roundToDouble (a / b)) := by
  show (if b = 0 then nan else num (roundToDouble (a / b))) = _
  rw [if_neg h]

@[simp] theorem num_lt_num (a b : ℚ) : (num a < num b) ↔ a < b := by
  show lt (num a) (num b) = true ↔ _
  simp [lt]

@[simp] theorem num_le_num (a b : ℚ) : (num a ≤ num b) ↔ a ≤ b := by
  show le (num a) (num b) = true ↔ _
  simp [le]

@[simp] theorem not_nan_lt (b : Double) : ¬ (nan < b) := by
  show ¬ (lt nan b = true)
  simp [lt]

@[simp] theorem not_lt_nan (a : Double) : ¬ (a < nan) := by
  show ¬ (lt a nan = true)
  cases a <;> simp [lt]

@[simp] theorem not_nan_le (b : Double) : ¬ (nan ≤ b) := by
  show ¬ (le nan b = true)
  simp [le]

@[simp] theorem not_le_nan (a : Double) : ¬ (a ≤ nan) := by
  show ¬ (le a nan = true)
  cases a <;> simp [le]

@[simp] theorem nan_sub (b : Double) : nan - b = nan := rfl

@[simp] theorem nan_add (b : Double) : nan + b = nan := rfl

theorem ofNat_eq_num (n : Nat) [n.AtLeastTwo] :
    (OfNat.ofNat n : Double) = num (OfNat.ofNat n) := rfl

end Double

theorem min2_num (a b : ℚ) : min2 (Double.num a) (Double.num b) = Double.num (min a b) := by
  unfold min2
  simp only [Double.num_lt_num]
  rcases lt_or_le b a with h | h
  · rw [if_pos h, min_eq_right (le_of_lt h)]
  · rw [if_neg (not_lt.mpr h), min_eq_left h]

theorem min3_num (a b c : ℚ) :
    min3 (Double.num a) (Double.num b) (Double.num c) = Double.num (min a (min b c)) := by
  unfold min3
  rw [min2_num, min2_num]

namespace SweepSettings

theorem AutoBandwidthAdjust_frequencies (hw : Hardware) (force : Bool) (s : SweepSettings) :
    (AutoBandwidthAdjust hw force s).mode = s.mode ∧
      (AutoBandwidthAdjust hw force s).start = s.start ∧
      (AutoBandwidthAdjust hw force s).stop = s.stop ∧
      (AutoBandwidthAdjust hw force s).center = s.center ∧
      (AutoBandwidthAdjust hw force s).span = s.span := by
  unfold AutoBandwidthAdjust
  dsimp only
  split_ifs <;> exact ⟨rfl, rfl, rfl, rfl, rfl⟩

/-- The centred branch of `setSpan` on doubles: the four frequencies after the call, each
arithmetic result rounded. -/
theorem setSpan_centred (hw : Hardware) (s : SweepSettings) (x c ms lo hi : ℚ)
    (hms : hw.BB_MIN_SPAN = Double.num ms) (hlo : hw.BB60_MIN_FREQ = Double.num lo)
    (hhi : hw.BB60_MAX_FREQ = Double.num hi) (hc : s.center = Double.num c)
    (hm : ¬ (s.mode = MODE_REAL_TIME ∨ s.mode = MODE_TIME_GATE)) (hx : ¬ x < ms)
    (h1 : ¬ roundToDouble (c - roundToDouble (x / 2)) < lo)
    (h2 : ¬ roundToDouble (c + roundToDouble (x / 2)) > hi) :
    (s.setSpan hw (Double.num x)).start = Double.num (roundToDouble (c - roundToDouble (x / 2))) ∧
    (s.setSpan hw (Double.num x)).stop = Double.num (roundToDouble (c + roundToDouble (x / 2))) ∧
    (s.setSpan hw (Double.num x)).center =
      Double.num (roundToDouble (roundToDouble (roundToDouble (c - roundToDouble (x / 2)) +
        roundToDouble (c + roundToDouble (x / 2))) / 2)) ∧
    (s.setSpan hw (Double.num x)).span =
      Double.num (roundToDouble (roundToDouble (c + roundToDouble (x / 2)) -
        roundToDouble (c - roundToDouble (x / 2)))) ∧
    (s.setSpan hw (Double.num x)).mode = s.mode := by
  have h2ne : (2 : ℚ) ≠ 0 := by norm_num
  have e2 : (2 : Double) = Double.num 2 := rfl
  obtain ⟨k1, k2, k3, k4, k5⟩ := AutoBandwidthAdjust_frequencies hw false
    { s with
      start := Double.num (roundToDouble (c - roundToDouble (x / 2)))
      stop := Double.num (roundToDouble (c + roundToDouble (x / 2)))
      center := Double.num (roundToDouble (roundToDouble (roundToDouble
        (c - roundToDouble (x / 2)) + roundToDouble (c + roundToDouble (x / 2))) / 2))
      span := Double.num (roundToDouble (roundToDouble (c + roundToDouble (x / 2)) -
        roundToDouble (c - roundToDouble (x / 2)))) }
  have key : s.setSpan hw (Double.num x) = emitUpdated (AutoBandwidthAdjust hw false
      { s with
        start := Double.num (roundToDouble (c - roundToDouble (x / 2)))
        stop := Double.num (roundToDouble (c + roundToDouble (x / 2)))
        center := Double.num (roundToDouble (roundToDouble (roundToDouble
          (c - roundToDouble (x / 2)) + roundToDouble (c + roundToDouble (x / 2))) / 2))
        span := Double.num (roundToDouble (roundToDouble (c + roundToDouble (x / 2)) -
          roundToDouble (c - roundToDouble (x / 2)))) }) := by
    unfold setSpan
    simp only [hms, hlo, hhi, hc, e2, Double.num_lt_num, hx, if_false, hm,
      Double.num_div_num _ _ h2ne, Double.num_sub_num, Double.num_add_num, h1, gt_iff_lt,
      (show ¬ hi < roundToDouble (c + roundToDouble (x / 2)) from h2)]
  rw [key]
  exact ⟨k2, k3, k4, k5, k1⟩

/-- The accepting branch of `setCenter` on doubles: the four frequencies after the call, each
arithmetic result rounded. -/
theorem setCenter_accepted (hw : Hardware) (s : SweepSettings) (x sp ms lo hi : ℚ)
    (hms : hw.BB_MIN_SPAN = Double.num ms) (hlo : hw.BB60_MIN_FREQ = Double.num lo)
    (hhi : hw.BB60_MAX_FREQ = Double.num hi) (hsp : s.span = Double.num sp)
    (h1 : ¬ x < roundToDouble (lo + roundToDouble (ms * 2)))
    (h2 : ¬ x > roundToDouble (hi - roundToDouble (ms * 2))) :
    (s.setCenter hw (Double.num x)).center = Double.num x ∧
    (s.setCenter hw (Double.num x)).mode = s.mode ∧
    (s.setCenter hw (Double.num x)).span =
      Double.num (min sp (min (roundToDouble (roundToDouble (x - lo) * 2))
        (roundToDouble (roundToDouble (hi - x) * 2)))) ∧
    (s.setCenter hw (Double.num x)).start =
      Double.num (roundToDouble (x - roundToDouble
        (min sp (min (roundToDouble (roundToDouble (x - lo) * 2))
          (roundToDouble (roundToDouble (hi - x) * 2))) / 2))) ∧
    (s.setCenter hw (Double.num x)).stop =
      Double.num (roundToDouble (x + roundToDouble
        (min sp (min (roundToDouble (roundToDouble (x - lo) * 2))
          (roundToDouble (roundToDouble (hi - x) * 2))) / 2))) := by
  have h2ne : (2 : ℚ) ≠ 0 := by norm_num
  have e2 : (2 : Double) = Double.num 2 := rfl
  obtain ⟨k1, k2, k3, k4, k5⟩ := AutoBandwidthAdjust_frequencies hw false
    { s with
      center := Double.num x
      span := Double.num (min sp (min (roundToDouble (roundToDouble (x - lo) * 2))
        (roundToDouble (roundToDouble (hi - x) * 2))))
      start := Double.num (roundToDouble (x - roundToDouble
        (min sp (min (roundToDouble (roundToDouble (x - lo) * 2))
          (roundToDouble (roundToDouble (hi - x) * 2))) / 2)))
      stop := Double.num (roundToDouble (x + roundToDouble
        (min sp (min (roundToDouble (roundToDouble (x - lo) * 2))
          (roundToDouble (roundToDouble (hi - x) * 2))) / 2))) }
  have key : s.setCenter hw (Double.num x) = emitUpdated (AutoBandwidthAdjust hw false
      { s with
        center := Double.num x
        span := Double.num (min sp (min (roundToDouble (roundToDouble (x - lo) * 2))
          (roundToDouble (roundToDouble (hi - x) * 2))))
        start := Double.num (roundToDouble (x - roundToDouble
          (min sp (min (roundToDouble (roundToDouble (x - lo) * 2))
            (roundToDouble (roundToDouble (hi - x) * 2))) / 2)))
        stop := Double.num (roundToDouble (x + roundToDouble
          (min sp (min (roundToDouble (roundToDouble (x - lo) * 2))
            (roundToDouble (roundToDouble (hi - x) * 2))) / 2))) }) := by
    unfold setCenter
    simp only [hms, hlo, hhi, hsp, e2, Double.num_lt_num, Double.num_mul_num,
      Double.num_div_num _ _ h2ne, Double.num_sub_num, Double.num_add_num, h1, gt_iff_lt,
      (show ¬ roundToDouble (hi - roundToDouble (ms * 2)) < x from h2), or_self, if_false,
      min3_num]
  rw [key]
  exact ⟨k4, k1, k5, k2, k3⟩

end SweepSettings

theorem fineSpan_half : roundToDouble (fineSpan / 2) = 500 + 7 / 8388608 := by
  have h : fineSpan / 2 = 500 + 7 / 8388608 := by norm_num [fineSpan]
  rw [h]
  exact roundToDouble_exact _ 8 ((500 * 8388608 + 7) * 2097152) (by norm_num) (by norm_num)
    (by norm_num)

theorem round_defaults_lo :
    roundToDouble (3005500000 - (500 + 7 / 8388608)) = 3005499500 - 1 / 1048576 := by
  rw [roundToDouble_eq _ 31 (3005499500 * 2097152 - 2) (by norm_num) (by norm_num)
    (by norm_num) (by norm_num)]
  norm_num

theorem round_defaults_hi :
    roundToDouble (3005500000 + (500 + 7 / 8388608)) = 3005500500 + 1 / 1048576 := by
  rw [roundToDouble_eq _ 31 (3005500500 * 2097152 + 1) (by norm_num) (by norm_num)
    (by norm_num) (by norm_num)]
  norm_num

theorem round_defaults_span :
    roundToDouble (3005500500 + 1 / 1048576 - (3005499500 - 1 / 1048576)) =
      1000 + 1 / 524288 := by
  have h : (3005500500 + 1 / 1048576 - (3005499500 - 1 / 1048576) : ℚ) = 1000 + 1 / 524288 := by
    norm_num
  rw [h]
  exact roundToDouble_exact _ 9 ((1000 * 524288 + 1) * 16777216) (by norm_num) (by norm_num)
    (by norm_num)

theorem defaults_center : SweepSettings.defaults.center = Double.num 3005500000 := by
  have h1 : roundToDouble (11000000 + 6000000000) = 6011000000 := by
    have h : (11000000 + 6000000000 : ℚ) = 6011000000 := by norm_num
    rw [h]
    exact roundToDouble_exact _ 32 (6011000000 * 1048576) (by norm_num) (by norm_num)
      (by norm_num)
  have h2 : roundToDouble (6011000000 / 2) = 3005500000 := by
    have h : (6011000000 / 2 : ℚ) = 3005500000 := by norm_num
    rw [h]
    exact roundToDouble_exact _ 31 (3005500000 * 2097152) (by norm_num) (by norm_num)
      (by norm_num)
  show ((11000000 : Double) + 6000000000) / 2 = _
  rw [Double.ofNat_eq_num, Double.ofNat_eq_num, Double.ofNat_eq_num, Double.num_add_num, h1,
    Double.num_div_num _ _ (by norm_num), h2]

/-- On doubles, `setSpan(fineSpan)` on the factory defaults: the edges are the rounded
`center ± f/2`, and the span re-derived from them is not the request. -/
theorem defaults_setSpan_fine :
    (SweepSettings.defaults.setSpan sampleHardware (Double.num fineSpan)).start =
      Double.num (3005499500 - 1 / 1048576) ∧
    (SweepSettings.defaults.setSpan sampleHardware (Double.num fineSpan)).stop =
      Double.num (3005500500 + 1 / 1048576) ∧
    (SweepSettings.defaults.setSpan sampleHardware (Double.num fineSpan)).span =
      Double.num (1000 + 1 / 524288) := by
  obtain ⟨h1, h2, _, h4, _⟩ := SweepSettings.setSpan_centred sampleHardware
    SweepSettings.defaults fineSpan 3005500000 20 9000 6400000000 rfl rfl rfl defaults_center
    (by simp [SweepSettings.defaults]) (by norm_num [fineSpan])
    (by rw [fineSpan_half, round_defaults_lo]; norm_num)
    (by rw [fineSpan_half, round_defaults_hi]; norm_num)
  rw [fineSpan_half, round_defaults_lo] at h1
  rw [fineSpan_half, round_defaults_hi] at h2
  rw [fineSpan_half, round_defaults_lo, round_defaults_hi, round_defaults_span] at h4
  exact ⟨h1, h2, h4⟩

theorem round_forty : roundToDouble (20 * 2) = 40 := by
  have h : (20 * 2 : ℚ) = 40 := by norm_num
  rw [h]
  exact roundToDouble_exact _ 5 (40 * 140737488355328) (by norm_num) (by norm_num) (by norm_num)

theorem round_upper_guard : roundToDouble (6400000000 - 40) = 6399999960 := by
  have h : (6400000000 - 40 : ℚ) = 6399999960 := by norm_num
  rw [h]
  exact roundToDouble_exact _ 32 (6399999960 * 1048576) (by norm_num) (by norm_num)
    (by norm_num)

theorem round_lower_guard : roundToDouble (9000 + 40) = 9040 := by
  have h : (9000 + 40 : ℚ) = 9040 := by norm_num
  rw [h]
  exact roundToDouble_exact _ 13 (9040 * 549755813888) (by norm_num) (by norm_num)
    (by norm_num)

theorem defaults_span : SweepSettings.defaults.span = Double.num 5989000000 := by
  have h1 : roundToDouble (6000000000 - 11000000) = 5989000000 := by
    have h : (6000000000 - 11000000 : ℚ) = 5989000000 := by norm_num
    rw [h]
    exact roundToDouble_exact _ 32 (5989000000 * 1048576) (by norm_num) (by norm_num)
      (by norm_num)
  show (6000000000 : Double) - 11000000 = _
  rw [Double.ofNat_eq_num, Double.ofNat_eq_num, Double.num_sub_num, h1]

/-- The configuration that `setCenter(oddCenter)` leaves from the factory defaults has that
centre and is in sweeping mode. -/
theorem setCenter_oddCenter :
    (SweepSettings.defaults.setCenter sampleHardware (Double.num oddCenter)).center =
      Double.num oddCenter ∧
    (SweepSettings.defaults.setCenter sampleHardware (Double.num oddCenter)).mode =
      MODE_SWEEPING := by
  obtain ⟨h1, h2, _⟩ := SweepSettings.setCenter_accepted sampleHardware SweepSettings.defaults
    oddCenter 5989000000 20 9000 6400000000 rfl rfl rfl defaults_span
    (by rw [round_forty, round_lower_guard]; norm_num [oddCenter])
    (by rw [round_forty, round_upper_guard]; norm_num [oddCenter])
  exact ⟨h1, h2⟩

theorem round_odd_lo :
    roundToDouble (oddCenter - (500 + 7 / 8388608)) = 4294966696 - 3 / 2097152 := by
  rw [roundToDouble_eq _ 31 (4294966696 * 2097152 - 3) (by norm_num [oddCenter])
    (by norm_num [oddCenter]) (by norm_num [oddCenter]) (by norm_num [oddCenter])]
  norm_num [oddCenter]

theorem round_odd_hi : roundToDouble (oddCenter + (500 + 7 / 8388608)) = 4294967696 := by
  rw [roundToDouble_eq _ 32 (4294967696 * 1048576) (by norm_num [oddCenter])
    (by norm_num [oddCenter]) (by norm_num [oddCenter]) (by norm_num [oddCenter])]
  norm_num [oddCenter]

theorem round_odd_sum :
    roundToDouble (4294966696 - 3 / 2097152 + 4294967696) = 8589934392 - 1 / 524288 := by
  rw [roundToDouble_eq _ 32 (8589934392 * 1048576 - 2) (by norm_num) (by norm_num)
    (by norm_num) (by norm_num)]
  norm_num

theorem round_odd_center :
    roundToDouble ((8589934392 - 1 / 524288) / 2) = 4294967196 - 1 / 1048576 := by
  have h : ((8589934392 - 1 / 524288) / 2 : ℚ) = 4294967196 - 1 / 1048576 := by norm_num
  rw [h]
  exact roundToDouble_exact _ 31 (4294967196 * 2097152 - 2) (by norm_num) (by norm_num)
    (by norm_num)

theorem round_odd_span :
    roundToDouble (4294967696 - (4294966696 - 3 / 2097152)) = 1000 + 3 / 2097152 := by
  have h : (4294967696 - (4294966696 - 3 / 2097152) : ℚ) = 1000 + 3 / 2097152 := by norm_num
  rw [h]
  exact roundToDouble_exact _ 9 ((1000 * 2097152 + 3) * 4194304) (by norm_num) (by norm_num)
    (by norm_num)

/-- On doubles, from a configuration in sweeping mode whose centre is `oddCenter`, one
`setSpan(fineSpan)` on the sample device leaves the edges, centre and span below. -/
theorem setSpan_fine_once (s : SweepSettings) (hc : s.center = Double.num oddCenter)
    (hm : s.mode = MODE_SWEEPING) :
    (s.setSpan sampleHardware (Double.num fineSpan)).start =
      Double.num (4294966696 - 3 / 2097152) ∧
    (s.setSpan sampleHardware (Double.num fineSpan)).stop = Double.num 4294967696 ∧
    (s.setSpan sampleHardware (Double.num fineSpan)).center =
      Double.num (4294967196 - 1 / 1048576) ∧
    (s.setSpan sampleHardware (Double.num fineSpan)).span = Double.num (1000 + 3 / 2097152) ∧
    (s.setSpan sampleHardware (Double.num fineSpan)).mode = MODE_SWEEPING := by
  obtain ⟨h1, h2, h3, h4, h5⟩ := SweepSettings.setSpan_centred sampleHardware s fineSpan
    oddCenter 20 9000 6400000000 rfl rfl rfl hc (by rw [hm]; decide) (by norm_num [fineSpan])
    (by rw [fineSpan_half, round_odd_lo]; norm_num)
    (by rw [fineSpan_half, round_odd_hi]; norm_num)
  rw [fineSpan_half, round_odd_lo] at h1
  rw [fineSpan_half, round_odd_hi] at h2
  rw [fineSpan_half, round_odd_lo, round_odd_hi, round_odd_sum, round_odd_center] at h3
  rw [fineSpan_half, round_odd_lo, round_odd_hi, round_odd_span] at h4
  exact ⟨h1, h2, h3, h4, h5.trans hm⟩

/-- On doubles, at a device whose minimum frequency is 9 kHz and 2^-39 Hz, `setCenter(2^31 Hz)`
on the factory defaults leaves start = 9 kHz, below the minimum frequency: the half span
`center - minFreq` is rounded up. -/
theorem setCenter_offGrid_start :
    (SweepSettings.defaults.setCenter offGridHardware (Double.num 2147483648)).start =
      Double.num 9000 ∧
    (SweepSettings.defaults.setCenter offGridHardware (Double.num 2147483648)).stop =
      Double.num 4294958296 := by
  have g1 : roundToDouble (9000 + 1 / 549755813888 + 40) = 9040 + 1 / 549755813888 := by
    have h : (9000 + 1 / 549755813888 + 40 : ℚ) = 9040 + 1 / 549755813888 := by norm_num
    rw [h]
    exact roundToDouble_exact _ 13 (9040 * 549755813888 + 1) (by norm_num) (by norm_num)
      (by norm_num)
  have ra : roundToDouble (2147483648 - (9000 + 1 / 549755813888)) = 2147474648 := by
    rw [roundToDouble_eq _ 30 (2147474648 * 4194304 - 1) (by norm_num) (by norm_num)
      (by norm_num) (by norm_num)]
    norm_num
  have rb : roundToDouble (2147474648 * 2) = 4294949296 := by
    have h : (2147474648 * 2 : ℚ) = 4294949296 := by norm_num
    rw [h]
    exact roundToDouble_exact _ 31 (4294949296 * 2097152) (by norm_num) (by norm_num)
      (by norm_num)
  have rc : roundToDouble (6400000000 - 2147483648) = 4252516352 := by
    have h : (6400000000 - 2147483648 : ℚ) = 4252516352 := by norm_num
    rw [h]
    exact roundToDouble_exact _ 31 (4252516352 * 2097152) (by norm_num) (by norm_num)
      (by norm_num)
  have rd : roundToDouble (4252516352 * 2) = 8505032704 := by
    have h : (4252516352 * 2 : ℚ) = 8505032704 := by norm_num
    rw [h]
    exact roundToDouble_exact _ 32 (8505032704 * 1048576) (by norm_num) (by norm_num)
      (by norm_num)
  have hmin : min (5989000000 : ℚ) (min 4294949296 8505032704) = 4294949296 := by norm_num
  have re : roundToDouble (4294949296 / 2) = 2147474648 := by
    have h : (4294949296 / 2 : ℚ) = 2147474648 := by norm_num
    rw [h]
    exact roundToDouble_exact _ 30 (2147474648 * 4194304) (by norm_num) (by norm_num)
      (by norm_num)
  have rf : roundToDouble (2147483648 - 2147474648) = 9000 := by
    have h : (2147483648 - 2147474648 : ℚ) = 9000 := by norm_num
    rw [h]
    exact roundToDouble_exact _ 13 (9000 * 549755813888) (by norm_num) (by norm_num)
      (by norm_num)
  have rg : roundToDouble (2147483648 + 2147474648) = 4294958296 := by
    have h : (2147483648 + 2147474648 : ℚ) = 4294958296 := by norm_num
    rw [h]
    exact roundToDouble_exact _ 31 (4294958296 * 2097152) (by norm_num) (by norm_num)
      (by norm_num)
  obtain ⟨_, _, _, h4, h5⟩ := SweepSettings.setCenter_accepted offGridHardware
    SweepSettings.defaults 2147483648 5989000000 20 (9000 + 1 / 549755813888) 6400000000
    rfl rfl rfl defaults_span
    (by rw [round_forty, g1]; norm_num)
    (by rw [round_forty, round_upper_guard]; norm_num)
  rw [ra, rb, rc, rd, hmin, re, rf] at h4
  rw [ra, rb, rc, rd, hmin, re, rg] at h5
  exact ⟨h4, h5⟩

namespace SweepSettings

/-- On doubles, outside real-time mode, a video bandwidth that is NaN and not automatic is left
as it is by the adjustment: the test `vbw > rbw` is false. -/
theorem AutoBandwidthAdjust_nan_vbw (hw : Hardware) (force : Bool) (s : SweepSettings)
    (hv : s.vbw = Double.nan) (ha : s.auto_vbw = false) (hm : s.mode ≠ MODE_REAL_TIME) :
    (AutoBandwidthAdjust hw force s).vbw = Double.nan := by
  have hm2 : ¬ s.mode = BB_REAL_TIME := hm
  simp only [AutoBandwidthAdjust, hm2, if_false, ha, hv]
  split_ifs <;> simp_all

/-- On doubles, outside real-time mode, `setVBW(NaN)` stores NaN: the test `vbw > rbw` is false
in `setVBW` and again in the adjustment. -/
theorem setVBW_nan (hw : Hardware) (s : SweepSettings) (hm : s.mode ≠ MODE_REAL_TIME) :
    (s.setVBW hw Double.nan).vbw = Double.nan ∧ (s.setVBW hw Double.nan).auto_vbw = false ∧
      (s.setVBW hw Double.nan).mode = s.mode := by
  have hm2 : ¬ s.mode = BB_REAL_TIME := hm
  refine ⟨?_, ?_, ?_⟩
  · simp [setVBW, AutoBandwidthAdjust, emitUpdated, hm2]
    split_ifs <;> simp_all
  · simp [setVBW, AutoBandwidthAdjust, emitUpdated, hm2]
    split_ifs <;> simp_all
  · simp [setVBW, AutoBandwidthAdjust, emitUpdated, hm2]
    split_ifs <;> simp_all

/-- On doubles, `setCenter(NaN)` passes both guards, which are comparisons with NaN, and the
edges computed from the NaN centre are NaN. -/
theorem setCenter_nan (hw : Hardware) (s : SweepSettings) :
    (s.setCenter hw Double.nan).start = Double.nan ∧
      (s.setCenter hw Double.nan).stop = Double.nan := by
  obtain ⟨_, k2, k3, _, _⟩ := AutoBandwidthAdjust_frequencies hw false
    { s with
      center := Double.nan
      span := min3 s.span ((Double.nan - hw.BB60_MIN_FREQ) * 2)
        ((hw.BB60_MAX_FREQ - Double.nan) * 2)
      start := Double.nan
      stop := Double.nan }
  have key : s.setCenter hw Double.nan = emitUpdated (AutoBandwidthAdjust hw false
      { s with
        center := Double.nan
        span := min3 s.span ((Double.nan - hw.BB60_MIN_FREQ) * 2)
          ((hw.BB60_MAX_FREQ - Double.nan) * 2)
        start := Double.nan
        stop := Double.nan }) := by
    unfold setCenter
    simp only [Double.not_nan_lt, gt_iff_lt, Double.not_lt_nan, or_self, if_false,
      Double.nan_sub, Double.nan_add]
  rw [key]
  exact ⟨k2, k3⟩

end SweepSettings

/-- The configuration that `setCenter(oddCenter)` leaves from the factory defaults on the sample
device: the span is shrunk to twice the distance to the maximum frequency, and every result is
computed exactly. -/
theorem setCenter_oddCenter_edges :
    (SweepSettings.defaults.setCenter sampleHardware (Double.num oddCenter)).start =
      Double.num (2189934392 - 1 / 1048576) ∧
    (SweepSettings.defaults.setCenter sampleHardware (Double.num oddCenter)).stop =
      Double.num 6400000000 := by
  have ra : roundToDouble (oddCenter - 9000) = 4294958196 - 1 / 2097152 := by
    have h : (oddCenter - 9000 : ℚ) = 4294958196 - 1 / 2097152 := by norm_num [oddCenter]
    rw [h]
    exact roundToDouble_exact _ 31 (4294958196 * 2097152 - 1) (by norm_num) (by norm_num)
      (by norm_num)
  have rb : roundToDouble ((4294958196 - 1 / 2097152) * 2) = 8589916392 - 1 / 1048576 := by
    have h : ((4294958196 - 1 / 2097152) * 2 : ℚ) = 8589916392 - 1 / 1048576 := by norm_num
    rw [h]
    exact roundToDouble_exact _ 32 (8589916392 * 1048576 - 1) (by norm_num) (by norm_num)
      (by norm_num)
  have rc : roundToDouble (6400000000 - oddCenter) = 2105032804 + 1 / 2097152 := by
    have h : (6400000000 - oddCenter : ℚ) = 2105032804 + 1 / 2097152 := by norm_num [oddCenter]
    rw [h]
    exact roundToDouble_exact _ 30 (2105032804 * 4194304 + 2) (by norm_num) (by norm_num)
      (by norm_num)
  have rd : roundToDouble ((2105032804 + 1 / 2097152) * 2) = 4210065608 + 1 / 1048576 := by
    have h : ((2105032804 + 1 / 2097152) * 2 : ℚ) = 4210065608 + 1 / 1048576 := by norm_num
    rw [h]
    exact roundToDouble_exact _ 31 (4210065608 * 2097152 + 2) (by norm_num) (by norm_num)
      (by norm_num)
  have hmin : min (5989000000 : ℚ) (min (8589916392 - 1 / 1048576) (4210065608 + 1 / 1048576)) =
      4210065608 + 1 / 1048576 := by
    rw [min_eq_right (by norm_num), min_eq_right (by norm_num)]
  have re : roundToDouble ((4210065608 + 1 / 1048576) / 2) = 2105032804 + 1 / 2097152 := by
    have h : ((4210065608 + 1 / 1048576) / 2 : ℚ) = 2105032804 + 1 / 2097152 := by norm_num
    rw [h]
    exact roundToDouble_exact _ 30 (2105032804 * 4194304 + 2) (by norm_num) (by norm_num)
      (by norm_num)
  have rf : roundToDouble (oddCenter - (2105032804 + 1 / 2097152)) =
      2189934392 - 1 / 1048576 := by
    have h : (oddCenter - (2105032804 + 1 / 2097152) : ℚ) = 2189934392 - 1 / 1048576 := by
      norm_num [oddCenter]
    rw [h]
    exact roundToDouble_exact _ 31 (2189934392 * 2097152 - 2) (by norm_num) (by norm_num)
      (by norm_num)
  have rg : roundToDouble (oddCenter + (2105032804 + 1 / 2097152)) = 6400000000 := by
    have h : (oddCenter + (2105032804 + 1 / 2097152) : ℚ) = 6400000000 := by
      norm_num [oddCenter]
    rw [h]
    exact roundToDouble_exact _ 32 (6400000000 * 1048576) (by norm_num) (by norm_num)
      (by norm_num)
  obtain ⟨_, _, _, h4, h5⟩ := SweepSettings.setCenter_accepted sampleHardware
    SweepSettings.defaults oddCenter 5989000000 20 9000 6400000000 rfl rfl rfl defaults_span
    (by rw [round_forty, round_lower_guard]; norm_num [oddCenter])
    (by rw [round_forty, round_upper_guard]; norm_num [oddCenter])
  rw [ra, rb, rc, rd, hmin, re, rf] at h4
  rw [ra, rb, rc, rd, hmin, re, rg] at h5
  exact ⟨h4, h5⟩

/-- On doubles, at a device whose best-bandwidth function returns NaN, `setVBW(100 kHz)` on the
factory defaults leaves rbw = NaN and vbw = 100 kHz. -/
theorem setVBW_nanBandwidth :
    (SweepSettings.defaults.setVBW nanBandwidthHardware (Double.num 100000)).vbw =
      Double.num 100000 ∧
    (SweepSettings.defaults.setVBW nanBandwidthHardware (Double.num 100000)).rbw =
      Double.nan := by
  have h : ¬ ((300000 : Double) < Double.num 100000) := by
    rw [Double.ofNat_eq_num, Double.num_lt_num]
    norm_num
  constructor
  · simp [SweepSettings.setVBW, SweepSettings.AutoBandwidthAdjust, SweepSettings.emitUpdated,
      SweepSettings.defaults, nanBandwidthHardware, h]
  · simp [SweepSettings.setVBW, SweepSettings.AutoBandwidthAdjust, SweepSettings.emitUpdated,
      SweepSettings.defaults, nanBandwidthHardware, h]

theorem fineSpan_representable : roundToDouble fineSpan = fineSpan := by
  unfold fineSpan
  exact roundToDouble_exact _ 9 ((1000 * 4194304 + 7) * 2097152) (by norm_num) (by norm_num)
    (by norm_num)

theorem oddCenter_representable : roundToDouble oddCenter = oddCenter := by
  unfold oddCenter
  exact roundToDouble_exact _ 31 (4294967196 * 2097152 - 1) (by norm_num) (by norm_num)
    (by norm_num)

theorem offGrid_representable :
    roundToDouble (9000 + 1 / 549755813888) = 9000 + 1 / 549755813888 ∧
      roundToDouble 2147483648 = 2147483648 :=
  ⟨roundToDouble_exact _ 13 (9000 * 549755813888 + 1) (by norm_num) (by norm_num)
      (by norm_num),
    roundToDouble_exact _ 31 (2147483648 * 2097152) (by norm_num) (by norm_num)
      (by norm_num)⟩

end IEEE

namespace IEEE

namespace Double

theorem IsNumber.le_self {a : Double} (h : a.IsNumber) : a ≤ a := by
  cases a with
  | nan => exact h.elim
  | num q => exact (num_le_num q q).mpr le_rfl

theorem le_of_not_gt_of_numbers {a b : Double} (ha : a.IsNumber) (hb : b.IsNumber)
    (h : ¬ a > b) : a ≤ b := by
  cases a with
  | nan => exact ha.elim
  | num x =>
    cases b with
    | nan => exact hb.elim
    | num y =>
      rw [gt_iff_lt, num_lt_num] at h
      exact (num_le_num x y).mpr (not_lt.mp h)

theorem isNumber_of_gt {a b : Double} (h : a > b) : b.IsNumber := by
  cases b with
  | nan => exact absurd h (not_nan_lt a)
  | num y => trivial

end Double

theorem clamp_isNumber {v lo hi : Double} (hv : v.IsNumber) (hlo : lo.IsNumber)
    (hhi : hi.IsNumber) : (clamp v lo hi).IsNumber := by
  unfold clamp
  dsimp only
  split_ifs <;> assumption

namespace SweepSettings

/-- The bandwidths that `AutoBandwidthAdjust(force)` leaves, on doubles. -/
theorem AutoBandwidthAdjust_bandwidths (hw : Hardware) (force : Bool) (s : SweepSettings) :
    (AutoBandwidthAdjust hw force s).rbw =
        (if s.mode = BB_REAL_TIME then
          clamp (s.generalStepRbw hw force) hw.BB_MIN_RT_RBW hw.BB_MAX_RT_RBW
        else s.generalStepRbw hw force) ∧
      (AutoBandwidthAdjust hw force s).vbw =
        (if s.mode = BB_REAL_TIME then
          clamp (s.generalStepRbw hw force) hw.BB_MIN_RT_RBW hw.BB_MAX_RT_RBW
        else if s.auto_vbw = true ∨ s.vbw > s.generalStepRbw hw force then
          s.generalStepRbw hw force
        else s.vbw) ∧
      (AutoBandwidthAdjust hw force s).auto_vbw = s.auto_vbw := by
  by_cases hm : s.mode = BB_REAL_TIME
  · by_cases hf : (s.auto_rbw || force) = true
    · simp only [AutoBandwidthAdjust, generalStepRbw, hm, hf, if_true]
      simp
    · simp only [AutoBandwidthAdjust, generalStepRbw, hm, hf, if_true, if_false]
      simp
  · by_cases hf : (s.auto_rbw || force) = true
    · simp only [AutoBandwidthAdjust, generalStepRbw, hm, hf, if_true, if_false]
      by_cases hv : s.auto_vbw = true
      · simp [hv, hm]
      · by_cases hg : s.vbw > hw.get_best_rbw s.span s.native_rbw
        · simp [hv, hg, hm]
        · simp [hv, hg, hm]
    · simp only [AutoBandwidthAdjust, generalStepRbw, hm, hf, if_true, if_false]
      by_cases hv : s.auto_vbw = true
      · simp [hv, hm]
      · by_cases hg : s.vbw > hw.adjust_rbw_on_span s.rbw s.span s.native_rbw
        · simp [hv, hg, hm]
        · simp [hv, hg, hm]

theorem generalStepRbw_isNumber (hw : Hardware) (hn : hw.ReturnsNumbers) (force : Bool)
    (s : SweepSettings) (hsp : s.span.IsNumber) (hr : s.rbw.IsNumber) :
    (s.generalStepRbw hw force).IsNumber := by
  unfold generalStepRbw
  split_ifs <;> first | exact hn.1 _ _ hsp | exact hn.2.1 _ _ _ hr hsp

/-- On doubles, when the device returns numbers and the span and the two bandwidths of the
configuration are numbers, `AutoBandwidthAdjust(force)` ends with `vbw ≤ rbw`, for either value
of `force`. -/
theorem AutoBandwidthAdjust_numbers (hw : Hardware) (hn : hw.ReturnsNumbers) (force : Bool)
    (s : SweepSettings) (hsp : s.span.IsNumber) (hr : s.rbw.IsNumber) (hv : s.vbw.IsNumber) :
    (AutoBandwidthAdjust hw force s).vbw ≤ (AutoBandwidthAdjust hw force s).rbw := by
  obtain ⟨h1, h2, _⟩ := AutoBandwidthAdjust_bandwidths hw force s
  have hg := generalStepRbw_isNumber hw hn force s hsp hr
  rw [h1, h2]
  by_cases hm : s.mode = BB_REAL_TIME
  · rw [if_pos hm, if_pos hm]
    exact (clamp_isNumber hg hn.2.2.1 hn.2.2.2).le_self
  · rw [if_neg hm, if_neg hm]
    by_cases hc : s.auto_vbw = true ∨ s.vbw > s.generalStepRbw hw force
    · rw [if_pos hc]
      exact hg.le_self
    · rw [if_neg hc]
      exact Double.le_of_not_gt_of_numbers hv hg (fun h => hc (Or.inr h))

/-- On doubles, when the device returns numbers and the span and the resolution bandwidth of
the configuration are numbers, `setVBW` of a number clears `auto_vbw` and ends with
`vbw ≤ rbw`. -/
theorem setVBW_numbers (hw : Hardware) (hn : hw.ReturnsNumbers) (x : ℚ) (s : SweepSettings)
    (hsp : s.span.IsNumber) (hr : s.rbw.IsNumber) :
    (s.setVBW hw (Double.num x)).auto_vbw = false ∧
      (s.setVBW hw (Double.num x)).vbw ≤ (s.setVBW hw (Double.num x)).rbw := by
  unfold setVBW
  dsimp only
  by_cases h : Double.num x > s.rbw
  · simp only [h, if_true]
    exact ⟨(AutoBandwidthAdjust_bandwidths hw false _).2.2,
      AutoBandwidthAdjust_numbers hw hn false _ hsp hr hr⟩
  · simp only [h, if_false]
    exact ⟨(AutoBandwidthAdjust_bandwidths hw false _).2.2,
      AutoBandwidthAdjust_numbers hw hn false _ hsp hr trivial⟩

/-- The resolution bandwidth that `setVBW(f)` leaves, on doubles. -/
theorem setVBW_rbw (hw : Hardware) (f : Double) (s : SweepSettings) :
    (s.setVBW hw f).rbw =
      if s.mode = BB_REAL_TIME then
        clamp (s.generalStepRbw hw false) hw.BB_MIN_RT_RBW hw.BB_MAX_RT_RBW
      else s.generalStepRbw hw false := by
  unfold setVBW
  dsimp only
  split_ifs with h1 h2 h2
  · exact (AutoBandwidthAdjust_bandwidths hw false _).1.trans (if_pos h2)
  · exact (AutoBandwidthAdjust_bandwidths hw false _).1.trans (if_neg h2)
  · exact (AutoBandwidthAdjust_bandwidths hw false _).1.trans (if_pos h2)
  · exact (AutoBandwidthAdjust_bandwidths hw false _).1.trans (if_neg h2)

/-- On doubles, outside real-time mode, when the adjustment leaves a numeric `rbw` unchanged,
`setVBW` of a number ends with `vbw = min(f, rbw)`. -/
theorem setVBW_min (hw : Hardware) (x r : ℚ) (s : SweepSettings) (hr : s.rbw = Double.num r)
    (hm : s.mode ≠ MODE_REAL_TIME) (hk : (s.setVBW hw (Double.num x)).rbw = s.rbw) :
    (s.setVBW hw (Double.num x)).vbw = Double.num (min x r) := by
  have hm2 : ¬ s.mode = BB_REAL_TIME := hm
  have hs : s.setVBW hw (Double.num x) = emitUpdated (AutoBandwidthAdjust hw false
      { s with vbw := Double.num (min x r), auto_vbw := false }) := by
    unfold setVBW
    dsimp only
    rw [hr]
    rcases lt_or_le r x with h | h
    · rw [if_pos ((Double.num_lt_num r x).mpr h), min_eq_right (le_of_lt h)]
    · rw [if_neg (fun hc => absurd ((Double.num_lt_num r x).mp hc) (not_lt.mpr h)),
        min_eq_left h]
  obtain ⟨h1, h2, _⟩ := AutoBandwidthAdjust_bandwidths hw false
    { s with vbw := Double.num (min x r), auto_vbw := false }
  have e1 : (s.setVBW hw (Double.num x)).rbw = (AutoBandwidthAdjust hw false
      { s with vbw := Double.num (min x r), auto_vbw := false }).rbw := by
    rw [hs]
    rfl
  have e2 : (s.setVBW hw (Double.num x)).vbw = (AutoBandwidthAdjust hw false
      { s with vbw := Double.num (min x r), auto_vbw := false }).vbw := by
    rw [hs]
    rfl
  rw [e1, h1, if_neg hm2] at hk
  rw [e2, h2, if_neg hm2, hk]
  have hn : ¬ (false = true ∨ Double.num (min x r) > s.rbw) := by
    rintro (h | h)
    · exact Bool.noConfusion h
    · rw [hr] at h
      exact absurd ((Double.num_lt_num _ _).mp h) (not_lt.mpr (min_le_right x r))
  exact if_neg hn

/-- On doubles, `setAutoVbw` keeps `vbw ≤ rbw`. -/
theorem setAutoVbw_numbers (new_auto : Bool) (s : SweepSettings) (h : s.vbw ≤ s.rbw) :
    (s.setAutoVbw new_auto).vbw ≤ (s.setAutoVbw new_auto).rbw := by
  have hr : s.rbw ≤ s.rbw := by
    cases hq : s.rbw with
    | nan =>
      rw [hq] at h
      exact absurd h (Double.not_le_nan _)
    | num q => exact (Double.num_le_num q q).mpr le_rfl
  unfold setAutoVbw emitUpdated
  dsimp only
  cases new_auto
  · exact h
  · exact hr

end SweepSettings

end IEEE

theorem ieee_sampleHardware_returnsNumbers : IEEE.sampleHardware.ReturnsNumbers :=
  ⟨fun _ _ _ => trivial, fun _ _ _ hr _ => hr, trivial, trivial⟩

theorem ieee_heldBandwidth_setVBW_rbw :
    (IEEE.heldBandwidth.setVBW IEEE.sampleHardware (IEEE.Double.num 500000)).rbw =
      IEEE.heldBandwidth.rbw := by
  rw [IEEE.SweepSettings.setVBW_rbw]
  rfl

theorem ieee_defaults_numbers :
    IEEE.SweepSettings.defaults.span.IsNumber ∧ IEEE.SweepSettings.defaults.rbw.IsNumber ∧
      IEEE.SweepSettings.defaults.vbw.IsNumber ∧
      IEEE.SweepSettings.defaults.vbw ≤ IEEE.SweepSettings.defaults.rbw := by
  refine ⟨?_, trivial, trivial, ?_⟩
  · rw [IEEE.defaults_span]
    trivial
  · show (300000 : IEEE.Double) ≤ 300000
    exact IEEE.Double.IsNumber.le_self trivial

/-- C1: over exact arithmetic, every configuration reached from the factory defaults by a finite
sequence of public mutator calls has `start < stop`, `span = stop - start` and
`center = (start + stop) / 2`, for arbitrary hardware-capability functions and any positive
`maxRealTimeSpan`; the device constants of the absent header are a positive span floor and a
minimum frequency below the maximum frequency. -/
theorem C1_frequency_quadruple_invariant (hw : Hardware)
    (hrt : 0 < hw.maxRealTimeSpan) (hspan : 0 < hw.BB_MIN_SPAN)
    (hrange : hw.BB60_MIN_FREQ < hw.BB60_MAX_FREQ) (ops : List Op) :
    (run hw ops).start < (run hw ops).stop ∧
      (run hw ops).span = (run hw ops).stop - (run hw ops).start ∧
      (run hw ops).center = ((run hw ops).start + (run hw ops).stop) / 2 := by
  refine run_induction hw SweepSettings.FreqInv ?_ ?_ ops
  · simp only [SweepSettings.FreqInv, SweepSettings.defaults, SweepSettings.LoadDefaults]
    norm_num
  · intro s op h
    cases op with
    | setMode m => exact SweepSettings.setMode_FreqInv hw hrt m s h
    | setStart f => exact SweepSettings.setStart_FreqInv hw hspan f s h
    | setStop f => exact SweepSettings.setStop_FreqInv hw hspan f s h
    | setCenter f => exact SweepSettings.setCenter_FreqInv hw hspan f s h
    | increaseCenter inc =>
      simp only [Op.apply, SweepSettings.increaseCenter]
      split_ifs <;> exact SweepSettings.setCenter_FreqInv hw hspan _ s h
    | setSpan f => exact SweepSettings.setSpan_FreqInv hw hrt hspan hrange f s
    | increaseSpan inc => exact SweepSettings.setSpan_FreqInv hw hrt hspan hrange _ s
    | setFullSpan =>
      simp only [Op.apply, SweepSettings.setFullSpan, SweepSettings.FreqInv_adjust]
      simp only [SweepSettings.FreqInv]
      norm_num
    | _ => exact SweepSettings.FreqInv_of_SameFreq (Op.apply_SameFreq hw s _ rfl) h

/-- C1 at the sample device: real-time mode, a centre call, a span call and an edge call. -/
theorem C1_frequency_quadruple_invariant_witness :
    (run sampleHardware sampleCalls).start < (run sampleHardware sampleCalls).stop ∧
      (run sampleHardware sampleCalls).span =
        (run sampleHardware sampleCalls).stop - (run sampleHardware sampleCalls).start ∧
      (run sampleHardware sampleCalls).center =
        ((run sampleHardware sampleCalls).start + (run sampleHardware sampleCalls).stop) / 2 :=
  C1_frequency_quadruple_invariant sampleHardware (by norm_num [sampleHardware])
    (by norm_num [sampleHardware]) (by norm_num [sampleHardware]) sampleCalls

/-- C2 as stated fails on doubles, in two ways. From the factory defaults the single call
`setVBW(NaN)` leaves vbw = NaN, on the sample device and on every device, because the tests
`vbw > rbw` of `setVBW` and of `AutoBandwidthAdjust` are both false when vbw is NaN; `vbw ≤ rbw`
then does not hold, and `AutoBandwidthAdjust`, with either value of `force`, does not establish it
from that configuration. And at a device whose best-bandwidth function returns NaN,
`setVBW(100 kHz)` on the factory defaults leaves rbw = NaN and vbw = 100 kHz. -/
theorem C2_nan_video_bandwidth_is_kept :
    ((IEEE.SweepSettings.defaults.setVBW IEEE.sampleHardware IEEE.Double.nan).vbw =
        IEEE.Double.nan ∧
      ¬ ((IEEE.SweepSettings.defaults.setVBW IEEE.sampleHardware IEEE.Double.nan).vbw ≤
        (IEEE.SweepSettings.defaults.setVBW IEEE.sampleHardware IEEE.Double.nan).rbw)) ∧
    (∀ hw : IEEE.Hardware,
      (IEEE.SweepSettings.defaults.setVBW hw IEEE.Double.nan).vbw = IEEE.Double.nan ∧
      ¬ ((IEEE.SweepSettings.defaults.setVBW hw IEEE.Double.nan).vbw ≤
        (IEEE.SweepSettings.defaults.setVBW hw IEEE.Double.nan).rbw) ∧
      ∀ force : Bool,
        ¬ ((IEEE.SweepSettings.AutoBandwidthAdjust hw force
            (IEEE.SweepSettings.defaults.setVBW hw IEEE.Double.nan)).vbw ≤
          (IEEE.SweepSettings.AutoBandwidthAdjust hw force
            (IEEE.SweepSettings.defaults.setVBW hw IEEE.Double.nan)).rbw)) ∧
    ((IEEE.SweepSettings.defaults.setVBW IEEE.nanBandwidthHardware
        (IEEE.Double.num 100000)).vbw = IEEE.Double.num 100000 ∧
      (IEEE.SweepSettings.defaults.setVBW IEEE.nanBandwidthHardware
        (IEEE.Double.num 100000)).rbw = IEEE.Double.nan ∧
      ¬ ((IEEE.SweepSettings.defaults.setVBW IEEE.nanBandwidthHardware
          (IEEE.Double.num 100000)).vbw ≤
        (IEEE.SweepSettings.defaults.setVBW IEEE.nanBandwidthHardware
          (IEEE.Double.num 100000)).rbw)) := by
  have hm : IEEE.SweepSettings.defaults.mode ≠ MODE_REAL_TIME := by
    simp [IEEE.SweepSettings.defaults]
  have key : ∀ hw : IEEE.Hardware,
      (IEEE.SweepSettings.defaults.setVBW hw IEEE.Double.nan).vbw = IEEE.Double.nan ∧
      ¬ ((IEEE.SweepSettings.defaults.setVBW hw IEEE.Double.nan).vbw ≤
        (IEEE.SweepSettings.defaults.setVBW hw IEEE.Double.nan).rbw) ∧
      ∀ force : Bool,
        ¬ ((IEEE.SweepSettings.AutoBandwidthAdjust hw force
            (IEEE.SweepSettings.defaults.setVBW hw IEEE.Double.nan)).vbw ≤
          (IEEE.SweepSettings.AutoBandwidthAdjust hw force
            (IEEE.SweepSettings.defaults.setVBW hw IEEE.Double.nan)).rbw) := by
    intro hw
    obtain ⟨h1, h2, h3⟩ := IEEE.SweepSettings.setVBW_nan hw IEEE.SweepSettings.defaults hm
    refine ⟨h1, ?_, fun force => ?_⟩
    · rw [h1]
      exact IEEE.Double.not_nan_le _
    · rw [IEEE.SweepSettings.AutoBandwidthAdjust_nan_vbw hw force _ h1 h2
        (by rw [h3]; exact hm)]
      exact IEEE.Double.not_nan_le _
  obtain ⟨n1, n2⟩ := IEEE.setVBW_nanBandwidth
  refine ⟨⟨(key IEEE.sampleHardware).1, (key IEEE.sampleHardware).2.1⟩, key, n1, n2, ?_⟩
  rw [n2]
  exact IEEE.Double.not_le_nan _

/-- C2, amended: when every argument and every value returned by the hardware functions is a
number, not NaN, every configuration reached from the factory defaults by a finite sequence of
public mutator calls has `vbw ≤ rbw`, whatever numbers the hardware-capability functions return;
in particular `AutoBandwidthAdjust(force)` establishes `vbw ≤ rbw` from any state whose fields
are numbers, for either value of `force`, and `setAutoVbw`, which skips the adjustment, preserves
it. The first part is the statement on the rational model, whose values are the numbers. The
second and third part are the two mechanisms on doubles: for a device that returns numbers for
numbers, `AutoBandwidthAdjust(force)` on a state whose span and bandwidths are numbers ends with
`vbw ≤ rbw`, and `setAutoVbw` keeps `vbw ≤ rbw`. -/
theorem C2_vbw_le_rbw_invariant :
    (∀ hw : Hardware,
      (∀ ops : List Op, (run hw ops).vbw ≤ (run hw ops).rbw) ∧
      (∀ (force : Bool) (s : SweepSettings),
        (s.AutoBandwidthAdjust hw force).vbw ≤ (s.AutoBandwidthAdjust hw force).rbw) ∧
      (∀ (new_auto : Bool) (s : SweepSettings), s.vbw ≤ s.rbw →
        (s.setAutoVbw new_auto).vbw ≤ (s.setAutoVbw new_auto).rbw)) ∧
    (∀ (hw : IEEE.Hardware) (force : Bool) (s : IEEE.SweepSettings),
      hw.ReturnsNumbers → s.span.IsNumber → s.rbw.IsNumber → s.vbw.IsNumber →
        (s.AutoBandwidthAdjust hw force).vbw ≤ (s.AutoBandwidthAdjust hw force).rbw) ∧
    (∀ (new_auto : Bool) (s : IEEE.SweepSettings), s.vbw ≤ s.rbw →
      (s.setAutoVbw new_auto).vbw ≤ (s.setAutoVbw new_auto).rbw) := by
  refine ⟨fun hw => ⟨fun ops => ?_,
      fun force s => SweepSettings.AutoBandwidthAdjust_vbw_le hw force s,
      fun b s h => SweepSettings.setAutoVbw_vbw_le b s h⟩,
    fun hw force s hn hsp hr hv =>
      IEEE.SweepSettings.AutoBandwidthAdjust_numbers hw hn force s hsp hr hv,
    fun b s h => IEEE.SweepSettings.setAutoVbw_numbers b s h⟩
  refine run_induction hw (fun s => s.vbw ≤ s.rbw) ?_ ?_ ops
  · simp [SweepSettings.defaults, SweepSettings.LoadDefaults]
  · intro s op h
    exact Op.apply_vbw_le hw s op h

/-- C2 at the sample devices: the three parts on rationals, the last one applied to the factory
defaults, and the two mechanisms on doubles at the factory defaults. -/
theorem C2_vbw_le_rbw_invariant_witness :
    ((run sampleHardware sampleCalls).vbw ≤ (run sampleHardware sampleCalls).rbw ∧
      ((SweepSettings.defaults sampleHardware).AutoBandwidthAdjust sampleHardware true).vbw ≤
        ((SweepSettings.defaults sampleHardware).AutoBandwidthAdjust sampleHardware true).rbw ∧
      ((SweepSettings.defaults sampleHardware).setAutoVbw false).vbw ≤
        ((SweepSettings.defaults sampleHardware).setAutoVbw false).rbw) ∧
    (IEEE.sampleHardware.ReturnsNumbers ∧
      (IEEE.SweepSettings.defaults.AutoBandwidthAdjust IEEE.sampleHardware true).vbw ≤
        (IEEE.SweepSettings.defaults.AutoBandwidthAdjust IEEE.sampleHardware true).rbw ∧
      (IEEE.SweepSettings.defaults.setAutoVbw false).vbw ≤
        (IEEE.SweepSettings.defaults.setAutoVbw false).rbw) :=
  ⟨⟨(C2_vbw_le_rbw_invariant.1 sampleHardware).1 sampleCalls,
      (C2_vbw_le_rbw_invariant.1 sampleHardware).2.1 true (SweepSettings.defaults sampleHardware),
      (C2_vbw_le_rbw_invariant.1 sampleHardware).2.2 false (SweepSettings.defaults sampleHardware)
        (by simp [SweepSettings.defaults, SweepSettings.LoadDefaults])⟩,
    ieee_sampleHardware_returnsNumbers,
    C2_vbw_le_rbw_invariant.2.1 IEEE.sampleHardware true IEEE.SweepSettings.defaults
      ieee_sampleHardware_returnsNumbers ieee_defaults_numbers.1 ieee_defaults_numbers.2.1
      ieee_defaults_numbers.2.2.1,
    C2_vbw_le_rbw_invariant.2.2 false IEEE.SweepSettings.defaults ieee_defaults_numbers.2.2.2⟩

/-- C3 as stated fails on doubles. On every device `setCenter(NaN)` on the factory defaults
passes both guards, which are comparisons with NaN, and leaves start = stop = NaN, so neither
`minFreq ≤ start` nor `stop ≤ maxFreq` holds. And with every argument a number: at the device
`offGridHardware`, whose constants satisfy the three assumptions of the claim and whose minimum
frequency 9000 + 2^-39 Hz is a double, `setCenter(2^31 Hz)` on the factory defaults rounds the
half span `center - minFreq` up to 2147474648 Hz and leaves start = 9000 Hz, below the minimum
frequency. -/
theorem C3_edge_leaves_device_range :
    (∀ hw : IEEE.Hardware,
      (IEEE.SweepSettings.defaults.setCenter hw IEEE.Double.nan).start = IEEE.Double.nan ∧
      (IEEE.SweepSettings.defaults.setCenter hw IEEE.Double.nan).stop = IEEE.Double.nan ∧
      ¬ (hw.BB60_MIN_FREQ ≤ (IEEE.SweepSettings.defaults.setCenter hw IEEE.Double.nan).start) ∧
      ¬ ((IEEE.SweepSettings.defaults.setCenter hw IEEE.Double.nan).stop ≤ hw.BB60_MAX_FREQ)) ∧
    (IEEE.offGridHardware.BB60_MIN_FREQ = IEEE.Double.num (9000 + 1 / 549755813888) ∧
      IEEE.roundToDouble (9000 + 1 / 549755813888) = 9000 + 1 / 549755813888 ∧
      IEEE.offGridHardware.BB60_MIN_FREQ ≤ 10000000 ∧
      6000000000 ≤ IEEE.offGridHardware.BB60_MAX_FREQ ∧
      0 < IEEE.offGridHardware.BB_MIN_SPAN ∧
      IEEE.roundToDouble 2147483648 = 2147483648 ∧
      (IEEE.SweepSettings.defaults.setCenter IEEE.offGridHardware
        (IEEE.Double.num 2147483648)).start = IEEE.Double.num 9000 ∧
      ¬ (IEEE.offGridHardware.BB60_MIN_FREQ ≤
        (IEEE.SweepSettings.defaults.setCenter IEEE.offGridHardware
          (IEEE.Double.num 2147483648)).start)) := by
  refine ⟨fun hw => ?_, rfl, IEEE.offGrid_representable.1, ?_, ?_, ?_,
    IEEE.offGrid_representable.2, IEEE.setCenter_offGrid_start.1, ?_⟩
  · obtain ⟨h1, h2⟩ := IEEE.SweepSettings.setCenter_nan hw IEEE.SweepSettings.defaults
    rw [h1, h2]
    exact ⟨rfl, rfl, IEEE.Double.not_le_nan _, IEEE.Double.not_nan_le _⟩
  · show IEEE.Double.num (9000 + 1 / 549755813888) ≤ IEEE.Double.num ((10000000 : ℕ) : ℚ)
    rw [IEEE.Double.num_le_num]
    norm_num
  · show IEEE.Double.num ((6000000000 : ℕ) : ℚ) ≤ IEEE.Double.num ((6400000000 : ℕ) : ℚ)
    rw [IEEE.Double.num_le_num]
    norm_num
  · show IEEE.Double.num ((0 : ℕ) : ℚ) < IEEE.Double.num ((20 : ℕ) : ℚ)
    rw [IEEE.Double.num_lt_num]
    norm_num
  · rw [IEEE.setCenter_offGrid_start.1]
    show ¬ (IEEE.Double.num (9000 + 1 / 549755813888) ≤ IEEE.Double.num 9000)
    rw [IEEE.Double.num_le_num]
    norm_num

/-- C3, amended: over exact arithmetic (every argument and constant a number, no NaN and no
rounding), when the device constants satisfy `minFreq ≤ 10 MHz`, `maxFreq ≥ 6 GHz` and
`minSpan > 0`, every configuration reached from the factory defaults by a finite sequence of
public mutator calls has both edges inside the device range: `minFreq ≤ start` and
`stop ≤ maxFreq`. -/
theorem C3_edges_inside_device_range (hw : Hardware)
    (hmin : hw.BB60_MIN_FREQ ≤ 10000000) (hmax : 6000000000 ≤ hw.BB60_MAX_FREQ)
    (_hspan : 0 < hw.BB_MIN_SPAN) (ops : List Op) :
    hw.BB60_MIN_FREQ ≤ (run hw ops).start ∧ (run hw ops).stop ≤ hw.BB60_MAX_FREQ := by
  have key : SweepSettings.RangeInv hw (run hw ops) := by
    refine run_induction hw (SweepSettings.RangeInv hw) ?_ ?_ ops
    · unfold SweepSettings.RangeInv SweepSettings.defaults SweepSettings.LoadDefaults
      dsimp only
      refine ⟨rfl, rfl, ?_, ?_⟩ <;> linarith
    · intro s op h
      cases op with
      | setMode m => exact SweepSettings.setMode_RangeInv hw m s h
      | setStart f => exact SweepSettings.setStart_RangeInv hw f s h
      | setStop f => exact SweepSettings.setStop_RangeInv hw f s h
      | setCenter f => exact SweepSettings.setCenter_RangeInv hw f s h
      | increaseCenter inc =>
        simp only [Op.apply, SweepSettings.increaseCenter]
        split_ifs <;> exact SweepSettings.setCenter_RangeInv hw _ s h
      | setSpan f => exact SweepSettings.setSpan_RangeInv hw f s
      | increaseSpan inc => exact SweepSettings.setSpan_RangeInv hw _ s
      | setFullSpan =>
        simp only [Op.apply, SweepSettings.setFullSpan, SweepSettings.RangeInv_adjust]
        simp only [SweepSettings.RangeInv]
        refine ⟨by norm_num, by norm_num, ?_, ?_⟩ <;> linarith
      | _ => exact SweepSettings.RangeInv_of_SameFreq (Op.apply_SameFreq hw s _ rfl) h
  exact ⟨key.2.2.1, key.2.2.2⟩

/-- C3 at the sample device and the sample calls. -/
theorem C3_edges_inside_device_range_witness :
    sampleHardware.BB60_MIN_FREQ ≤ (run sampleHardware sampleCalls).start ∧
      (run sampleHardware sampleCalls).stop ≤ sampleHardware.BB60_MAX_FREQ :=
  C3_edges_inside_device_range sampleHardware (by norm_num [sampleHardware])
    (by norm_num [sampleHardware]) (by norm_num [sampleHardware]) sampleCalls

/-- C4: the equality operator at two configurations that differ in `native_rbw` only (the
factory defaults, and the factory defaults after loading a preset that sets the native flag):
`==` returns true and `!=` returns false although the `native_rbw` fields differ, so not every
field takes part in the comparison; the same holds for every configuration and its copy with the
native flag flipped. -/
theorem C4_equality_skips_native_rbw :
    ((SweepSettings.defaults sampleHardware).eq nativePreset = true ∧
      (SweepSettings.defaults sampleHardware).ne nativePreset = false ∧
      (SweepSettings.defaults sampleHardware).native_rbw = false ∧
      nativePreset.native_rbw = true ∧
      ¬ (SweepSettings.defaults sampleHardware).fieldsMatch nativePreset) ∧
    (∀ a : SweepSettings,
      a.eq { a with native_rbw := !a.native_rbw } = true ∧
        ¬ a.fieldsMatch { a with native_rbw := !a.native_rbw }) := by
  refine ⟨?_, fun a => ⟨?_, ?_⟩⟩
  · simp [SweepSettings.eq, SweepSettings.ne, SweepSettings.fieldsMatch, nativePreset,
      nativePresetStore, SweepSettings.Load, SweepSettings.defaults, SweepSettings.LoadDefaults,
      SweepSettings.emitUpdated, QSettings.setValue, QSettings.valueInt, QSettings.valueDouble,
      QSettings.valueBool, QSettings.empty, sampleHardware]
  · simp [SweepSettings.eq]
  · simp [SweepSettings.fieldsMatch]

/-- C5 as stated fails: at the sample device, a configuration whose reference level is 5 mV
comes back from Save then Load with the reference level 5 dBm; and for no device at all does the
round trip restore every field of every configuration, because `Save` stores the bare number of
the reference level and two configurations that differ in its unit only leave the same store. -/
theorem C5_round_trip_loses_unit :
    ((roundTrip sampleHardware (withRefLevel sampleHardware ⟨5, AmpUnits.MV⟩)
        QSettings.empty).refLevel = ⟨5, AmpUnits.DBM⟩ ∧
      ¬ (roundTrip sampleHardware (withRefLevel sampleHardware ⟨5, AmpUnits.MV⟩)
        QSettings.empty).fieldsMatch (withRefLevel sampleHardware ⟨5, AmpUnits.MV⟩)) ∧
    ¬ ∃ hw : Hardware, ∀ (C : SweepSettings) (st : QSettings),
      (roundTrip hw C st).fieldsMatch C := by
  have hr : (roundTrip sampleHardware (withRefLevel sampleHardware ⟨5, AmpUnits.MV⟩)
      QSettings.empty).refLevel = ⟨5, AmpUnits.DBM⟩ := by
    rw [(roundTrip_fields sampleHardware _ _).2.2.2.2.2.2.2.2.2.2.2.1]
    rfl
  refine ⟨⟨hr, ?_⟩, ?_⟩
  · intro h
    have h1 := h.2.2.2.2.2.2.2.2.2.2.2.1
    rw [hr] at h1
    simp [withRefLevel] at h1
  · rintro ⟨hw, h⟩
    have h1 := (h (withRefLevel hw ⟨5, AmpUnits.MV⟩) QSettings.empty).2.2.2.2.2.2.2.2.2.2.2.1
    have h2 := (h (withRefLevel hw ⟨5, AmpUnits.DBM⟩) QSettings.empty).2.2.2.2.2.2.2.2.2.2.2.1
    rw [(roundTrip_fields hw _ _).2.2.2.2.2.2.2.2.2.2.2.1] at h1 h2
    have h3 : (withRefLevel hw ⟨5, AmpUnits.MV⟩).refLevel =
        (withRefLevel hw ⟨5, AmpUnits.DBM⟩).refLevel := h1.symm.trans h2
    simp [withRefLevel] at h3

/-- C5, amended: for every configuration `C` and every store, Save followed by Load into a
freshly default-constructed configuration restores every field other than the reference level
exactly; the reference level becomes what assigning the bare number of `C`'s reference level to
the default reference level gives, the unit not being stored; `Save` writes exactly the 19 listed
keys, and `Load` depends on the store through those 19 keys only. -/
theorem C5_round_trip_persistence (hw : Hardware) (C : SweepSettings) (st : QSettings) :
    ((roundTrip hw C st).mode = C.mode ∧ (roundTrip hw C st).start = C.start ∧
      (roundTrip hw C st).stop = C.stop ∧ (roundTrip hw C st).center = C.center ∧
      (roundTrip hw C st).span = C.span ∧ (roundTrip hw C st).step = C.step ∧
      (roundTrip hw C st).rbw = C.rbw ∧ (roundTrip hw C st).vbw = C.vbw ∧
      (roundTrip hw C st).auto_rbw = C.auto_rbw ∧ (roundTrip hw C st).auto_vbw = C.auto_vbw ∧
      (roundTrip hw C st).native_rbw = C.native_rbw ∧
      (roundTrip hw C st).refLevel =
        hw.assignDouble (SweepSettings.defaults hw).refLevel C.refLevel.val ∧
      (roundTrip hw C st).div = C.div ∧ (roundTrip hw C st).attenuation = C.attenuation ∧
      (roundTrip hw C st).gain = C.gain ∧ (roundTrip hw C st).sweepTime = C.sweepTime ∧
      (roundTrip hw C st).processingUnits = C.processingUnits ∧
      (roundTrip hw C st).detector = C.detector ∧
      (roundTrip hw C st).rejection = C.rejection) ∧
    sweepKeys.length = 19 ∧ sweepKeys.Nodup ∧
    (∀ k ∈ sweepKeys, (C.Save st).1 k ≠ none) ∧
    (∀ k, k ∉ sweepKeys → (C.Save st).1 k = st k) ∧
    (∀ (st1 st2 : QSettings) (s : SweepSettings), (∀ k ∈ sweepKeys, st1 k = st2 k) →
      s.Load hw st1 = s.Load hw st2) :=
  ⟨roundTrip_fields hw C st, rfl, by simp [sweepKeys], (Save_keys C st).1, (Save_keys C st).2,
    fun st1 st2 s h => Load_keys hw st1 st2 s h⟩


/-- C5 at the sample device: the start edge of the configuration `nativePreset` survives the
round trip, a key outside the list is left alone by `Save`, and two stores that agree on the 19
keys load alike. -/
theorem C5_round_trip_persistence_witness :
    (roundTrip sampleHardware nativePreset QSettings.empty).start = nativePreset.start ∧
      (nativePreset.Save QSettings.empty).1 "PanelTabs/Sweep" = QSettings.empty "PanelTabs/Sweep" ∧
      nativePreset.Load sampleHardware (nativePreset.Save QSettings.empty).1 =
        nativePreset.Load sampleHardware (nativePreset.Save nativePresetStore).1 :=
  ⟨(C5_round_trip_persistence sampleHardware nativePreset QSettings.empty).1.2.1,
    (C5_round_trip_persistence sampleHardware nativePreset QSettings.empty).2.2.2.2.1
      "PanelTabs/Sweep" (by simp [sweepKeys]),
    (C5_round_trip_persistence sampleHardware nativePreset QSettings.empty).2.2.2.2.2
      (nativePreset.Save QSettings.empty).1 (nativePreset.Save nativePresetStore).1 nativePreset
      (fun k hk => by
        simp only [sweepKeys, List.mem_cons, List.mem_singleton, List.not_mem_nil, or_false] at hk
        rcases hk with h | h | h | h | h | h | h | h | h | h | h | h | h | h | h | h | h | h | h <;>
          subst h <;> simp [SweepSettings.Save, QSettings.setValue])⟩

/-- C6: for every configuration with centre `C` and `span > maxRealTimeSpan`,
`setMode(RealTime)` yields `span = maxRealTimeSpan`, `center = C`,
`start = C - maxRealTimeSpan / 2` and `stop = C + maxRealTimeSpan / 2`; when
`span ≤ maxRealTimeSpan` it leaves start, stop, centre and span unchanged. -/
theorem C6_mode_span_contraction (hw : Hardware) (s : SweepSettings) :
    (s.span > hw.maxRealTimeSpan →
      (s.setMode hw MODE_REAL_TIME).span = hw.maxRealTimeSpan ∧
      (s.setMode hw MODE_REAL_TIME).center = s.center ∧
      (s.setMode hw MODE_REAL_TIME).start = s.center - hw.maxRealTimeSpan / 2 ∧
      (s.setMode hw MODE_REAL_TIME).stop = s.center + hw.maxRealTimeSpan / 2) ∧
    (s.span ≤ hw.maxRealTimeSpan →
      (s.setMode hw MODE_REAL_TIME).start = s.start ∧
      (s.setMode hw MODE_REAL_TIME).stop = s.stop ∧
      (s.setMode hw MODE_REAL_TIME).center = s.center ∧
      (s.setMode hw MODE_REAL_TIME).span = s.span) := by
  constructor
  · intro h
    simp [SweepSettings.setMode, h]
  · intro h
    simp [SweepSettings.setMode, not_lt.mpr h]

/-- C6 at the sample device: a 10 GHz span around 5 GHz with `maxRealTimeSpan` = 20 MHz becomes
a 20 MHz span from 4.99 GHz to 5.01 GHz, and a second `setMode(RealTime)` leaves it there. -/
theorem C6_mode_span_contraction_witness :
    (wideSpan.span > sampleHardware.maxRealTimeSpan ∧
      (wideSpan.setMode sampleHardware MODE_REAL_TIME).span = 20000000 ∧
      (wideSpan.setMode sampleHardware MODE_REAL_TIME).center = 5000000000 ∧
      (wideSpan.setMode sampleHardware MODE_REAL_TIME).start = 5000000000 - 10000000 ∧
      (wideSpan.setMode sampleHardware MODE_REAL_TIME).stop = 5000000000 + 10000000) ∧
    ((wideSpan.setMode sampleHardware MODE_REAL_TIME).span ≤ sampleHardware.maxRealTimeSpan ∧
      ((wideSpan.setMode sampleHardware MODE_REAL_TIME).setMode sampleHardware
        MODE_REAL_TIME).span = 20000000) := by
  have h1 : wideSpan.span > sampleHardware.maxRealTimeSpan := by
    norm_num [wideSpan, sampleHardware]
  have h2 := (C6_mode_span_contraction sampleHardware wideSpan).1 h1
  have h3 : (wideSpan.setMode sampleHardware MODE_REAL_TIME).span ≤
      sampleHardware.maxRealTimeSpan := le_of_eq h2.1
  have h4 := (C6_mode_span_contraction sampleHardware (wideSpan.setMode sampleHardware MODE_REAL_TIME)).2 h3
  refine ⟨⟨h1, ?_, ?_, ?_, ?_⟩, h3, ?_⟩
  · rw [h2.1]; rfl
  · rw [h2.2.1]; rfl
  · rw [h2.2.2.1]; norm_num [wideSpan, sampleHardware]
  · rw [h2.2.2.2]; norm_num [wideSpan, sampleHardware]
  · rw [h4.2.2.2, h2.1]; rfl


/-- C9 as stated fails on doubles, at the sample device, for the request `fineSpan` =
1000 + 7 · 2^-22 Hz, itself a double and above the span floor, so that `f'` is the request.
On the factory defaults (centre 3005.5 MHz, centred case) the edges are `center ± f'/2` rounded
to the doubles near 3 GHz, and the span re-derived from them is 1000 + 2^-19 Hz, not
min(f', maxFreq - minFreq) = f'. On the configuration `oddCentered`, which `setCenter(oddCenter)`
leaves from the factory defaults (edges inside the device range, centre their midpoint, centred
case), the centre re-derived from the rounded edges is 2^-21 Hz below the centre before the
call. -/
theorem C9_rounded_span_differs_from_request :
    (IEEE.roundToDouble IEEE.fineSpan = IEEE.fineSpan ∧
      IEEE.roundToDouble IEEE.oddCenter = IEEE.oddCenter) ∧
    (IEEE.SweepSettings.defaults.center = IEEE.Double.num 3005500000 ∧
      (9000 : ℚ) ≤ 3005500000 - IEEE.fineSpan / 2 ∧
      3005500000 + IEEE.fineSpan / 2 ≤ (6400000000 : ℚ) ∧
      min IEEE.fineSpan (6400000000 - 9000) = IEEE.fineSpan ∧
      (IEEE.SweepSettings.defaults.setSpan IEEE.sampleHardware
        (IEEE.Double.num IEEE.fineSpan)).span = IEEE.Double.num (1000 + 1 / 524288) ∧
      (IEEE.SweepSettings.defaults.setSpan IEEE.sampleHardware
        (IEEE.Double.num IEEE.fineSpan)).span ≠ IEEE.Double.num IEEE.fineSpan) ∧
    (IEEE.oddCentered.start = IEEE.Double.num (2189934392 - 1 / 1048576) ∧
      IEEE.oddCentered.stop = IEEE.Double.num 6400000000 ∧
      IEEE.oddCentered.center = IEEE.Double.num IEEE.oddCenter ∧
      IEEE.oddCenter = ((2189934392 - 1 / 1048576) + 6400000000) / 2 ∧
      (9000 : ℚ) ≤ IEEE.oddCenter - IEEE.fineSpan / 2 ∧
      IEEE.oddCenter + IEEE.fineSpan / 2 ≤ (6400000000 : ℚ) ∧
      (IEEE.oddCentered.setSpan IEEE.sampleHardware (IEEE.Double.num IEEE.fineSpan)).center =
        IEEE.Double.num (IEEE.oddCenter - 1 / 2097152) ∧
      (IEEE.oddCentered.setSpan IEEE.sampleHardware (IEEE.Double.num IEEE.fineSpan)).center ≠
        IEEE.oddCentered.center) := by
  obtain ⟨_, _, h3⟩ := IEEE.defaults_setSpan_fine
  obtain ⟨k1, k2⟩ := IEEE.setCenter_oddCenter
  obtain ⟨_, _, m3, _, _⟩ := IEEE.setSpan_fine_once IEEE.oddCentered k1 k2
  have e : (IEEE.oddCenter - 1 / 2097152 : ℚ) = 4294967196 - 1 / 1048576 := by
    norm_num [IEEE.oddCenter]
  refine ⟨⟨IEEE.fineSpan_representable, IEEE.oddCenter_representable⟩,
    ⟨IEEE.defaults_center, ?_, ?_, ?_, h3, ?_⟩,
    IEEE.setCenter_oddCenter_edges.1, IEEE.setCenter_oddCenter_edges.2, k1, ?_, ?_, ?_, ?_, ?_⟩
  · norm_num [IEEE.fineSpan]
  · norm_num [IEEE.fineSpan]
  · norm_num [IEEE.fineSpan]
  · rw [h3]
    intro h
    have h2 := IEEE.Double.num.inj h
    norm_num [IEEE.fineSpan] at h2
  · norm_num [IEEE.oddCenter]
  · norm_num [IEEE.oddCenter, IEEE.fineSpan]
  · norm_num [IEEE.oddCenter, IEEE.fineSpan]
  · rw [m3, e]
  · rw [m3]
    intro h
    have h2 := IEEE.Double.num.inj (h.trans k1)
    norm_num [IEEE.oddCenter] at h2

/-- C9, amended: over exact arithmetic (no rounding, no NaN), let `f'` be the request raised to
at least the span floor and, when the mode is real-time or time-gate, further clamped to
`[minRealTimeSpan, maxRealTimeSpan]`. After `setSpan(f)`: if `center - f'/2 < minFreq` then
start = minFreq and stop = min(minFreq + f', maxFreq); else if `center + f'/2 > maxFreq` then
stop = maxFreq and start = max(maxFreq - f', minFreq); otherwise start = center - f'/2,
stop = center + f'/2 and the centre is unchanged. In every case centre and span are re-derived
from the final edges and the realized span equals min(f', maxFreq - minFreq). This holds for
every configuration. -/
theorem C9_setSpan_fits_device_range (hw : Hardware) (s : SweepSettings) (f : Frequency) :
    (s.center - fittedRequest hw s f / 2 < hw.BB60_MIN_FREQ →
      (s.setSpan hw f).start = hw.BB60_MIN_FREQ ∧
      (s.setSpan hw f).stop = min (hw.BB60_MIN_FREQ + fittedRequest hw s f) hw.BB60_MAX_FREQ) ∧
    (¬ s.center - fittedRequest hw s f / 2 < hw.BB60_MIN_FREQ →
      s.center + fittedRequest hw s f / 2 > hw.BB60_MAX_FREQ →
      (s.setSpan hw f).stop = hw.BB60_MAX_FREQ ∧
      (s.setSpan hw f).start = max (hw.BB60_MAX_FREQ - fittedRequest hw s f) hw.BB60_MIN_FREQ) ∧
    (¬ s.center - fittedRequest hw s f / 2 < hw.BB60_MIN_FREQ →
      ¬ s.center + fittedRequest hw s f / 2 > hw.BB60_MAX_FREQ →
      (s.setSpan hw f).start = s.center - fittedRequest hw s f / 2 ∧
      (s.setSpan hw f).stop = s.center + fittedRequest hw s f / 2 ∧
      (s.setSpan hw f).center = s.center) ∧
    (s.setSpan hw f).center = ((s.setSpan hw f).start + (s.setSpan hw f).stop) / 2 ∧
    (s.setSpan hw f).span = (s.setSpan hw f).stop - (s.setSpan hw f).start ∧
    (s.setSpan hw f).span = min (fittedRequest hw s f) (hw.BB60_MAX_FREQ - hw.BB60_MIN_FREQ) := by
  obtain ⟨h1, h2, h3, h4⟩ := setSpan_edges hw s f
  refine ⟨fun h => ?_, fun ha hb => ?_, fun ha hb => ?_, h3, h4, ?_⟩
  · rw [h1, h2, if_pos h, if_pos h]
    exact ⟨rfl, rfl⟩
  · rw [h1, h2, if_neg ha, if_neg ha, if_pos hb, if_pos hb]
    exact ⟨rfl, rfl⟩
  · rw [h3, h1, h2, if_neg ha, if_neg ha, if_neg hb, if_neg hb]
    refine ⟨rfl, rfl, ?_⟩
    ring
  · rw [h4, h1, h2]
    split_ifs with ha hb
    · rw [← min_sub_sub_right, add_sub_cancel_left]
    · rcases le_total (hw.BB60_MAX_FREQ - fittedRequest hw s f) hw.BB60_MIN_FREQ with h | h
      · rw [max_eq_right h, min_eq_right (by linarith)]
      · rw [max_eq_left h, min_eq_left (by linarith)]
        ring
    · rw [min_eq_left (by linarith)]
      ring

/-- C9 at the sample device: a 6.2 GHz request on the factory defaults pins start at 9 kHz; a
3 GHz request around 5 GHz pins stop at 6.4 GHz; a 1 kHz request on the factory defaults is
centred. -/
theorem C9_setSpan_fits_device_range_witness :
    ((SweepSettings.defaults sampleHardware).center -
        fittedRequest sampleHardware (SweepSettings.defaults sampleHardware) 6200000000 / 2 <
        sampleHardware.BB60_MIN_FREQ ∧
      ((SweepSettings.defaults sampleHardware).setSpan sampleHardware 6200000000).start =
        sampleHardware.BB60_MIN_FREQ) ∧
    (wideSpan.center + fittedRequest sampleHardware wideSpan 3000000000 / 2 >
        sampleHardware.BB60_MAX_FREQ ∧
      (wideSpan.setSpan sampleHardware 3000000000).stop = sampleHardware.BB60_MAX_FREQ) ∧
    ((SweepSettings.defaults sampleHardware).setSpan sampleHardware 1000).center =
      (SweepSettings.defaults sampleHardware).center := by
  have h1 : (SweepSettings.defaults sampleHardware).center -
      fittedRequest sampleHardware (SweepSettings.defaults sampleHardware) 6200000000 / 2 <
      sampleHardware.BB60_MIN_FREQ := by
    norm_num [fittedRequest, SweepSettings.defaults, SweepSettings.LoadDefaults, sampleHardware]
  have h2 : ¬ wideSpan.center - fittedRequest sampleHardware wideSpan 3000000000 / 2 <
      sampleHardware.BB60_MIN_FREQ := by
    norm_num [fittedRequest, wideSpan, SweepSettings.defaults, SweepSettings.LoadDefaults,
      sampleHardware]
  have h3 : wideSpan.center + fittedRequest sampleHardware wideSpan 3000000000 / 2 >
      sampleHardware.BB60_MAX_FREQ := by
    norm_num [fittedRequest, wideSpan, SweepSettings.defaults, SweepSettings.LoadDefaults,
      sampleHardware]
  have h4 : ¬ (SweepSettings.defaults sampleHardware).center -
      fittedRequest sampleHardware (SweepSettings.defaults sampleHardware) 1000 / 2 <
      sampleHardware.BB60_MIN_FREQ := by
    norm_num [fittedRequest, SweepSettings.defaults, SweepSettings.LoadDefaults, sampleHardware]
  have h5 : ¬ (SweepSettings.defaults sampleHardware).center +
      fittedRequest sampleHardware (SweepSettings.defaults sampleHardware) 1000 / 2 >
      sampleHardware.BB60_MAX_FREQ := by
    norm_num [fittedRequest, SweepSettings.defaults, SweepSettings.LoadDefaults, sampleHardware]
  exact ⟨⟨h1, ((C9_setSpan_fits_device_range sampleHardware
      (SweepSettings.defaults sampleHardware) 6200000000).1 h1).1⟩,
    ⟨h3, ((C9_setSpan_fits_device_range sampleHardware wideSpan 3000000000).2.1 h2 h3).1⟩,
    ((C9_setSpan_fits_device_range sampleHardware
      (SweepSettings.defaults sampleHardware) 1000).2.2.1 h4 h5).2.2⟩

/-- C12 as stated fails on doubles for `f` = NaN: in the configuration `heldBandwidth` of the
sample device (sweeping, rbw = 300 kHz held) and in every configuration that is not in real-time
mode, on every device, `setVBW(NaN)` clears `auto_vbw` and leaves vbw = NaN, because the tests
`vbw > rbw` of `setVBW` and of `AutoBandwidthAdjust` are both false when vbw is NaN; `vbw ≤ rbw`
then does not hold. -/
theorem C12_nan_request_is_stored :
    ((IEEE.heldBandwidth.setVBW IEEE.sampleHardware IEEE.Double.nan).auto_vbw = false ∧
      (IEEE.heldBandwidth.setVBW IEEE.sampleHardware IEEE.Double.nan).vbw = IEEE.Double.nan ∧
      ¬ ((IEEE.heldBandwidth.setVBW IEEE.sampleHardware IEEE.Double.nan).vbw ≤
        (IEEE.heldBandwidth.setVBW IEEE.sampleHardware IEEE.Double.nan).rbw)) ∧
    (∀ (hw : IEEE.Hardware) (s : IEEE.SweepSettings), s.mode ≠ MODE_REAL_TIME →
      (s.setVBW hw IEEE.Double.nan).auto_vbw = false ∧
      (s.setVBW hw IEEE.Double.nan).vbw = IEEE.Double.nan ∧
      ¬ ((s.setVBW hw IEEE.Double.nan).vbw ≤ (s.setVBW hw IEEE.Double.nan).rbw)) := by
  have key : ∀ (hw : IEEE.Hardware) (s : IEEE.SweepSettings), s.mode ≠ MODE_REAL_TIME →
      (s.setVBW hw IEEE.Double.nan).auto_vbw = false ∧
      (s.setVBW hw IEEE.Double.nan).vbw = IEEE.Double.nan ∧
      ¬ ((s.setVBW hw IEEE.Double.nan).vbw ≤ (s.setVBW hw IEEE.Double.nan).rbw) := by
    intro hw s hm
    obtain ⟨h1, h2, _⟩ := IEEE.SweepSettings.setVBW_nan hw s hm
    refine ⟨h2, h1, ?_⟩
    rw [h1]
    exact IEEE.Double.not_nan_le _
  exact ⟨key IEEE.sampleHardware IEEE.heldBandwidth
    (by simp [IEEE.heldBandwidth, IEEE.SweepSettings.defaults]), key⟩

/-- C12, amended: for every configuration and every `f` that is a number, not NaN (the span and
the rbw of the configuration and the values returned by the hardware functions being numbers
too), after `setVBW(f)` `auto_vbw` is off and `vbw ≤ rbw`; and for every configuration not in
real-time mode whose `rbw` is left unchanged by the bandwidth adjustment, `vbw = min(f, rbw)`.
The first part is the statement on the rational model, whose values are the numbers; the second
part is the same statement on doubles, for a device that returns numbers for numbers. -/
theorem C12_vbw_ceiling :
    (∀ (hw : Hardware) (s : SweepSettings) (f : Frequency),
      (s.setVBW hw f).auto_vbw = false ∧ (s.setVBW hw f).vbw ≤ (s.setVBW hw f).rbw ∧
      (s.mode ≠ MODE_REAL_TIME → (s.setVBW hw f).rbw = s.rbw →
        (s.setVBW hw f).vbw = min f s.rbw)) ∧
    (∀ (hw : IEEE.Hardware) (s : IEEE.SweepSettings) (x : ℚ),
      (hw.ReturnsNumbers → s.span.IsNumber → s.rbw.IsNumber →
        (s.setVBW hw (IEEE.Double.num x)).auto_vbw = false ∧
        (s.setVBW hw (IEEE.Double.num x)).vbw ≤ (s.setVBW hw (IEEE.Double.num x)).rbw) ∧
      (∀ r : ℚ, s.rbw = IEEE.Double.num r → s.mode ≠ MODE_REAL_TIME →
        (s.setVBW hw (IEEE.Double.num x)).rbw = s.rbw →
        (s.setVBW hw (IEEE.Double.num x)).vbw = IEEE.Double.num (min x r))) := by
  refine ⟨fun hw s f => ?_, fun hw s x =>
    ⟨fun hn hsp hr => IEEE.SweepSettings.setVBW_numbers hw hn x s hsp hr,
      fun r hr hm hk => IEEE.SweepSettings.setVBW_min hw x r s hr hm hk⟩⟩
  have hs : s.setVBW hw f =
      SweepSettings.emitUpdated (SweepSettings.AutoBandwidthAdjust hw false
        { s with vbw := min f s.rbw, auto_vbw := false }) := by
    unfold SweepSettings.setVBW
    dsimp only
    rw [← ite_gt_eq_min]
    split_ifs <;> rfl
  refine ⟨?_, SweepSettings.AutoBandwidthAdjust_vbw_le _ _ _, fun hm hr => ?_⟩
  · rw [hs, SweepSettings.AutoBandwidthAdjust_eq]
    rfl
  · have hm' : ¬ s.mode = BB_REAL_TIME := hm
    rw [hs, SweepSettings.AutoBandwidthAdjust_eq] at hr ⊢
    simp only [SweepSettings.emitUpdated_rbw, SweepSettings.emitUpdated_vbw,
      SweepSettings.adjustedRbw, SweepSettings.adjustedVbw, hm', if_false] at hr ⊢
    rw [hr]
    simp

/-- C12 at the sample devices, on rationals and on doubles: with rbw = 300 kHz held,
`setVBW(500 kHz)` gives vbw = 300 kHz and `auto_vbw` off. -/
theorem C12_vbw_ceiling_witness :
    (heldBandwidth.mode ≠ MODE_REAL_TIME ∧
      (heldBandwidth.setVBW sampleHardware 500000).rbw = heldBandwidth.rbw ∧
      heldBandwidth.rbw = 300000 ∧
      (heldBandwidth.setVBW sampleHardware 500000).vbw = 300000 ∧
      (heldBandwidth.setVBW sampleHardware 500000).auto_vbw = false) ∧
    (IEEE.sampleHardware.ReturnsNumbers ∧ IEEE.heldBandwidth.rbw = IEEE.Double.num 300000 ∧
      (IEEE.heldBandwidth.setVBW IEEE.sampleHardware (IEEE.Double.num 500000)).rbw =
        IEEE.heldBandwidth.rbw ∧
      (IEEE.heldBandwidth.setVBW IEEE.sampleHardware (IEEE.Double.num 500000)).vbw =
        IEEE.Double.num 300000 ∧
      (IEEE.heldBandwidth.setVBW IEEE.sampleHardware (IEEE.Double.num 500000)).auto_vbw =
        false) := by
  have hm : heldBandwidth.mode ≠ MODE_REAL_TIME := by
    simp [heldBandwidth, SweepSettings.defaults, SweepSettings.LoadDefaults]
  have hr : (heldBandwidth.setVBW sampleHardware 500000).rbw = heldBandwidth.rbw := by
    simp only [SweepSettings.setVBW, SweepSettings.emitUpdated_rbw,
      SweepSettings.AutoBandwidthAdjust_eq]
    norm_num [SweepSettings.adjustedRbw, SweepSettings.generalStepRbw,
      SweepSettings.adjustedNative, heldBandwidth, SweepSettings.defaults,
      SweepSettings.LoadDefaults, sampleHardware]
  have h3 : heldBandwidth.rbw = 300000 := rfl
  have h := C12_vbw_ceiling.1 sampleHardware heldBandwidth 500000
  have k3 : IEEE.heldBandwidth.rbw = IEEE.Double.num 300000 := by
    show (300000 : IEEE.Double) = _
    rw [IEEE.Double.ofNat_eq_num]
  have km : IEEE.heldBandwidth.mode ≠ MODE_REAL_TIME := by
    simp [IEEE.heldBandwidth, IEEE.SweepSettings.defaults]
  have ksp : IEEE.heldBandwidth.span.IsNumber := by
    show IEEE.Double.IsNumber IEEE.SweepSettings.defaults.span
    rw [IEEE.defaults_span]
    trivial
  have k := C12_vbw_ceiling.2 IEEE.sampleHardware IEEE.heldBandwidth 500000
  refine ⟨⟨hm, hr, h3, ?_, h.1⟩, ieee_sampleHardware_returnsNumbers, k3,
    ieee_heldBandwidth_setVBW_rbw, ?_,
    (k.1 ieee_sampleHardware_returnsNumbers ksp (by rw [k3]; trivial)).1⟩
  · rw [h.2.2 hm hr, h3]
    norm_num
  · rw [k.2 300000 k3 km ieee_heldBandwidth_setVBW_rbw]
    norm_num

/-- C13: `setRefLevel(a)` stores `a` clamped to `[-100 dBm, +20 dBm]` (`a` itself when already
inside); yet the range is not kept by `shiftRefLevel`: from the factory defaults (-30 dBm,
div = 10) six calls of `shiftRefLevel(up)` leave +30 dBm, eight calls of `shiftRefLevel(down)`
leave -110 dBm, and `setRefLevel(+20 dBm)` followed by one `shiftRefLevel(up)` leaves +30 dBm,
on every device. -/
theorem C13_shiftRefLevel_leaves_range :
    (∀ (hw : Hardware) (a : Amplitude) (s : SweepSettings),
      (s.setRefLevel hw a).refLevel.InRefRange hw ∧
        (a.InRefRange hw → (s.setRefLevel hw a).refLevel = a)) ∧
    (∀ hw : Hardware,
      (run hw (List.replicate 6 (Op.shiftRefLevel true))).refLevel = ⟨30, AmpUnits.DBM⟩ ∧
      (run hw (List.replicate 8 (Op.shiftRefLevel false))).refLevel = ⟨-110, AmpUnits.DBM⟩ ∧
      (run hw [Op.setRefLevel ⟨20, AmpUnits.DBM⟩, Op.shiftRefLevel true]).refLevel =
        ⟨30, AmpUnits.DBM⟩ ∧
      ¬ (run hw (List.replicate 6 (Op.shiftRefLevel true))).refLevel.InRefRange hw) := by
  refine ⟨fun hw a s => ⟨Amplitude.Clamp_refRange hw a,
    fun h => Amplitude.Clamp_of_refRange hw a h⟩, fun hw => ?_⟩
  · have k1 : (run hw (List.replicate 6 (Op.shiftRefLevel true))).refLevel =
        ⟨30, AmpUnits.DBM⟩ := by
      simp only [run, runFrom, List.replicate, List.foldl, Op.apply,
        SweepSettings.shiftRefLevel, SweepSettings.emitUpdated, SweepSettings.defaults,
        SweepSettings.LoadDefaults, Amplitude.IsLogScale, Amplitude.add, ne_eq,
        reduceCtorEq, not_false_eq_true, decide_True, if_true]
      norm_num
    refine ⟨k1, ?_, ?_, ?_⟩
    · simp only [run, runFrom, List.replicate, List.foldl, Op.apply,
        SweepSettings.shiftRefLevel, SweepSettings.emitUpdated, SweepSettings.defaults,
        SweepSettings.LoadDefaults, Amplitude.IsLogScale, Amplitude.sub, ne_eq,
        reduceCtorEq, not_false_eq_true, decide_True, if_true, Bool.false_eq_true, if_false]
      norm_num
    · have hc : (⟨20, AmpUnits.DBM⟩ : Amplitude).Clamp hw ⟨-100, AmpUnits.DBM⟩
          ⟨20, AmpUnits.DBM⟩ = ⟨20, AmpUnits.DBM⟩ :=
        Amplitude.Clamp_of_refRange hw _ (by norm_num [Amplitude.InRefRange, Amplitude.toDBM])
      simp only [run, runFrom, List.foldl, Op.apply, SweepSettings.shiftRefLevel,
        SweepSettings.setRefLevel, hc, SweepSettings.emitUpdated, SweepSettings.defaults,
        SweepSettings.LoadDefaults, Amplitude.IsLogScale, Amplitude.add, ne_eq,
        reduceCtorEq, not_false_eq_true, decide_True, if_true]
      norm_num
    · rw [k1]
      norm_num [Amplitude.InRefRange, Amplitude.toDBM]

/-- C14: the factory defaults of the sample device are a valid configuration, and loading a
store that holds only `Sweep/Start` = 7 GHz leaves start = 7 GHz above stop = 6 GHz, so the
configuration carried by the notification of `Load` is not valid; on every device that load
leaves start above stop. The setter of the same field validates: `setStart(7 GHz)` on the same
configuration fails the edge test and leaves start = 11 MHz, below stop. -/
theorem C14_load_takes_unvalidated_values :
    ((SweepSettings.defaults sampleHardware).Valid sampleHardware ∧
      ((SweepSettings.defaults sampleHardware).Load sampleHardware highStartStore).1.start =
        7000000000 ∧
      ((SweepSettings.defaults sampleHardware).Load sampleHardware highStartStore).1.stop =
        6000000000 ∧
      ¬ ((SweepSettings.defaults sampleHardware).Load sampleHardware highStartStore).1.Valid
        sampleHardware) ∧
    (∀ hw : Hardware,
      ¬ ((SweepSettings.defaults hw).Load hw highStartStore).1.start <
        ((SweepSettings.defaults hw).Load hw highStartStore).1.stop) ∧
    (¬ startEdgeValid sampleHardware (SweepSettings.defaults sampleHardware) 7000000000 ∧
      ((SweepSettings.defaults sampleHardware).setStart sampleHardware 7000000000).start =
        11000000 ∧
      ((SweepSettings.defaults sampleHardware).setStart sampleHardware 7000000000).stop =
        6000000000) := by
  have k : ∀ hw : Hardware,
      ((SweepSettings.defaults hw).Load hw highStartStore).1.start = 7000000000 ∧
      ((SweepSettings.defaults hw).Load hw highStartStore).1.stop = 6000000000 := by
    intro hw
    simp [SweepSettings.Load, SweepSettings.emitUpdated, highStartStore, QSettings.setValue,
      QSettings.empty, QSettings.valueDouble, SweepSettings.defaults,
      SweepSettings.LoadDefaults]
  have hv : ¬ startEdgeValid sampleHardware (SweepSettings.defaults sampleHardware)
      7000000000 := by
    norm_num [startEdgeValid, SweepSettings.defaults, SweepSettings.LoadDefaults,
      sampleHardware]
  obtain ⟨e1, _, _, e4⟩ := SweepSettings.setStart_invalid sampleHardware
    (SweepSettings.defaults sampleHardware) 7000000000 hv
  refine ⟨⟨?_, (k _).1, (k _).2, ?_⟩, fun hw => ?_, hv, e1.trans rfl, e4.trans rfl⟩
  · norm_num [SweepSettings.Valid, SweepSettings.defaults, SweepSettings.LoadDefaults,
      sampleHardware]
  · intro h
    have h1 := h.1
    rw [(k _).1, (k _).2] at h1
    norm_num at h1
  · rw [(k hw).1, (k hw).2]
    norm_num

/-- C16: for every configuration and every mode `m`, after `setMode(m)` the mode field is `m`;
if `m` is not real-time no other field changes; if `m` is real-time then `native_rbw`, `auto_rbw`
and `auto_vbw` are all set afterwards, the span is the old span lowered to `maxRealTimeSpan`, and
`rbw` and `vbw` are those of `AutoBandwidthAdjust(true)` on the contracted span: the best
bandwidth for that span on the native ladder, clamped to the real-time limits. -/
theorem C16_setMode_postcondition (hw : Hardware) (s : SweepSettings) (m : OperationalMode) :
    (s.setMode hw m).mode = m ∧
    (m ≠ MODE_REAL_TIME → s.setMode hw m = { s with mode := m }) ∧
    (m = MODE_REAL_TIME →
      (s.setMode hw m).native_rbw = true ∧ (s.setMode hw m).auto_rbw = true ∧
      (s.setMode hw m).auto_vbw = true ∧
      (s.setMode hw m).span = min s.span hw.maxRealTimeSpan ∧
      (s.setMode hw m).rbw =
        clamp (hw.get_best_rbw (min s.span hw.maxRealTimeSpan) true)
          hw.BB_MIN_RT_RBW hw.BB_MAX_RT_RBW ∧
      (s.setMode hw m).vbw = (s.setMode hw m).rbw ∧
      s.setMode hw m =
        SweepSettings.AutoBandwidthAdjust hw true
          { s with
            mode := MODE_REAL_TIME, native_rbw := true, auto_rbw := true, auto_vbw := true
            span := min s.span hw.maxRealTimeSpan
            start := if s.span > hw.maxRealTimeSpan then s.center - hw.maxRealTimeSpan / 2
              else s.start
            stop := if s.span > hw.maxRealTimeSpan then s.center + hw.maxRealTimeSpan / 2
              else s.stop }) := by
  refine ⟨?_, fun hm => ?_, fun hm => ?_⟩
  · have h := Op.apply_mode hw s (Op.setMode m)
    exact h
  · have hm' : ¬ m = BB_REAL_TIME := hm
    simp only [SweepSettings.setMode, hm', if_false]
  · subst hm
    have key : s.setMode hw MODE_REAL_TIME =
        SweepSettings.AutoBandwidthAdjust hw true
          { s with
            mode := MODE_REAL_TIME, native_rbw := true, auto_rbw := true, auto_vbw := true
            span := min s.span hw.maxRealTimeSpan
            start := if s.span > hw.maxRealTimeSpan then s.center - hw.maxRealTimeSpan / 2
              else s.start
            stop := if s.span > hw.maxRealTimeSpan then s.center + hw.maxRealTimeSpan / 2
              else s.stop } := by
      by_cases h : s.span > hw.maxRealTimeSpan
      · simp only [SweepSettings.setMode, h, if_true, min_eq_right (le_of_lt h)]
      · simp only [SweepSettings.setMode, h, if_true, if_false, min_eq_left (not_lt.mp h)]
    refine ⟨?_, ?_, ?_, ?_, ?_, ?_, key⟩
    · rw [key, SweepSettings.AutoBandwidthAdjust_eq]
      simp [SweepSettings.adjustedNative]
    · rw [key, SweepSettings.AutoBandwidthAdjust_eq]
    · rw [key, SweepSettings.AutoBandwidthAdjust_eq]
    · rw [key, SweepSettings.AutoBandwidthAdjust_eq]
    · rw [key, SweepSettings.AutoBandwidthAdjust_eq]
      simp [SweepSettings.adjustedRbw, SweepSettings.generalStepRbw,
        SweepSettings.adjustedNative]
    · rw [key, SweepSettings.AutoBandwidthAdjust_eq]
      simp [SweepSettings.adjustedVbw]

/-- C16 at the sample device: `setMode(TimeGate)` on a 10 GHz span changes the mode only;
`setMode(RealTime)` on it sets the three flags and contracts the span to 20 MHz. -/
theorem C16_setMode_postcondition_witness :
    (MODE_TIME_GATE ≠ MODE_REAL_TIME ∧
      wideSpan.setMode sampleHardware MODE_TIME_GATE = { wideSpan with mode := MODE_TIME_GATE }) ∧
    ((wideSpan.setMode sampleHardware MODE_REAL_TIME).native_rbw = true ∧
      (wideSpan.setMode sampleHardware MODE_REAL_TIME).auto_rbw = true ∧
      (wideSpan.setMode sampleHardware MODE_REAL_TIME).auto_vbw = true ∧
      (wideSpan.setMode sampleHardware MODE_REAL_TIME).span =
        min wideSpan.span sampleHardware.maxRealTimeSpan) :=
  ⟨⟨by decide,
    (C16_setMode_postcondition sampleHardware wideSpan MODE_TIME_GATE).2.1 (by decide)⟩,
    ((C16_setMode_postcondition sampleHardware wideSpan MODE_REAL_TIME).2.2 rfl).1,
    ((C16_setMode_postcondition sampleHardware wideSpan MODE_REAL_TIME).2.2 rfl).2.1,
    ((C16_setMode_postcondition sampleHardware wideSpan MODE_REAL_TIME).2.2 rfl).2.2.1,
    ((C16_setMode_postcondition sampleHardware wideSpan MODE_REAL_TIME).2.2 rfl).2.2.2.1⟩

/-- C17: with the emitted notifications counted in the state, `setMode` and `LoadDefaults` emit
none; `setDetector`, `setProcUnits` and `setRejection` emit exactly one when the new value
differs from the stored one and none otherwise, and then change nothing; every other mutator,
copy-assignment and `Load` emit exactly one per call. -/
theorem C17_notification_count (hw : Hardware) (s : SweepSettings) :
    (∀ op : Op, (op.apply hw s).emitted = s.emitted + op.notifications s) ∧
    (∀ m : OperationalMode, (s.setMode hw m).emitted = s.emitted) ∧
    (s.LoadDefaults hw).emitted = s.emitted ∧
    (s.setDetector s.detector = s ∧ s.setProcUnits s.processingUnits = s ∧
      s.setRejection s.rejection = s) ∧
    (∀ other : SweepSettings, (s.assign other).emitted = s.emitted + 1) ∧
    (∀ st : QSettings, (s.Load hw st).1.emitted = s.emitted + 1) := by
  refine ⟨fun op => Op.apply_emitted hw s op, fun m => ?_, rfl, ⟨?_, ?_, ?_⟩, fun _ => rfl,
    fun _ => rfl⟩
  · exact Op.apply_emitted hw s (Op.setMode m)
  · simp [SweepSettings.setDetector]
  · simp [SweepSettings.setProcUnits]
  · simp [SweepSettings.setRejection]

/-- C18 as stated fails: in the real-time configuration `realTimeNative` of the sample device
(native bandwidths, 20 MHz span) `setRBW(500 kHz)` selects the ladder entry 500 kHz, which the
revalidation against the span leaves unchanged, yet the final rbw is 250 kHz, the real-time
maximum, not the ladder entry. -/
theorem C18_real_time_clamps_ladder_value :
    realTimeNative.native_rbw = true ∧
      ladderValue sampleHardware 500000 = 500000 ∧
      sampleHardware.adjust_rbw_on_span (ladderValue sampleHardware 500000)
        realTimeNative.span true = ladderValue sampleHardware 500000 ∧
      (realTimeNative.setRBW sampleHardware 500000).rbw = 250000 ∧
      (realTimeNative.setRBW sampleHardware 500000).rbw ≠ ladderValue sampleHardware 500000 := by
  have hl : ladderValue sampleHardware 500000 = 500000 := by
    unfold ladderValue
    rw [sample_index_500k]
    norm_num [sampleHardware]
  have hr : (realTimeNative.setRBW sampleHardware 500000).rbw = 250000 := by
    rw [setRBW_eq, SweepSettings.AutoBandwidthAdjust_eq]
    simp only [SweepSettings.emitUpdated_rbw, SweepSettings.adjustedRbw,
      SweepSettings.generalStepRbw, SweepSettings.adjustedNative, realTimeNative, if_true, hl]
    norm_num [clamp, sampleHardware]
  refine ⟨rfl, hl, ?_, hr, ?_⟩
  · rw [hl]
    norm_num [sampleHardware, realTimeNative]
  · rw [hr, hl]
    norm_num

/-- C18, amended: for every configuration with `native_rbw` set and every `f`, `setRBW(f)` turns
`auto_rbw` off and sets `rbw` to the native lookup-table entry selected for `f`, which is then
re-validated against the current span and, in real-time mode, clamped to the real-time
bandwidth limits; so when the mode is not real-time and the entry is valid for the span, the
final `rbw` is that entry, and it is the raw `f` only if `f` is itself an entry of the table. With
`native_rbw` off and the mode not real-time, `setRBW(f)` adopts `f` directly before the
re-validation. -/
theorem C18_native_rbw_snapping (hw : Hardware) (s : SweepSettings) (f : Frequency) :
    (s.native_rbw = true →
      (s.setRBW hw f).auto_rbw = false ∧
      (s.setRBW hw f).rbw =
        (if s.mode = MODE_REAL_TIME then
          clamp (hw.adjust_rbw_on_span (ladderValue hw f) s.span true)
            hw.BB_MIN_RT_RBW hw.BB_MAX_RT_RBW
        else hw.adjust_rbw_on_span (ladderValue hw f) s.span true) ∧
      (s.mode ≠ MODE_REAL_TIME →
        hw.adjust_rbw_on_span (ladderValue hw f) s.span true = ladderValue hw f →
        (s.setRBW hw f).rbw = ladderValue hw f ∧
        ((s.setRBW hw f).rbw = f → IsLadderValue hw f))) ∧
    (s.native_rbw = false → s.mode ≠ MODE_REAL_TIME →
      (s.setRBW hw f).auto_rbw = false ∧
      (s.setRBW hw f).rbw = hw.adjust_rbw_on_span f s.span false) := by
  constructor
  · intro hn
    have hr : (s.setRBW hw f).rbw =
        (if s.mode = MODE_REAL_TIME then
          clamp (hw.adjust_rbw_on_span (ladderValue hw f) s.span true)
            hw.BB_MIN_RT_RBW hw.BB_MAX_RT_RBW
        else hw.adjust_rbw_on_span (ladderValue hw f) s.span true) := by
      rw [setRBW_eq, SweepSettings.AutoBandwidthAdjust_eq]
      by_cases hm : s.mode = MODE_REAL_TIME
      · simp [SweepSettings.adjustedRbw, SweepSettings.generalStepRbw,
          SweepSettings.adjustedNative, hm, hn]
      · simp [SweepSettings.adjustedRbw, SweepSettings.generalStepRbw,
          SweepSettings.adjustedNative, hm, hn]
    refine ⟨?_, hr, fun hm hv => ?_⟩
    · rw [setRBW_eq, SweepSettings.AutoBandwidthAdjust_eq]
      rfl
    · have hl : (s.setRBW hw f).rbw = ladderValue hw f := by
        rw [hr, if_neg hm, hv]
      refine ⟨hl, fun hf => ⟨hw.get_native_bw_index f, ?_⟩⟩
      show ladderValue hw f = f
      exact hl.symm.trans hf
  · intro hn hm
    constructor
    · rw [setRBW_eq, SweepSettings.AutoBandwidthAdjust_eq]
      rfl
    · rw [setRBW_eq, SweepSettings.AutoBandwidthAdjust_eq]
      simp [SweepSettings.adjustedRbw, SweepSettings.generalStepRbw,
        SweepSettings.adjustedNative, hm, hn]

/-- C18 at the sample device, whose ladder has a step every 20 kHz: on the sweeping
configuration `nativePreset` (native bandwidths) `setRBW(310 kHz)` leaves rbw = 320 kHz, not
310 kHz, with `auto_rbw` off; on the factory defaults (native off) it adopts 310 kHz. -/
theorem C18_native_rbw_snapping_witness :
    (nativePreset.native_rbw = true ∧ nativePreset.mode ≠ MODE_REAL_TIME ∧
      sampleHardware.adjust_rbw_on_span (ladderValue sampleHardware 310000) nativePreset.span
        true = ladderValue sampleHardware 310000 ∧
      (nativePreset.setRBW sampleHardware 310000).rbw = 320000 ∧
      (nativePreset.setRBW sampleHardware 310000).rbw ≠ 310000 ∧
      (nativePreset.setRBW sampleHardware 310000).auto_rbw = false) ∧
    ((SweepSettings.defaults sampleHardware).native_rbw = false ∧
      (SweepSettings.defaults sampleHardware).mode ≠ MODE_REAL_TIME ∧
      ((SweepSettings.defaults sampleHardware).setRBW sampleHardware 310000).rbw = 310000) := by
  have hn : nativePreset.native_rbw = true := by
    simp [nativePreset, nativePresetStore, SweepSettings.Load, SweepSettings.emitUpdated,
      QSettings.setValue, QSettings.valueBool]
  have hm : nativePreset.mode ≠ MODE_REAL_TIME := by
    simp [nativePreset, nativePresetStore, SweepSettings.Load, SweepSettings.emitUpdated,
      QSettings.setValue, QSettings.valueInt, QSettings.empty, SweepSettings.defaults,
      SweepSettings.LoadDefaults]
  have hs : nativePreset.span = 5989000000 := by
    simp [nativePreset, nativePresetStore, SweepSettings.Load, SweepSettings.emitUpdated,
      QSettings.setValue, QSettings.valueDouble, QSettings.empty, SweepSettings.defaults,
      SweepSettings.LoadDefaults]
    norm_num
  have hl : ladderValue sampleHardware 310000 = 320000 := by
    unfold ladderValue
    rw [sample_index_310k]
    norm_num [sampleHardware]
  have hv : sampleHardware.adjust_rbw_on_span (ladderValue sampleHardware 310000)
      nativePreset.span true = ladderValue sampleHardware 310000 := by
    rw [hl, hs]
    norm_num [sampleHardware]
  have h := (C18_native_rbw_snapping sampleHardware nativePreset 310000).1 hn
  have h' := h.2.2 hm hv
  have hd : (SweepSettings.defaults sampleHardware).mode ≠ MODE_REAL_TIME := by
    simp [SweepSettings.defaults, SweepSettings.LoadDefaults]
  have k := (C18_native_rbw_snapping sampleHardware (SweepSettings.defaults sampleHardware)
    310000).2 rfl hd
  refine ⟨⟨hn, hm, hv, ?_, ?_, h.1⟩, rfl, hd, ?_⟩
  · rw [h'.1, hl]
  · rw [h'.1, hl]
    norm_num
  · rw [k.2]
    norm_num [sampleHardware, SweepSettings.defaults, SweepSettings.LoadDefaults]

/-- C19: the real-time span ceiling at the failing input: on every device, `setMode(RealTime)`
followed by `setFullSpan()` from the factory defaults leaves the mode real-time and the span
5.99 GHz, above the 20 MHz `maxRealTimeSpan` of the sample device; `setFullSpan` is the only
mutator that breaks the ceiling: after every sequence of the other mutators, real-time mode
implies `span ≤ maxRealTimeSpan`. -/
theorem C19_setFullSpan_exceeds_real_time_ceiling :
    (∀ hw : Hardware,
      (run hw [Op.setMode MODE_REAL_TIME, Op.setFullSpan]).mode = MODE_REAL_TIME ∧
      (run hw [Op.setMode MODE_REAL_TIME, Op.setFullSpan]).span = 5990000000) ∧
    sampleHardware.maxRealTimeSpan <
      (run sampleHardware [Op.setMode MODE_REAL_TIME, Op.setFullSpan]).span ∧
    (∀ (hw : Hardware) (ops : List Op), (∀ op ∈ ops, op.isFullSpan = false) →
      (run hw ops).mode = MODE_REAL_TIME → (run hw ops).span ≤ hw.maxRealTimeSpan) := by
  have k : ∀ hw : Hardware,
      (run hw [Op.setMode MODE_REAL_TIME, Op.setFullSpan]).mode = MODE_REAL_TIME ∧
      (run hw [Op.setMode MODE_REAL_TIME, Op.setFullSpan]).span = 5990000000 := by
    intro hw
    constructor
    · simp only [run, runFrom, List.foldl, Op.apply_mode, Op.modeAfter]
    · simp only [run, runFrom, List.foldl, Op.apply, SweepSettings.setFullSpan,
        SweepSettings.emitUpdated_span, SweepSettings.AutoBandwidthAdjust_span]
      norm_num
  refine ⟨k, ?_, fun hw ops hops => run_RealTimeCeiling hw ops hops⟩
  rw [(k sampleHardware).2]
  norm_num [sampleHardware]

/-- C20: the real-time span floor at the failing inputs, on the sample device (`minRealTimeSpan`
= 200 kHz): `setSpan(1 kHz)` followed by `setMode(RealTime)` from the factory defaults leaves
the mode real-time with a 1 kHz span; `setMode(RealTime)` followed by `setCenter(50 kHz)` leaves
the mode real-time with an 82 kHz span; on every device `setMode(RealTime)` keeps any span that
is at most `maxRealTimeSpan`, however narrow. -/
theorem C20_real_time_floor_not_enforced :
    ((run sampleHardware [Op.setSpan 1000, Op.setMode MODE_REAL_TIME]).mode = MODE_REAL_TIME ∧
      (run sampleHardware [Op.setSpan 1000, Op.setMode MODE_REAL_TIME]).span = 1000 ∧
      (run sampleHardware [Op.setSpan 1000, Op.setMode MODE_REAL_TIME]).span <
        sampleHardware.BB_MIN_RT_SPAN) ∧
    ((run sampleHardware [Op.setMode MODE_REAL_TIME, Op.setCenter 50000]).mode =
        MODE_REAL_TIME ∧
      (run sampleHardware [Op.setMode MODE_REAL_TIME, Op.setCenter 50000]).span = 82000 ∧
      (run sampleHardware [Op.setMode MODE_REAL_TIME, Op.setCenter 50000]).span <
        sampleHardware.BB_MIN_RT_SPAN) ∧
    (∀ (hw : Hardware) (s : SweepSettings),
      (s.setMode hw MODE_REAL_TIME).mode = MODE_REAL_TIME ∧
      (s.span ≤ hw.maxRealTimeSpan → (s.setMode hw MODE_REAL_TIME).span = s.span)) := by
  have h1 : (run sampleHardware [Op.setSpan 1000, Op.setMode MODE_REAL_TIME]).span = 1000 := by
    simp only [run, runFrom, List.foldl, Op.apply]
    rw [(SweepSettings.setMode_realTime_freq _ _).1]
    have e := (setSpan_edges sampleHardware (SweepSettings.defaults sampleHardware) 1000)
    rw [e.2.2.2, e.1, e.2.1]
    norm_num [fittedRequest, SweepSettings.defaults, SweepSettings.LoadDefaults,
      sampleHardware]
  have h2 : (run sampleHardware [Op.setMode MODE_REAL_TIME, Op.setCenter 50000]).span =
      82000 := by
    simp only [run, runFrom, List.foldl, Op.apply]
    rw [SweepSettings.setCenter_span, (SweepSettings.setMode_realTime_freq _ _).1]
    norm_num [min3, SweepSettings.defaults, SweepSettings.LoadDefaults, sampleHardware]
  refine ⟨⟨?_, h1, ?_⟩, ⟨?_, h2, ?_⟩, fun hw s => ⟨?_, fun h => ?_⟩⟩
  · simp only [run, runFrom, List.foldl, Op.apply_mode, Op.modeAfter]
  · rw [h1]
    norm_num [sampleHardware]
  · simp only [run, runFrom, List.foldl, Op.apply_mode, Op.modeAfter]
  · rw [h2]
    norm_num [sampleHardware]
  · exact Op.apply_mode hw s (Op.setMode MODE_REAL_TIME)
  · rw [(SweepSettings.setMode_realTime_freq hw s).1, min_eq_left h]

end BBApp
